import Mathlib

/-!
# integra-demo: user records, validation and storage access

A shallow embedding of the `user` package (`helpers.go`, `user.go`,
`errors.go`, the `User` type of `service.go`) and of `internal/db/models.go`,
with the properties of the specification proved over it.

Conventions of the embedding

* Go `string` fields of a record are Lean `String`s; they are only compared,
  tested for emptiness and copied.
* Go `int64` is `Int`; where the code can wrap, the wrap is written out.
* `*string` is `Option String` (`nil` is `none`).
* a Go `error` is `Option Error` (`nil` is `none`); a function returning
  `(T, error)` returns a pair, so that the value returned next to an error is
  part of the model.
* a method with a pointer receiver that writes to the receiver returns the
  receiver's new value.
-/

namespace Integra

/-! ## Errors (`user/errors.go`, and the errors made elsewhere) -/

/-- Error values of the program. The first nine are the sentinels of
`user/errors.go`; `Errorf` is an error made on the spot by `fmt.Errorf`;
`ErrNoRows` is `sql.ErrNoRows`; `driver` is any other error coming out of
`database/sql` or the driver. -/
inductive Error where
  | ErrMissingUserID
  | ErrMissingUserName
  | ErrMissingFirstName
  | ErrMissingLastName
  | ErrMissingEmail
  | ErrUserNotFound
  | ErrUpdateUserMissingValues
  | ErrUpdateUserNoRows
  | ErrUserExists
  | Errorf (msg : String)
  | ErrNoRows
  | driver (msg : String)
  deriving DecidableEq, Repr

/-- The method `Error()` of an error: its message text. -/
def Error.message : Error → String
  | .ErrMissingUserID => "missing user_id"
  | .ErrMissingUserName => "missing user_name"
  | .ErrMissingFirstName => "missing first_name"
  | .ErrMissingLastName => "missing last_name"
  | .ErrMissingEmail => "missing email"
  | .ErrUserNotFound => "user not found"
  | .ErrUpdateUserMissingValues => "no values to update"
  | .ErrUpdateUserNoRows => "no rows updated"
  | .ErrUserExists => "user_name already exists"
  | .Errorf msg => msg
  | .ErrNoRows => "sql: no rows in result set"
  | .driver msg => msg

/-! ## Data model (`user/service.go`, `internal/db/models.go`) -/

/-- The type `sql.NullString`: a string and the flag saying it is not NULL. -/
structure NullString where
  String : String
  Valid : Bool
  deriving DecidableEq, Repr

/-- The zero value `sql.NullString{}`. -/
def NullString.zero : NullString := ⟨"", false⟩

/-- The API-facing record `user.User`. -/
structure User where
  ID : Int
  UserName : String
  FirstName : String
  LastName : String
  Email : String
  UserStatus : String
  Department : Option String
  deriving DecidableEq, Repr

/-- The storage-facing record `db.UserDB`. -/
structure UserDB where
  UserID : Int
  UserName : String
  FirstName : String
  LastName : String
  Email : String
  UserStatus : String
  Department : NullString
  deriving DecidableEq, Repr

/-! ## Record mapper (`user/helpers.go`, lines 78 to 114) -/

/-- The method `(*User).ConvertToUserDB`: the row starts with the zero
`NullString` and the department is filled in when the pointer is not nil. -/
def User.ConvertToUserDB (u : User) : UserDB :=
  let userDB : UserDB :=
    { UserID := u.ID
      UserName := u.UserName
      UserStatus := u.UserStatus
      FirstName := u.FirstName
      LastName := u.LastName
      Email := u.Email
      Department := NullString.zero }
  match u.Department with
  | some d => { userDB with Department := { Valid := true, String := d } }
  | none => userDB

/-- The function `ConvertToUser`: the department pointer is left nil unless
the row's department is valid. -/
def ConvertToUser (udb : UserDB) : User :=
  let user : User :=
    { ID := udb.UserID
      UserName := udb.UserName
      UserStatus := udb.UserStatus
      FirstName := udb.FirstName
      LastName := udb.LastName
      Email := udb.Email
      Department := none }
  if udb.Department.Valid then
    { user with Department := some udb.Department.String }
  else
    user

/-! ## Validator (`user/helpers.go`, lines 16 to 68)

`SetUserStatus` calls `strings.ToLower` of the Go library. The library code is
embedded below as far as its result can be compared with an ASCII text: the
fast path for all-ASCII input, and the rune-by-rune mapping otherwise. -/

/-- Lower-casing of one ASCII byte as in the fast path of `strings.ToLower`:
a letter between A and Z is moved by the distance from A to a. -/
def lowerASCII (c : Char) : Char :=
  if 65 ≤ c.toNat ∧ c.toNat ≤ 90 then Char.ofNat (c.toNat + 32) else c

/-- The table lookup of `unicode.ToLower` for a rune above `MaxASCII`. Of the
Unicode case table only the two entries whose image is an ASCII letter are
reproduced (U+0130 is sent to i, U+212A to k); every other rune above
`MaxASCII` has a lower case above `MaxASCII` too and is left as it is here,
which cannot be told apart by a comparison with an ASCII text. -/
def caseRangesLower (r : Char) : Char :=
  if r.toNat = 0x130 then 'i'
  else if r.toNat = 0x212A then 'k'
  else r

/-- The function `unicode.ToLower`. -/
def unicodeToLower (r : Char) : Char :=
  if r.toNat ≤ 0x7F then lowerASCII r else caseRangesLower r

/-- The function `strings.ToLower`: the ASCII fast path when no byte is
`utf8.RuneSelf` or above, `strings.Map(unicode.ToLower, s)` otherwise. -/
def ToLower (s : String) : String :=
  if s.data.all (fun c => decide (c.toNat < 0x80)) then
    String.mk (s.data.map lowerASCII)
  else
    String.mk (s.data.map unicodeToLower)

/-- The method `(*User).setUserStatusActive`. -/
def User.setUserStatusActive (u : User) : User := { u with UserStatus := "A" }

/-- The method `(*User).setUserStatusInactive`. -/
def User.setUserStatusInactive (u : User) : User := { u with UserStatus := "I" }

/-- The method `(*User).setUserStatusTerminated`. -/
def User.setUserStatusTerminated (u : User) : User := { u with UserStatus := "T" }

/-- The method `(*User).SetUserStatus`: a switch on the lower-cased text. -/
def User.SetUserStatus (u : User) (status : String) : User :=
  if ToLower status = "a" then u.setUserStatusActive
  else if ToLower status = "i" then u.setUserStatusInactive
  else if ToLower status = "t" then u.setUserStatusTerminated
  else u.setUserStatusInactive

/-- The method `(*User).ValidateNewUserRequest`: the returned pair is the
receiver after the call and the error. -/
def User.ValidateNewUserRequest (req : User) : User × Option Error :=
  if req.UserName = "" then (req, some .ErrMissingUserName)
  else if req.FirstName = "" then (req, some .ErrMissingFirstName)
  else if req.LastName = "" then (req, some .ErrMissingLastName)
  else if req.Email = "" then (req, some .ErrMissingEmail)
  else (req.SetUserStatus req.UserStatus, none)

/-! ## Identifier parsing (`user/helpers.go`, lines 70 to 76)

`ValidateUserID` calls `strconv.ParseInt(input, 10, 64)`. The library code is
embedded for these two arguments. A Go string is a sequence of bytes and the
parser reads bytes, so the text is a `List UInt8` here; each byte is read
through its numeric value. -/

/-- The two causes of a `*strconv.NumError` the parser can report. -/
inductive NumError where
  | ErrSyntax
  | ErrRange
  deriving DecidableEq, Repr

/-- The bytes of a text (its UTF-8 encoding), as Go stores a string. -/
def bytes (s : String) : List UInt8 := s.toUTF8.data.toList

/-- The constant `maxUint64` of `strconv`. -/
def maxUint64 : Nat := 2 ^ 64 - 1

/-- The helper `lower` of `strconv`: `c | ('x' - 'X')` on a byte. -/
def lower (c : Nat) : Nat := (c ||| (120 - 88)) % 256

/-- The loop of `strconv.ParseUint` over the bytes, for base 10 (so that an
underscore is not skipped). `n` is the `uint64` accumulated so far; the
multiplication and the addition wrap at `2 ^ 64` as in Go. -/
def ParseUint.loop (cutoff maxVal : Nat) : List UInt8 → Nat → Nat × Option NumError
  | [], n => (n, none)
  | b :: rest, n =>
    let c := b.toNat
    let d? : Option Nat :=
      if 48 ≤ c ∧ c ≤ 57 then some (c - 48)
      else if 97 ≤ lower c ∧ lower c ≤ 122 then some (lower c - 97 + 10)
      else none
    match d? with
    | none => (0, some .ErrSyntax)
    | some d =>
      if d ≥ 10 then (0, some .ErrSyntax)
      else if n ≥ cutoff then (maxVal, some .ErrRange)
      else
        let n10 := n * 10 % 2 ^ 64
        let n1 := (n10 + d) % 2 ^ 64
        if n1 < n10 ∨ n1 > maxVal then (maxVal, some .ErrRange)
        else ParseUint.loop cutoff maxVal rest n1

/-- The function `strconv.ParseUint(s, 10, 64)`. -/
def ParseUint (s : List UInt8) : Nat × Option NumError :=
  if s = [] then (0, some .ErrSyntax)
  else
    let cutoff := maxUint64 / 10 + 1
    let maxVal := 2 ^ 64 - 1
    ParseUint.loop cutoff maxVal s 0

/-- The conversion of an integer to `int64`: reduction into the range from
`-2 ^ 63` to `2 ^ 63 - 1` modulo `2 ^ 64`. -/
def wrapInt64 (z : Int) : Int := (z + 2 ^ 63) % 2 ^ 64 - 2 ^ 63

/-- The part of `strconv.ParseInt(s, 10, 64)` after the sign is picked off:
`neg` tells whether a minus sign was read, `s1` is the rest of the text. -/
def ParseInt.body (neg : Bool) (s1 : List UInt8) : Int × Option NumError :=
  let (un, err) := ParseUint s1
  if err ≠ none ∧ err ≠ some .ErrRange then (0, err)
  else
    let cutoff : Nat := 2 ^ 63
    if ¬ neg ∧ un ≥ cutoff then ((cutoff : Int) - 1, some .ErrRange)
    else if neg ∧ un > cutoff then (-(cutoff : Int), some .ErrRange)
    else
      let n := wrapInt64 un
      let n := if neg then wrapInt64 (-n) else n
      (n, none)

/-- The function `strconv.ParseInt(s, 10, 64)`: the empty text is a syntax
error, a leading plus (43) or minus (45) is picked off, and the rest is
parsed as an unsigned number and checked against the signed range. -/
def ParseInt (s : List UInt8) : Int × Option NumError :=
  match s with
  | [] => (0, some .ErrSyntax)
  | c0 :: rest =>
    if c0.toNat = 43 then ParseInt.body false rest
    else if c0.toNat = 45 then ParseInt.body true rest
    else ParseInt.body false s

/-- The function `ValidateUserID`. -/
def ValidateUserID (input : List UInt8) : Int × Option Error :=
  let (id, err) := ParseInt input
  if err ≠ none then (0, some (.Errorf "invalid user_id: must be an integer"))
  else (id, none)

/-! ### What a decimal numeral is (the specification side) -/

/-- An ASCII decimal digit. -/
def IsDigit (b : UInt8) : Prop := 48 ≤ b.toNat ∧ b.toNat ≤ 57

/-- The number read off a sequence of digits, continuing from `n`, without any
bound. -/
def decFrom (n : Nat) (ds : List UInt8) : Nat :=
  ds.foldl (fun a d => 10 * a + (d.toNat - 48)) n

/-- The number a sequence of digits denotes. -/
def decVal (ds : List UInt8) : Nat := decFrom 0 ds

/-- The text `s` is a signed base-10 numeral of the integer `n`: an optional
plus or minus sign followed by one or more digits. -/
def IsNumeralOf (s : List UInt8) (n : Int) : Prop :=
  ∃ sign ds : List UInt8, s = sign ++ ds ∧ (sign = [] ∨ sign = [43] ∨ sign = [45]) ∧
    ds ≠ [] ∧ (∀ b ∈ ds, IsDigit b) ∧
    n = if sign = [45] then -(decVal ds : Int) else (decVal ds : Int)

instance IsDigit.decidable (b : UInt8) : Decidable (IsDigit b) := by
  unfold IsDigit
  exact inferInstance

/-- The number a text denotes when it is one or more digits. -/
def digitsValue (ds : List UInt8) : Option Nat :=
  if ds ≠ [] ∧ ∀ b ∈ ds, IsDigit b then some (decVal ds) else none

/-- The value of a text as a signed base-10 numeral, if it is one; no bound is
applied. A decidable form of `IsNumeralOf`. -/
def numeralValue (s : List UInt8) : Option Int :=
  match s with
  | [] => none
  | c :: rest =>
    if c = 43 then Option.map (fun m : Nat => (m : Int)) (digitsValue rest)
    else if c = 45 then Option.map (fun m : Nat => -(m : Int)) (digitsValue rest)
    else Option.map (fun m : Nat => (m : Int)) (digitsValue s)

/-- The byte of one decimal digit. -/
def digitByte (d : Nat) : UInt8 := UInt8.ofNat (48 + d)

/-- The decimal rendering of a natural number, most significant digit first. -/
def FormatNat (m : Nat) : List UInt8 :=
  if m = 0 then [48] else (Nat.digits 10 m).reverse.map digitByte

/-- The decimal rendering of an integer: a minus sign for a negative number,
then the digits of its absolute value. -/
def FormatInt (n : Int) : List UInt8 :=
  if n < 0 then 45 :: FormatNat n.natAbs else FormatNat n.natAbs

/-! ## Storage access (`user/user.go`)

The statements are built with the `squirrel` library and run through
`database/sql`. Both are outside the repository; they are modelled as far as
`user.go` uses them: the SQL text and argument list a builder produces, and
the outcome the connection gives back for a statement. The connection keeps
the list of the statements it was sent, so that "no query is issued" is a
statement about that list. -/

/-- A value bound to a placeholder of a statement. -/
inductive Value where
  | int64 (i : Int)
  | string (s : String)
  | nullString (n : NullString)
  | stringPtr (p : Option String)
  deriving DecidableEq, Repr

/-- A statement as handed to `database/sql`: the SQL text and the arguments
that go with its placeholders. -/
structure Stmt where
  query : String
  args : List Value
  deriving DecidableEq, Repr

/-- The constant `DbName` of `user/helpers.go`. -/
def DbName : String := "users"

/-- Modelled from the spec: the constant `db.AllColumns`, whose declaration is
in a file of `internal/db` that is not among the sources. The spec gives the
fixed ordered column set user_id, user_name, first_name, last_name, email,
user_status, department; `sq.Select(db.AllColumns)` passes it as one text. -/
def AllColumns : String :=
  "user_id, user_name, first_name, last_name, email, user_status, department"

/-- A condition `sq.Eq` with one column and a scalar value. -/
structure sq.Eq where
  column : String
  value : Value
  deriving DecidableEq, Repr

/-- The placeholder number `i` in the chosen format: `sq.Dollar` numbers the
placeholders from one, the default format writes a question mark. -/
def sq.placeholder (dollar : Bool) (i : Nat) : String :=
  if dollar then "$" ++ toString i else "?"

/-- A `sq.SelectBuilder` as `user.go` fills it: result columns, table,
equality conditions, and whether `PlaceholderFormat(sq.Dollar)` was set. -/
structure sq.SelectBuilder where
  Columns : List String
  From : String
  WhereParts : List sq.Eq
  Dollar : Bool
  deriving DecidableEq, Repr

/-- The method `ToSql` of a select builder: SQL text, arguments, and the error
for a statement without result columns. -/
def sq.SelectBuilder.ToSql (b : sq.SelectBuilder) : String × List Value × Option Error :=
  if b.Columns = [] then
    ("", [], some (.Errorf "select statements must have at least one result column"))
  else
    let sel := "SELECT " ++ ", ".intercalate b.Columns
    let frm := if b.From = "" then "" else " FROM " ++ b.From
    let conds :=
      b.WhereParts.enum.map (fun p => p.2.column ++ " = " ++ sq.placeholder b.Dollar (p.1 + 1))
    let whr := if b.WhereParts = [] then "" else " WHERE " ++ " AND ".intercalate conds
    (sel ++ frm ++ whr, b.WhereParts.map (fun p => p.value), none)

/-- The behaviour of the database behind a connection, over a storage state
`σ`. Each field is one way `user.go` uses `database/sql`, and gives the outcome
and the storage state afterwards.
* `queryRowUser`: `QueryRow(q, args...).Scan` into the seven fields of a
  `UserDB`; the error is `sql.ErrNoRows` or any other error.
* `queryRowInt`: `QueryRow(q, args...).Scan` into one integer.
* `query`: `Query(q, args...)` and the iteration over its rows: the query error,
  or the scan outcome of each row in order together with `rows.Err()`.
* `exec`: `Exec(q, args...)`: the execution error, or the result, whose
  `RowsAffected()` is an error or a count. -/
structure Driver (σ : Type) where
  queryRowUser : σ → Stmt → Except Error UserDB × σ
  queryRowInt : σ → Stmt → Except Error Int × σ
  query : σ → Stmt → Except Error (List (Except Error UserDB) × Option Error) × σ
  exec : σ → Stmt → Except Error (Except Error Int) × σ

/-- A connection `*sql.DB`: the database behind it, its current state, and the
statements sent over the connection so far, oldest first. -/
structure DB (σ : Type) where
  driver : Driver σ
  state : σ
  trace : List Stmt

/-- The connection after `stmt` was sent and the storage moved to `st`. -/
def DB.sent {σ : Type} (dbcon : DB σ) (stmt : Stmt) (st : σ) : DB σ :=
  { dbcon with state := st, trace := dbcon.trace ++ [stmt] }

/-- The function `GetUser`: the user or nil, the error or nil, and the
connection afterwards. -/
def GetUser {σ : Type} (dbcon : DB σ) (id : Int) : (Option User × Option Error) × DB σ :=
  if id = 0 then ((none, some .ErrMissingUserID), dbcon)
  else
    let b : sq.SelectBuilder :=
      { Columns := [AllColumns]
        From := DbName
        WhereParts := [{ column := "user_id", value := .int64 id }]
        Dollar := true }
    match b.ToSql with
    | (_, _, some err) => ((none, some err), dbcon)
    | (query, args, none) =>
      let stmt : Stmt := { query := query, args := args }
      let out := dbcon.driver.queryRowUser dbcon.state stmt
      let dbcon1 := dbcon.sent stmt out.2
      match out.1 with
      | .error .ErrNoRows => ((none, some .ErrUserNotFound), dbcon1)
      | .error err => ((none, some err), dbcon1)
      | .ok result => ((some (ConvertToUser result), none), dbcon1)

/-- The select statement for one user: all columns of the table, filtered by
the id through the placeholder `$1`, with the id as the only argument. -/
def selectUserByID (id : Int) : Stmt :=
  { query := "SELECT user_id, user_name, first_name, last_name, email, user_status, department FROM users WHERE user_id = $1"
    args := [.int64 id] }

/-- A database for examples, in the manner of the mock of the tests: the
storage state is the list of rows, a row query with one integer argument
answers with the first row of that id or with `sql.ErrNoRows`, and every other
use answers with a driver error. -/
def mockDriver : Driver (List UserDB) where
  queryRowUser st stmt :=
    match stmt.args with
    | [.int64 i] =>
      match st.find? (fun r => decide (r.UserID = i)) with
      | some r => (.ok r, st)
      | none => (.error .ErrNoRows, st)
    | _ => (.error (.driver "unexpected arguments"), st)
  queryRowInt st _ := (.error (.driver "not expected"), st)
  query st _ := (.error (.driver "not expected"), st)
  exec st _ := (.error (.driver "not expected"), st)

/-- A connection to the example database holding two rows, the second with a
NULL department; nothing has been sent over it yet. -/
def mockDB : DB (List UserDB) :=
  { driver := mockDriver
    state :=
      [ ⟨1, "jdoe", "John", "Doe", "jdoe@example.com", "A", ⟨"Engineering", true⟩⟩,
        ⟨2, "asmith", "Alice", "Smith", "asmith@example.com", "I", ⟨"", false⟩⟩ ]
    trace := [] }

/-! ### `CheckUserNameExists` and `CreateUser` -/

/-- The function `CheckUserNameExists`: whether the name exists, the error or
nil, and the connection afterwards. The count is read with
`QueryRow(...).Scan(&count)`. -/
def CheckUserNameExists {σ : Type} (dbcon : DB σ) (userName : String) :
    (Bool × Option Error) × DB σ :=
  if userName = "" then ((false, some .ErrMissingUserName), dbcon)
  else
    let b : sq.SelectBuilder :=
      { Columns := ["COUNT(*)"]
        From := DbName
        WhereParts := [{ column := "user_name", value := .string userName }]
        Dollar := true }
    match b.ToSql with
    | (_, _, some err) => ((false, some err), dbcon)
    | (query, args, none) =>
      let stmt : Stmt := { query := query, args := args }
      let out := dbcon.driver.queryRowInt dbcon.state stmt
      let dbcon1 := dbcon.sent stmt out.2
      match out.1 with
      | .error err => ((false, some err), dbcon1)
      | .ok count => ((decide (count = 1), none), dbcon1)

/-- A `sq.InsertBuilder` as `user.go` fills it: table, columns, one list of
values per row, suffixes, and whether `PlaceholderFormat(sq.Dollar)` was
set. -/
structure sq.InsertBuilder where
  Into : String
  Columns : List String
  Values : List (List Value)
  Suffixes : List String
  Dollar : Bool
  deriving DecidableEq, Repr

/-- The placeholders of one row of values, numbered on from `start`, in
brackets. -/
def sq.rowPlaceholders (dollar : Bool) (start : Nat) (row : List Value) : String :=
  "(" ++ ",".intercalate (row.enum.map (fun p => sq.placeholder dollar (start + p.1 + 1))) ++ ")"

/-- The rows of values of an insert statement, each with its placeholders
numbered on from the rows before it. -/
def sq.valuesPlaceholders (dollar : Bool) : Nat → List (List Value) → List String
  | _, [] => []
  | start, row :: rows =>
    sq.rowPlaceholders dollar start row :: sq.valuesPlaceholders dollar (start + row.length) rows

/-- The method `ToSql` of an insert builder: SQL text, arguments (the values
row by row), and the error for a statement without table or without values. -/
def sq.InsertBuilder.ToSql (b : sq.InsertBuilder) : String × List Value × Option Error :=
  if b.Into = "" then
    ("", [], some (.Errorf "insert statements must specify a table"))
  else if b.Values = [] then
    ("", [], some (.Errorf "insert statements must have at least one set of values or select clause"))
  else
    let cols := if b.Columns = [] then "" else "(" ++ ",".intercalate b.Columns ++ ") "
    let vals := "VALUES " ++ ",".intercalate (sq.valuesPlaceholders b.Dollar 0 b.Values)
    let suffix := if b.Suffixes = [] then "" else " " ++ " ".intercalate b.Suffixes
    ("INSERT INTO " ++ b.Into ++ " " ++ cols ++ vals ++ suffix, b.Values.flatten, none)

/-- The function `CreateUser`. The user returned on success is the one passed
in, after `u.ID = lastInsertID`. -/
def CreateUser {σ : Type} (dbcon : DB σ) (u : User) : (Option User × Option Error) × DB σ :=
  let chk := CheckUserNameExists dbcon u.UserName
  match chk.1.2 with
  | some err => ((none, some err), chk.2)
  | none =>
    if chk.1.1 then ((none, some .ErrUserExists), chk.2)
    else
      let userDB := u.ConvertToUserDB
      let b : sq.InsertBuilder :=
        { Into := DbName
          Columns := ["user_name", "first_name", "last_name", "email", "user_status", "department"]
          Values := [[.string userDB.UserName, .string userDB.FirstName, .string userDB.LastName,
            .string userDB.Email, .string userDB.UserStatus, .nullString userDB.Department]]
          Suffixes := ["RETURNING user_id"]
          Dollar := true }
      match b.ToSql with
      | (_, _, some err) => ((none, some err), chk.2)
      | (query, args, none) =>
        let stmt : Stmt := { query := query, args := args }
        let out := chk.2.driver.queryRowInt chk.2.state stmt
        let dbcon2 := chk.2.sent stmt out.2
        match out.1 with
        | .error err => ((none, some err), dbcon2)
        | .ok lastInsertID => ((some { u with ID := lastInsertID }, none), dbcon2)

/-! ### `UpdateUser`, `DeleteUser` and `GetAllUsers` -/

/-- The assignment `m[k] = v` on a Go map, kept as a list of entries with
distinct keys: the entry of `k` is replaced, or added when there is none. -/
def mapSet (m : List (String × Value)) (k : String) (v : Value) : List (String × Value) :=
  match m with
  | [] => [(k, v)]
  | p :: rest => if p.1 = k then (k, v) :: rest else p :: mapSet rest k v

/-- The entry of `k` in a Go map, if there is one. -/
def mapGet (m : List (String × Value)) (k : String) : Option Value :=
  match m with
  | [] => none
  | p :: rest => if p.1 = k then some p.2 else mapGet rest k

/-- The order of Go on texts, byte by byte, read off the code points. -/
def lessChars : List Char → List Char → Bool
  | _, [] => false
  | [], _ :: _ => true
  | a :: as, b :: bs =>
    if a.toNat < b.toNat then true
    else if b.toNat < a.toNat then false
    else lessChars as bs

/-- One step of sorting the entries of a map by key: `p` goes before the
first entry with a greater key. -/
def insertByKey (p : String × Value) : List (String × Value) → List (String × Value)
  | [] => [p]
  | q :: rest =>
    if lessChars p.1.data q.1.data then p :: q :: rest else q :: insertByKey p rest

/-- The entries of a map in the order of their keys, as `SetMap` walks them
after `sort.Strings(keys)`. -/
def sortByKey (m : List (String × Value)) : List (String × Value) :=
  m.foldr insertByKey []

/-- A `sq.UpdateBuilder` as `user.go` fills it: table, set clauses in order,
equality conditions, suffixes, and whether `PlaceholderFormat(sq.Dollar)` was
set. -/
structure sq.UpdateBuilder where
  Table : String
  SetClauses : List (String × Value)
  WhereParts : List sq.Eq
  Suffixes : List String
  Dollar : Bool
  deriving DecidableEq, Repr

/-- The method `SetMap` of an update builder: one set clause per entry of the
map, in the order of the keys. -/
def sq.UpdateBuilder.SetMap (b : sq.UpdateBuilder) (clauses : List (String × Value)) :
    sq.UpdateBuilder :=
  { b with SetClauses := b.SetClauses ++ sortByKey clauses }

/-- The method `ToSql` of an update builder: SQL text, arguments (the set
values, then the values of the conditions), and the error for a statement
without table or without set clause. -/
def sq.UpdateBuilder.ToSql (b : sq.UpdateBuilder) : String × List Value × Option Error :=
  if b.Table = "" then
    ("", [], some (.Errorf "update statements must specify a table"))
  else if b.SetClauses = [] then
    ("", [], some (.Errorf "update statements must have at least one Set clause"))
  else
    let n := b.SetClauses.length
    let sets :=
      b.SetClauses.enum.map (fun p => p.2.1 ++ " = " ++ sq.placeholder b.Dollar (p.1 + 1))
    let conds :=
      b.WhereParts.enum.map
        (fun p => p.2.column ++ " = " ++ sq.placeholder b.Dollar (n + p.1 + 1))
    let whr := if b.WhereParts = [] then "" else " WHERE " ++ " AND ".intercalate conds
    let suffix := if b.Suffixes = [] then "" else " " ++ " ".intercalate b.Suffixes
    ("UPDATE " ++ b.Table ++ " SET " ++ ", ".intercalate sets ++ whr ++ suffix,
      b.SetClauses.map (fun p => p.2) ++ b.WhereParts.map (fun p => p.value), none)

/-- The map `updateValues` that `UpdateUser` fills (lines 163 to 188): a
column is set when its text is not empty, the department when the pointer is
not nil, and then to the pointer itself. -/
def UpdateUser.updateValues (u : User) : List (String × Value) :=
  let m : List (String × Value) := []
  let m := if u.UserName ≠ "" then mapSet m "user_name" (.string u.UserName) else m
  let m := if u.FirstName ≠ "" then mapSet m "first_name" (.string u.FirstName) else m
  let m := if u.LastName ≠ "" then mapSet m "last_name" (.string u.LastName) else m
  let m := if u.Email ≠ "" then mapSet m "email" (.string u.Email) else m
  let m := if u.UserStatus ≠ "" then mapSet m "user_status" (.string u.UserStatus) else m
  let m := if u.Department ≠ none then mapSet m "department" (.stringPtr u.Department) else m
  m

/-- The update builder of `UpdateUser` (lines 194 to 198). -/
def UpdateUser.builder (u : User) : sq.UpdateBuilder :=
  sq.UpdateBuilder.SetMap
    { Table := DbName
      SetClauses := []
      WhereParts := [{ column := "user_id", value := .int64 u.ID }]
      Suffixes := ["RETURNING user_id"]
      Dollar := true }
    (UpdateUser.updateValues u)

/-- The function `UpdateUser`. -/
def UpdateUser {σ : Type} (dbcon : DB σ) (u : User) : (Option User × Option Error) × DB σ :=
  if u.ID = 0 then ((none, some .ErrMissingUserID), dbcon)
  else if (UpdateUser.updateValues u).length = 0 then
    ((none, some .ErrUpdateUserMissingValues), dbcon)
  else
    match (UpdateUser.builder u).ToSql with
    | (_, _, some err) => ((none, some err), dbcon)
    | (query, args, none) =>
      let stmt : Stmt := { query := query, args := args }
      let out := dbcon.driver.exec dbcon.state stmt
      let dbcon1 := dbcon.sent stmt out.2
      match out.1 with
      | .error err => ((none, some err), dbcon1)
      | .ok (.error err) => ((none, some err), dbcon1)
      | .ok (.ok rowsAffected) =>
        if rowsAffected = 0 then ((none, some .ErrUpdateUserNoRows), dbcon1)
        else
          let got := GetUser dbcon1 u.ID
          match got.1.2 with
          | some err => ((none, some err), got.2)
          | none => ((got.1.1, none), got.2)

/-- A `sq.DeleteBuilder` as `user.go` fills it. -/
structure sq.DeleteBuilder where
  From : String
  WhereParts : List sq.Eq
  Dollar : Bool
  deriving DecidableEq, Repr

/-- The method `ToSql` of a delete builder: SQL text, arguments, and the error
for a statement without table. -/
def sq.DeleteBuilder.ToSql (b : sq.DeleteBuilder) : String × List Value × Option Error :=
  if b.From = "" then
    ("", [], some (.Errorf "delete statements must specify a From table"))
  else
    let conds :=
      b.WhereParts.enum.map (fun p => p.2.column ++ " = " ++ sq.placeholder b.Dollar (p.1 + 1))
    let whr := if b.WhereParts = [] then "" else " WHERE " ++ " AND ".intercalate conds
    ("DELETE FROM " ++ b.From ++ whr, b.WhereParts.map (fun p => p.value), none)

/-- The function `DeleteUser`: the error or nil, and the connection
afterwards. -/
def DeleteUser {σ : Type} (dbcon : DB σ) (id : Int) : Option Error × DB σ :=
  let b : sq.DeleteBuilder :=
    { From := DbName
      WhereParts := [{ column := "user_id", value := .int64 id }]
      Dollar := true }
  match b.ToSql with
  | (_, _, some err) => (some err, dbcon)
  | (query, args, none) =>
    let stmt : Stmt := { query := query, args := args }
    let out := dbcon.driver.exec dbcon.state stmt
    let dbcon1 := dbcon.sent stmt out.2
    match out.1 with
    | .error err => (some err, dbcon1)
    | .ok (.error err) => (some err, dbcon1)
    | .ok (.ok numRows) =>
      if numRows = 0 then (some .ErrUserNotFound, dbcon1) else (none, dbcon1)

/-- The loop of `GetAllUsers` over the rows: each row is scanned and its
conversion appended to `results`; the first scan error ends the function. -/
def GetAllUsers.loop : List (Except Error UserDB) → List User → Except Error (List User)
  | [], results => .ok results
  | .error err :: _, _ => .error err
  | .ok udb :: rest, results => GetAllUsers.loop rest (results ++ [ConvertToUser udb])

/-- The function `GetAllUsers`: the users (a nil slice is the empty list), the
error or nil, and the connection afterwards. The select is built without
`PlaceholderFormat` and without condition. -/
def GetAllUsers {σ : Type} (dbcon : DB σ) : (List User × Option Error) × DB σ :=
  let b : sq.SelectBuilder :=
    { Columns := [AllColumns]
      From := DbName
      WhereParts := []
      Dollar := false }
  match b.ToSql with
  | (_, _, some err) => (([], some err), dbcon)
  | (query, args, none) =>
    let stmt : Stmt := { query := query, args := args }
    let out := dbcon.driver.query dbcon.state stmt
    let dbcon1 := dbcon.sent stmt out.2
    match out.1 with
    | .error err => (([], some err), dbcon1)
    | .ok (rows, iterErr) =>
      match GetAllUsers.loop rows [] with
      | .error err => (([], some err), dbcon1)
      | .ok results =>
        match iterErr with
        | some err => (([], some err), dbcon1)
        | none => ((results, none), dbcon1)

/-- The update statement for a user: one set clause per entry of the map in
the order of the keys, numbered from `$1`, then the filter on the id with the
next number, and the id asked back; the arguments are the set values in that
order followed by the user's id. -/
def updateUserStmt (u : User) : Stmt :=
  let sets := sortByKey (UpdateUser.updateValues u)
  { query :=
      "UPDATE users SET "
        ++ ", ".intercalate (sets.enum.map (fun p => p.2.1 ++ " = $" ++ toString (p.1 + 1)))
        ++ " WHERE user_id = $" ++ toString (sets.length + 1) ++ " RETURNING user_id"
    args := sets.map (fun p => p.2) ++ [.int64 u.ID] }

/-- The delete statement for an id. -/
def deleteUserByID (id : Int) : Stmt :=
  { query := "DELETE FROM users WHERE user_id = $1"
    args := [.int64 id] }

/-- The select statement for all users: no condition and no argument. -/
def selectAllUsers : Stmt :=
  { query := "SELECT user_id, user_name, first_name, last_name, email, user_status, department FROM users"
    args := [] }

/-- The count statement for a username: the number of rows of the table with
that name, given through the placeholder `$1`. -/
def countByUserName (userName : String) : Stmt :=
  { query := "SELECT COUNT(*) FROM users WHERE user_name = $1"
    args := [.string userName] }

/-- The insert statement for a row: the six columns other than the id, one
placeholder each, the values as arguments in the same order, and the id asked
back. -/
def insertUser (r : UserDB) : Stmt :=
  { query := "INSERT INTO users (user_name,first_name,last_name,email,user_status,department) VALUES ($1,$2,$3,$4,$5,$6) RETURNING user_id"
    args := [.string r.UserName, .string r.FirstName, .string r.LastName, .string r.Email,
      .string r.UserStatus, .nullString r.Department] }

/-- One answer of a scripted database, by the way the statement is run. -/
inductive Reply where
  | rowUser (r : Except Error UserDB)
  | rowInt (r : Except Error Int)
  | rows (r : Except Error (List (Except Error UserDB) × Option Error))
  | result (r : Except Error (Except Error Int))

/-- A scripted database for examples, in the manner of `sqlmock`: the storage
state is the queue of answers still expected; a statement takes the first
answer when it is of its kind, and gets a driver error otherwise. -/
def scriptDriver : Driver (List Reply) where
  queryRowUser st _ :=
    match st with
    | .rowUser r :: rest => (r, rest)
    | _ => (.error (.driver "call not expected"), st)
  queryRowInt st _ :=
    match st with
    | .rowInt r :: rest => (r, rest)
    | _ => (.error (.driver "call not expected"), st)
  query st _ :=
    match st with
    | .rows r :: rest => (r, rest)
    | _ => (.error (.driver "call not expected"), st)
  exec st _ :=
    match st with
    | .result r :: rest => (r, rest)
    | _ => (.error (.driver "call not expected"), st)

/-- A fresh connection to the scripted database with the given answers. -/
def scriptDB (script : List Reply) : DB (List Reply) :=
  { driver := scriptDriver, state := script, trace := [] }

/-! ## User service (`user/service.go`)

The service holds its collaborators as function fields. They act on an outer
world `ω` (the storage and whatever else they touch); the service itself
records, in order, each call it makes to the connection factory, to a storage
delegate, and to `Close`, so that "is called" and "is released" are statements
about that record. -/

/-- A call the service makes to the outside. -/
inductive Event where
  | connect
  | close
  | getUser (id : Int)
  | getAllUsers
  | createUser (u : User)
  | updateUser (u : User)
  | deleteUser (id : Int)
  deriving DecidableEq, Repr

/-- A connection `*sql.DB` as the service uses it: its method `Close`. -/
structure Conn (ω : Type) where
  Close : ω → ω

/-- The type `UserService`: the eight function fields. The factory gives a
ready connection or an error. -/
structure UserService (ω : Type) where
  ValidateUserID : List UInt8 → Int × Option Error
  ConnectDB : ω → Except Error (Conn ω) × ω
  CheckUserNameExists : Conn ω → String → ω → (Bool × Option Error) × ω
  CreateUserFunc : Conn ω → User → ω → (Option User × Option Error) × ω
  UpdateUserFunc : Conn ω → User → ω → (Option User × Option Error) × ω
  DeleteUserFunc : Conn ω → Int → ω → Option Error × ω
  GetUserFunc : Conn ω → Int → ω → (Option User × Option Error) × ω
  GetAllUsersFunc : Conn ω → ω → (List User × Option Error) × ω

/-- The request context `echo.Context` as far as the service reads it: the
path parameters, as byte texts. -/
structure Context where
  Param : String → List UInt8

/-- The outer world together with the record of the calls made so far, oldest
first. -/
structure Sys (ω : Type) where
  world : ω
  log : List Event

/-- The method `(*UserService).GetByID`. The deferred `dbcon.Close()` runs
after the delegate, before the method returns. -/
def UserService.GetByID {ω : Type} (us : UserService ω) (c : Context) (s : Sys ω) :
    (Option User × Option Error) × Sys ω :=
  let userID := c.Param "user_id"
  let v := us.ValidateUserID userID
  match v.2 with
  | some err => ((none, some err), s)
  | none =>
    let conn := us.ConnectDB s.world
    let s1 : Sys ω := { world := conn.2, log := s.log ++ [.connect] }
    match conn.1 with
    | .error err => ((none, some err), s1)
    | .ok dbcon =>
      let r := us.GetUserFunc dbcon v.1 s1.world
      let s2 : Sys ω := { world := dbcon.Close r.2, log := s1.log ++ [.getUser v.1, .close] }
      match r.1.2 with
      | some err => ((none, some err), s2)
      | none => ((r.1.1, none), s2)

/-- The method `(*UserService).GetAll`. -/
def UserService.GetAll {ω : Type} (us : UserService ω) (_c : Context) (s : Sys ω) :
    (List User × Option Error) × Sys ω :=
  let conn := us.ConnectDB s.world
  let s1 : Sys ω := { world := conn.2, log := s.log ++ [.connect] }
  match conn.1 with
  | .error err => (([], some err), s1)
  | .ok dbcon =>
    let r := us.GetAllUsersFunc dbcon s1.world
    let s2 : Sys ω := { world := dbcon.Close r.2, log := s1.log ++ [.getAllUsers, .close] }
    match r.1.2 with
    | some err => (([], some err), s2)
    | none => ((r.1.1, none), s2)

/-- The method `(*UserService).Create`. -/
def UserService.Create {ω : Type} (us : UserService ω) (_c : Context) (reqUser : User)
    (s : Sys ω) : (Option User × Option Error) × Sys ω :=
  let conn := us.ConnectDB s.world
  let s1 : Sys ω := { world := conn.2, log := s.log ++ [.connect] }
  match conn.1 with
  | .error err => ((none, some err), s1)
  | .ok dbcon =>
    let r := us.CreateUserFunc dbcon reqUser s1.world
    let s2 : Sys ω :=
      { world := dbcon.Close r.2, log := s1.log ++ [.createUser reqUser, .close] }
    match r.1.2 with
    | some err => ((none, some err), s2)
    | none => ((r.1.1, none), s2)

/-- The method `(*UserService).Update`. -/
def UserService.Update {ω : Type} (us : UserService ω) (_c : Context) (reqUser : User)
    (s : Sys ω) : (Option User × Option Error) × Sys ω :=
  let conn := us.ConnectDB s.world
  let s1 : Sys ω := { world := conn.2, log := s.log ++ [.connect] }
  match conn.1 with
  | .error err => ((none, some err), s1)
  | .ok dbcon =>
    let r := us.UpdateUserFunc dbcon reqUser s1.world
    let s2 : Sys ω :=
      { world := dbcon.Close r.2, log := s1.log ++ [.updateUser reqUser, .close] }
    match r.1.2 with
    | some err => ((none, some err), s2)
    | none => ((r.1.1, none), s2)

/-- The method `(*UserService).DeleteByID`. -/
def UserService.DeleteByID {ω : Type} (us : UserService ω) (c : Context) (s : Sys ω) :
    Option Error × Sys ω :=
  let userID := c.Param "user_id"
  let v := us.ValidateUserID userID
  match v.2 with
  | some err => (some err, s)
  | none =>
    let conn := us.ConnectDB s.world
    let s1 : Sys ω := { world := conn.2, log := s.log ++ [.connect] }
    match conn.1 with
    | .error err => (some err, s1)
    | .ok dbcon =>
      let r := us.DeleteUserFunc dbcon v.1 s1.world
      let s2 : Sys ω :=
        { world := dbcon.Close r.2, log := s1.log ++ [.deleteUser v.1, .close] }
      match r.1 with
      | some err => (some err, s2)
      | none => (none, s2)

/-- The result of a delegate is passed on: without error it is returned as it
is, with an error that error is returned as it is, with no user. -/
def PassedOn (r res : Option User × Option Error) : Prop :=
  (r.2 = none → res = r) ∧ (∀ err : Error, r.2 = some err → res = (none, some err))

/-- The result of the list delegate is passed on: without error it is
returned as it is, with an error that error is returned as it is, with no
users. -/
def PassedOnList (r res : List User × Option Error) : Prop :=
  (r.2 = none → res = r) ∧ (∀ err : Error, r.2 = some err → res = ([], some err))

/-- A service for examples, in the manner of the service test: the world
counts the connections that are open, the validator rejects the text bad and
otherwise answers 123, the factory fails when `connectFails` is set, and the
delegates answer with fixed values. -/
def exampleService (connectFails : Bool) : UserService Nat where
  ValidateUserID s :=
    if s = bytes "bad" then (0, some (.Errorf "invalid ID")) else (123, none)
  ConnectDB w :=
    if connectFails then (.error (.driver "connection refused"), w)
    else (.ok { Close := fun n => n - 1 }, w + 1)
  CheckUserNameExists _ _ w := ((false, none), w)
  CreateUserFunc _ u w := ((some { u with ID := 101 }, none), w)
  UpdateUserFunc _ u w := ((some { u with UserName := "updated" }, none), w)
  DeleteUserFunc _ _ w := (none, w)
  GetUserFunc _ id w := ((some (User.mk id "testuser" "" "" "" "" none), none), w)
  GetAllUsersFunc _ w := (([User.mk 1 "alice" "" "" "" "" none], none), w)

/-- A request context whose path parameter `user_id` is the given text. -/
def exampleContext (userID : String) : Context where
  Param name := if name = "user_id" then bytes userID else []

/-! ## HTTP handlers (`internal/handlers/handlers.go`, `internal/handlers/types.go`)

A handler is given the service as the interface `user.Service` and the request
context. The response it writes with `c.JSON` or `c.NoContent` is the status
code and the value handed over for the body; the calls it makes to the
service are recorded in order. -/

/-- The interface `user.Service`: its five methods, acting on an outer
world. -/
structure Service (ω : Type) where
  GetAll : Context → ω → (List User × Option Error) × ω
  GetByID : Context → ω → (Option User × Option Error) × ω
  Create : Context → User → ω → (Option User × Option Error) × ω
  Update : Context → User → ω → (Option User × Option Error) × ω
  DeleteByID : Context → ω → Option Error × ω

/-- The type `UserService` as an implementation of the interface
(`var _ Service = (*UserService)(nil)`). -/
def UserService.toService {ω : Type} (us : UserService ω) : Service (Sys ω) where
  GetAll := us.GetAll
  GetByID := us.GetByID
  Create := us.Create
  Update := us.Update
  DeleteByID := us.DeleteByID

/-- The type `ErrorResponse` of `types.go`: the one field `error`. -/
structure ErrorResponse where
  Error : String
  deriving DecidableEq, Repr

/-- The value a handler hands over for the response body: nothing, an error
response, a user (the pointer may be nil), or a list of users. -/
inductive Body where
  | empty
  | error (e : ErrorResponse)
  | user (u : Option User)
  | users (us : List User)
  deriving DecidableEq, Repr

/-- A response as written by a handler. -/
structure Response where
  status : Nat
  body : Body
  deriving DecidableEq, Repr

/-- The constant `http.StatusOK`. -/
def http.StatusOK : Nat := 200

/-- The constant `http.StatusCreated`. -/
def http.StatusCreated : Nat := 201

/-- The constant `http.StatusNoContent`. -/
def http.StatusNoContent : Nat := 204

/-- The constant `http.StatusBadRequest`. -/
def http.StatusBadRequest : Nat := 400

/-- The constant `http.StatusInternalServerError`. -/
def http.StatusInternalServerError : Nat := 500

/-- The method `c.JSON(code, i)`. -/
def JSON (code : Nat) (i : Body) : Response := { status := code, body := i }

/-- The method `c.NoContent(code)`. -/
def NoContent (code : Nat) : Response := { status := code, body := .empty }

/-- The request context of a handler: the path parameters, and what
`c.Bind(&userRequest)` gives for the body, an error or the user read from
it. -/
structure Request extends Context where
  Bind : Except Error User

/-- A call a handler makes to the service. -/
inductive Call where
  | getAll
  | getByID
  | create (u : User)
  | update (u : User)
  | deleteByID
  deriving DecidableEq, Repr

/-- What a handler has done when it returns: the response written, the outer
world, and the calls made to the service, oldest first. -/
structure Handled (ω : Type) where
  response : Response
  world : ω
  calls : List Call

/-- The handler `handlers.GetAllUsers`. -/
def handlers.GetAllUsers {ω : Type} (service : Service ω) (c : Request) (w : ω) : Handled ω :=
  let r := service.GetAll c.toContext w
  match r.1.2 with
  | some err =>
    { response := JSON http.StatusInternalServerError (.error { Error := err.message })
      world := r.2
      calls := [.getAll] }
  | none => { response := JSON http.StatusOK (.users r.1.1), world := r.2, calls := [.getAll] }

/-- The handler `handlers.GetUserByID`. -/
def handlers.GetUserByID {ω : Type} (service : Service ω) (c : Request) (w : ω) : Handled ω :=
  let r := service.GetByID c.toContext w
  match r.1.2 with
  | some err =>
    { response := JSON http.StatusInternalServerError (.error { Error := err.message })
      world := r.2
      calls := [.getByID] }
  | none => { response := JSON http.StatusOK (.user r.1.1), world := r.2, calls := [.getByID] }

/-- The handler `handlers.CreateUser`. The user given to the service is the
bound user after `ValidateNewUserRequest` has written its status. -/
def handlers.CreateUser {ω : Type} (service : Service ω) (c : Request) (w : ω) : Handled ω :=
  match c.Bind with
  | .error err =>
    { response := JSON http.StatusBadRequest (.error { Error := err.message })
      world := w
      calls := [] }
  | .ok userRequest =>
    let v := userRequest.ValidateNewUserRequest
    match v.2 with
    | some err =>
      { response := JSON http.StatusInternalServerError (.error { Error := err.message })
        world := w
        calls := [] }
    | none =>
      let r := service.Create c.toContext v.1 w
      match r.1.2 with
      | some err =>
        { response := JSON http.StatusInternalServerError (.error { Error := err.message })
          world := r.2
          calls := [.create v.1] }
      | none =>
        { response := JSON http.StatusCreated (.user r.1.1)
          world := r.2
          calls := [.create v.1] }

/-- The handler `handlers.UpdateUser`. -/
def handlers.UpdateUser {ω : Type} (service : Service ω) (c : Request) (w : ω) : Handled ω :=
  match c.Bind with
  | .error err =>
    { response := JSON http.StatusBadRequest (.error { Error := err.message })
      world := w
      calls := [] }
  | .ok userRequest =>
    let r := service.Update c.toContext userRequest w
    match r.1.2 with
    | some err =>
      { response := JSON http.StatusInternalServerError (.error { Error := err.message })
        world := r.2
        calls := [.update userRequest] }
    | none =>
      { response := JSON http.StatusOK (.user r.1.1)
        world := r.2
        calls := [.update userRequest] }

/-- The handler `handlers.DeleteUser`. -/
def handlers.DeleteUser {ω : Type} (service : Service ω) (c : Request) (w : ω) : Handled ω :=
  let r := service.DeleteByID c.toContext w
  match r.1 with
  | some err =>
    { response := JSON http.StatusBadRequest (.error { Error := err.message })
      world := r.2
      calls := [.deleteByID] }
  | none => { response := NoContent http.StatusNoContent, world := r.2, calls := [.deleteByID] }

/-- A service for examples, in the manner of `MockUserService` in the handler
tests: when `fails` is none every method succeeds with a fixed answer, and
otherwise every method returns that error. -/
def mockService (fails : Option Error) : Service Unit where
  GetAll _ w :=
    match fails with
    | some err => (([], some err), w)
    | none => (([User.mk 1 "jdoe" "John" "Doe" "" "" none], none), w)
  GetByID _ w :=
    match fails with
    | some err => ((none, some err), w)
    | none => ((some (User.mk 1 "jdoe" "" "" "" "" none), none), w)
  Create _ u w :=
    match fails with
    | some err => ((none, some err), w)
    | none => ((some { u with ID := 1 }, none), w)
  Update _ u w :=
    match fails with
    | some err => ((none, some err), w)
    | none => ((some u, none), w)
  DeleteByID _ w := (fails, w)

/-- A request for examples: the path parameter `user_id` and the outcome of
binding the body. -/
def exampleRequest (userID : String) (body : Except Error User) : Request :=
  { toContext := exampleContext userID, Bind := body }

/-! ## SQL text and supplied values (the specification side) -/

/-- The statements sent during a call: those the connection has seen beyond
the ones it had seen before the call. -/
def issued {σ : Type} (before after : DB σ) : List Stmt :=
  after.trace.drop before.trace.length

/-- Two runs send the same SQL text: wherever both have a statement at the
same place, the two texts are equal. -/
def SameText (l1 l2 : List Stmt) : Prop :=
  ∀ (i : Nat) (s s' : Stmt), l1[i]? = some s → l2[i]? = some s' → s.query = s'.query

/-- Two users give the same set of fields to an update: each text is empty in
both or in neither, and the department is absent in both or in neither. -/
def SamePresence (u u' : User) : Prop :=
  (u.UserName = "" ↔ u'.UserName = "") ∧ (u.FirstName = "" ↔ u'.FirstName = "") ∧
  (u.LastName = "" ↔ u'.LastName = "") ∧ (u.Email = "" ↔ u'.Email = "") ∧
  (u.UserStatus = "" ↔ u'.UserStatus = "") ∧ (u.Department = none ↔ u'.Department = none)

/-- The columns an update of the user sets, in the order of their names; only
the presence of each field is looked at, never its value. -/
def setColumns (u : User) : List String :=
  (if u.Department ≠ none then ["department"] else []) ++
  (if u.Email ≠ "" then ["email"] else []) ++
  (if u.FirstName ≠ "" then ["first_name"] else []) ++
  (if u.LastName ≠ "" then ["last_name"] else []) ++
  (if u.UserName ≠ "" then ["user_name"] else []) ++
  (if u.UserStatus ≠ "" then ["user_status"] else [])

/-- The text of the update statement that sets the given columns: a
placeholder for each, and one more for the id. -/
def updateTextFor (cols : List String) : String :=
  "UPDATE users SET "
    ++ ", ".intercalate (cols.enum.map (fun p => p.2 ++ " = $" ++ toString (p.1 + 1)))
    ++ " WHERE user_id = $" ++ toString (cols.length + 1) ++ " RETURNING user_id"

/-! ## The table, with the usual meaning of the statements

A database whose storage state is the table itself: the rows in order and the
next identifier to hand out. It has no constraint of its own. Each statement of
`user.go` is recognised by its text and carried out on the rows. -/

/-- The table `users`: its rows, and the identifier the next insert gets. -/
structure Table where
  rows : List UserDB
  nextID : Int
  deriving DecidableEq, Repr

/-- The usernames of all rows are pairwise distinct. -/
def UsernamesDistinct (t : Table) : Prop :=
  (t.rows.map (fun r => r.UserName)).Nodup

instance UsernamesDistinct.decidable (t : Table) : Decidable (UsernamesDistinct t) := by
  unfold UsernamesDistinct
  exact inferInstance

/-- A text argument as the storage takes it. -/
def Value.text : Value → String
  | .string s => s
  | .stringPtr (some s) => s
  | .stringPtr none => ""
  | .nullString n => n.String
  | .int64 _ => ""

/-- An argument as the storage takes it for a nullable text column. -/
def Value.nullable : Value → NullString
  | .string s => { String := s, Valid := true }
  | .stringPtr (some s) => { String := s, Valid := true }
  | .stringPtr none => { String := "", Valid := false }
  | .nullString n => n
  | .int64 _ => { String := "", Valid := false }

/-- One set clause carried out on a row. The id is not a column an update of
`user.go` sets. -/
def setColumn (r : UserDB) (col : String) (v : Value) : UserDB :=
  if col = "user_name" then { r with UserName := v.text }
  else if col = "first_name" then { r with FirstName := v.text }
  else if col = "last_name" then { r with LastName := v.text }
  else if col = "email" then { r with Email := v.text }
  else if col = "user_status" then { r with UserStatus := v.text }
  else if col = "department" then { r with Department := v.nullable }
  else r

/-- The set clauses of an update carried out on a row, in order. -/
def applySets (r : UserDB) : List (String × Value) → UserDB
  | [] => r
  | p :: rest => applySets (setColumn r p.1 p.2) rest

/-- All the ways of keeping some of the columns, in their order. -/
def columnChoices : List String → List (List String)
  | [] => [[]]
  | c :: cs => (columnChoices cs).map (fun l => c :: l) ++ columnChoices cs

/-- The columns an update text sets, when the text is that of an update of
some of the six columns. -/
def updateColumnsOf (query : String) : Option (List String) :=
  (columnChoices
    ["department", "email", "first_name", "last_name", "user_name", "user_status"]).find?
    (fun cols => decide (updateTextFor cols = query))

/-- The database of the table. Counting, inserting and selecting one row are
row queries; update and delete are executions that report the number of rows
they touched; a statement it does not know is a driver error. -/
def tableDriver : Driver Table where
  queryRowUser t stmt :=
    if stmt.query = "SELECT user_id, user_name, first_name, last_name, email, user_status, department FROM users WHERE user_id = $1" then
      match stmt.args with
      | [.int64 i] =>
        match t.rows.find? (fun r => decide (r.UserID = i)) with
        | some r => (.ok r, t)
        | none => (.error .ErrNoRows, t)
      | _ => (.error (.driver "wrong arguments"), t)
    else (.error (.driver "unknown statement"), t)
  queryRowInt t stmt :=
    if stmt.query = "SELECT COUNT(*) FROM users WHERE user_name = $1" then
      match stmt.args with
      | [.string name] =>
        (.ok ((t.rows.filter (fun r => decide (r.UserName = name))).length : Int), t)
      | _ => (.error (.driver "wrong arguments"), t)
    else if stmt.query = "INSERT INTO users (user_name,first_name,last_name,email,user_status,department) VALUES ($1,$2,$3,$4,$5,$6) RETURNING user_id" then
      match stmt.args with
      | [.string un, .string fn, .string ln, .string em, .string us, .nullString dep] =>
        (.ok t.nextID,
          { rows := t.rows ++ [⟨t.nextID, un, fn, ln, em, us, dep⟩], nextID := t.nextID + 1 })
      | _ => (.error (.driver "wrong arguments"), t)
    else (.error (.driver "unknown statement"), t)
  query t stmt :=
    if stmt.query = "SELECT user_id, user_name, first_name, last_name, email, user_status, department FROM users" then
      (.ok (t.rows.map Except.ok, none), t)
    else (.error (.driver "unknown statement"), t)
  exec t stmt :=
    if stmt.query = "DELETE FROM users WHERE user_id = $1" then
      match stmt.args with
      | [.int64 i] =>
        (.ok (.ok ((t.rows.filter (fun r => decide (r.UserID = i))).length : Int)),
          { t with rows := t.rows.filter (fun r => !decide (r.UserID = i)) })
      | _ => (.error (.driver "wrong arguments"), t)
    else
      match updateColumnsOf stmt.query with
      | none => (.error (.driver "unknown statement"), t)
      | some cols =>
        match stmt.args.getLast? with
        | some (.int64 i) =>
          if stmt.args.length = cols.length + 1 then
            (.ok (.ok ((t.rows.filter (fun r => decide (r.UserID = i))).length : Int)),
              { t with rows :=
                  t.rows.map (fun r =>
                    if r.UserID = i then applySets r (cols.zip stmt.args) else r) })
          else (.error (.driver "wrong arguments"), t)
        | _ => (.error (.driver "wrong arguments"), t)

/-- A fresh connection to the table. -/
def tableDB (t : Table) : DB Table :=
  { driver := tableDriver, state := t, trace := [] }

/-- A table of two users for examples. -/
def exampleTable : Table :=
  { rows :=
      [ ⟨1, "jdoe", "John", "Doe", "jdoe@example.com", "A", ⟨"Engineering", true⟩⟩,
        ⟨2, "asmith", "Alice", "Smith", "asmith@example.com", "I", ⟨"", false⟩⟩ ]
    nextID := 3 }

/-! # Properties

## Record mapper -/

/-- C1: converting a user to a row and back gives the same user, field for
field, whether the department is absent or present (the empty text included). -/
theorem ConvertToUser_ConvertToUserDB (u : User) : ConvertToUser u.ConvertToUserDB = u := by
  obtain ⟨id, un, fn, ln, em, st, dep⟩ := u
  cases dep <;> rfl

/-- C7: the row of a user carries the id and the five texts unchanged; its
department is valid with the same text when the user has one, and is the
invalid empty `NullString` when the user has none. -/
theorem ConvertToUserDB_fields (u : User) :
    u.ConvertToUserDB =
      { UserID := u.ID
        UserName := u.UserName
        FirstName := u.FirstName
        LastName := u.LastName
        Email := u.Email
        UserStatus := u.UserStatus
        Department :=
          match u.Department with
          | some d => { Valid := true, String := d }
          | none => { Valid := false, String := "" } } := by
  obtain ⟨id, un, fn, ln, em, st, dep⟩ := u
  cases dep <;> rfl

/-- C8: the user of a row carries the id and the five texts unchanged; its
department is present exactly when the row's department is valid, then with
the row's text, and is absent for an invalid department whatever its text. -/
theorem ConvertToUser_fields (r : UserDB) :
    (ConvertToUser r).ID = r.UserID ∧
    (ConvertToUser r).UserName = r.UserName ∧
    (ConvertToUser r).FirstName = r.FirstName ∧
    (ConvertToUser r).LastName = r.LastName ∧
    (ConvertToUser r).Email = r.Email ∧
    (ConvertToUser r).UserStatus = r.UserStatus ∧
    ((ConvertToUser r).Department.isSome = true ↔ r.Department.Valid = true) ∧
    (r.Department.Valid = true → (ConvertToUser r).Department = some r.Department.String) ∧
    (r.Department.Valid = false → (ConvertToUser r).Department = none) := by
  obtain ⟨id, un, fn, ln, em, st, ⟨ds, dv⟩⟩ := r
  cases dv <;> simp [ConvertToUser]

/-- A row with an invalid department that still holds a text loses the text:
the witness of C8 at such a row, and at a row with a valid department. -/
theorem ConvertToUser_fields_witness :
    (ConvertToUser ⟨11, "bwayne", "Bruce", "Wayne", "b@w.com", "I", ⟨"left over", false⟩⟩).Department
        = none ∧
      (ConvertToUser ⟨10, "asmith", "Alice", "Smith", "a@e.com", "A", ⟨"HR", true⟩⟩).Department
        = some "HR" :=
  ⟨(ConvertToUser_fields ⟨11, "bwayne", "Bruce", "Wayne", "b@w.com", "I",
      ⟨"left over", false⟩⟩).2.2.2.2.2.2.2.2 rfl,
    (ConvertToUser_fields ⟨10, "asmith", "Alice", "Smith", "a@e.com", "A",
      ⟨"HR", true⟩⟩).2.2.2.2.2.2.2.1 rfl⟩

/-! ## Validator -/

/-- Two characters with the same code point are equal. -/
theorem char_eq_of_toNat {c d : Char} (h : c.toNat = d.toNat) : c = d := by
  apply Char.ext
  apply UInt32.ext
  exact h

/-- Below the surrogate range, `Char.ofNat` keeps the number as the code point. -/
theorem ofNat_toNat_small (n : Nat) (h : n < 55296) : (Char.ofNat n).toNat = n := by
  have hv : n.isValidChar := by
    left; omega
  simp only [Char.ofNat, dif_pos hv]
  simp [Char.ofNatAux, Char.toNat, UInt32.toNat]

/-- The code point `lowerASCII` returns. -/
theorem lowerASCII_toNat (c : Char) :
    (lowerASCII c).toNat = if 65 ≤ c.toNat ∧ c.toNat ≤ 90 then c.toNat + 32 else c.toNat := by
  unfold lowerASCII
  split
  · rw [ofNat_toNat_small]; omega
  · rfl

/-- The code point `unicodeToLower` returns. -/
theorem unicodeToLower_toNat (c : Char) :
    (unicodeToLower c).toNat =
      if 65 ≤ c.toNat ∧ c.toNat ≤ 90 then c.toNat + 32
      else if c.toNat = 0x130 then 105 else if c.toNat = 0x212A then 107 else c.toNat := by
  have hi : ('i' : Char).toNat = 105 := rfl
  have hk : ('k' : Char).toNat = 107 := rfl
  unfold unicodeToLower caseRangesLower
  by_cases h1 : c.toNat ≤ 0x7F
  · have h2 : ¬ c.toNat = 0x130 := by omega
    have h3 : ¬ c.toNat = 0x212A := by omega
    rw [if_pos h1, lowerASCII_toNat, if_neg h2, if_neg h3]
  · have h0 : ¬ (65 ≤ c.toNat ∧ c.toNat ≤ 90) := by omega
    rw [if_neg h1, if_neg h0]
    by_cases h2 : c.toNat = 0x130
    · rw [if_pos h2, if_pos h2, hi]
    · rw [if_neg h2, if_neg h2]
      by_cases h3 : c.toNat = 0x212A
      · rw [if_pos h3, if_pos h3, hk]
      · rw [if_neg h3, if_neg h3]

/-- For a lower-case letter `t` other than i and k, the runes that are
lower-cased to `t` are `t` and its capital, by either of the two paths. -/
theorem lower_rune_eq (t c : Char) (ht : 97 ≤ t.toNat ∧ t.toNat ≤ 122)
    (hi : t.toNat ≠ 105) (hk : t.toNat ≠ 107) :
    (lowerASCII c = t ↔ c = t ∨ c = Char.ofNat (t.toNat - 32)) ∧
      (unicodeToLower c = t ↔ c = t ∨ c = Char.ofNat (t.toNat - 32)) := by
  have hup : (Char.ofNat (t.toNat - 32)).toNat = t.toNat - 32 := ofNat_toNat_small _ (by omega)
  constructor
  · constructor
    · intro h
      have h1 := congrArg Char.toNat h
      rw [lowerASCII_toNat] at h1
      split at h1
      · right; apply char_eq_of_toNat; rw [hup]; omega
      · left; exact char_eq_of_toNat h1
    · rintro (h | h)
      · subst h; apply char_eq_of_toNat; rw [lowerASCII_toNat, if_neg (by omega)]
      · subst h; apply char_eq_of_toNat; rw [lowerASCII_toNat, hup, if_pos (by omega)]; omega
  · constructor
    · intro h
      have h1 := congrArg Char.toNat h
      rw [unicodeToLower_toNat] at h1
      split at h1
      · right; apply char_eq_of_toNat; rw [hup]; omega
      · split at h1
        · omega
        · split at h1
          · omega
          · left; exact char_eq_of_toNat h1
    · rintro (h | h)
      · subst h; apply char_eq_of_toNat
        rw [unicodeToLower_toNat, if_neg (by omega), if_neg (by omega), if_neg (by omega)]
      · subst h; apply char_eq_of_toNat
        rw [unicodeToLower_toNat, hup, if_pos (by omega)]; omega

/-- The texts whose lower case is the one-letter text of `t` are that text and
the one-letter text of the capital of `t`. -/
theorem ToLower_eq_singleton (s : String) (t : Char)
    (ht : 97 ≤ t.toNat ∧ t.toNat ≤ 122) (hi : t.toNat ≠ 105) (hk : t.toNat ≠ 107) :
    ToLower s = String.mk [t] ↔
      s = String.mk [t] ∨ s = String.mk [Char.ofNat (t.toNat - 32)] := by
  obtain ⟨l⟩ := s
  unfold ToLower
  simp only [String.ext_iff]
  match l with
  | [] => simp
  | [c] =>
    have key := lower_rune_eq t c ht hi hk
    by_cases hc : c.toNat < 128 <;> simp [hc, key.1, key.2]
  | c :: d :: r =>
    split <;> simp

/-- The texts lower-cased to "a". -/
theorem ToLower_eq_a (s : String) : ToLower s = "a" ↔ s = "a" ∨ s = "A" :=
  ToLower_eq_singleton s 'a' (by decide) (by decide) (by decide)

/-- The texts lower-cased to "t". -/
theorem ToLower_eq_t (s : String) : ToLower s = "t" ↔ s = "t" ∨ s = "T" :=
  ToLower_eq_singleton s 't' (by decide) (by decide) (by decide)

/-- The status `SetUserStatus` stores, as a function of the text it is given. -/
theorem SetUserStatus_eq (u : User) (s : String) :
    u.SetUserStatus s =
      { u with UserStatus :=
          if s = "a" ∨ s = "A" then "A" else if s = "t" ∨ s = "T" then "T" else "I" } := by
  unfold User.SetUserStatus User.setUserStatusActive User.setUserStatusInactive
    User.setUserStatusTerminated
  by_cases ha : s = "a" ∨ s = "A"
  · rw [if_pos ((ToLower_eq_a s).mpr ha), if_pos ha]
  · have ha1 : ¬ ToLower s = "a" := fun h => ha ((ToLower_eq_a s).mp h)
    rw [if_neg ha1, if_neg ha]
    by_cases ht : s = "t" ∨ s = "T"
    · have hi : ¬ ToLower s = "i" := by
        rcases ht with rfl | rfl <;> decide
      rw [if_neg hi, if_pos ((ToLower_eq_t s).mpr ht), if_pos ht]
    · have ht1 : ¬ ToLower s = "t" := fun h => ht ((ToLower_eq_t s).mp h)
      rw [if_neg ht1, if_neg ht]
      split <;> rfl

/-- C6: `SetUserStatus` always returns, and stores A for "a" and "A", T for "t"
and "T", and I for every other text (the empty text included); the other
fields of the user are the ones it had. -/
theorem SetUserStatus_total (u : User) (s : String) :
    u.SetUserStatus s =
      { ID := u.ID
        UserName := u.UserName
        FirstName := u.FirstName
        LastName := u.LastName
        Email := u.Email
        Department := u.Department
        UserStatus :=
          if s = "a" ∨ s = "A" then "A" else if s = "t" ∨ s = "T" then "T" else "I" } :=
  SetUserStatus_eq u s

/-- C4: validation fails with the error of the first empty field in the order
username, first name, last name, email, whatever the later fields, the status
and the department hold. -/
theorem ValidateNewUserRequest_first_missing (u : User) :
    (u.UserName = "" → u.ValidateNewUserRequest.2 = some .ErrMissingUserName) ∧
    (u.UserName ≠ "" → u.FirstName = "" →
      u.ValidateNewUserRequest.2 = some .ErrMissingFirstName) ∧
    (u.UserName ≠ "" → u.FirstName ≠ "" → u.LastName = "" →
      u.ValidateNewUserRequest.2 = some .ErrMissingLastName) ∧
    (u.UserName ≠ "" → u.FirstName ≠ "" → u.LastName ≠ "" → u.Email = "" →
      u.ValidateNewUserRequest.2 = some .ErrMissingEmail) := by
  unfold User.ValidateNewUserRequest
  refine ⟨?_, ?_, ?_, ?_⟩
  · intro h1
    rw [if_pos h1]
  · intro h1 h2
    rw [if_neg h1, if_pos h2]
  · intro h1 h2 h3
    rw [if_neg h1, if_neg h2, if_pos h3]
  · intro h1 h2 h3 h4
    rw [if_neg h1, if_neg h2, if_neg h3, if_pos h4]

/-- A user with every field empty is reported for the username; one with only
the username set, for the first name; and so on down the order (C4 at four
concrete users). -/
theorem ValidateNewUserRequest_first_missing_witness :
    (User.mk 0 "" "" "" "" "" none).ValidateNewUserRequest.2 = some .ErrMissingUserName ∧
    (User.mk 0 "jdoe" "" "" "" "x" (some "IT")).ValidateNewUserRequest.2
      = some .ErrMissingFirstName ∧
    (User.mk 0 "jdoe" "John" "" "" "A" none).ValidateNewUserRequest.2
      = some .ErrMissingLastName ∧
    (User.mk 7 "jdoe" "John" "Doe" "" "A" none).ValidateNewUserRequest.2
      = some .ErrMissingEmail :=
  ⟨(ValidateNewUserRequest_first_missing (User.mk 0 "" "" "" "" "" none)).1 rfl,
    (ValidateNewUserRequest_first_missing (User.mk 0 "jdoe" "" "" "" "x" (some "IT"))).2.1
      (by decide) rfl,
    (ValidateNewUserRequest_first_missing (User.mk 0 "jdoe" "John" "" "" "A" none)).2.2.1
      (by decide) (by decide) rfl,
    (ValidateNewUserRequest_first_missing (User.mk 7 "jdoe" "John" "Doe" "" "A" none)).2.2.2
      (by decide) (by decide) (by decide) rfl⟩

/-- C5: validation succeeds exactly when username, first name, last name and
email are all non-empty; then the user afterwards is the input with its status
replaced by A for "a" or "A", T for "t" or "T" and I otherwise, so the status
is one of A, I, T and no other field has changed. -/
theorem ValidateNewUserRequest_success (u : User) :
    (u.ValidateNewUserRequest.2 = none ↔
      (u.UserName ≠ "" ∧ u.FirstName ≠ "" ∧ u.LastName ≠ "" ∧ u.Email ≠ "")) ∧
    (u.ValidateNewUserRequest.2 = none →
      u.ValidateNewUserRequest.1 =
        { u with UserStatus :=
            if u.UserStatus = "a" ∨ u.UserStatus = "A" then "A"
            else if u.UserStatus = "t" ∨ u.UserStatus = "T" then "T" else "I" } ∧
      (u.ValidateNewUserRequest.1.UserStatus = "A" ∨
        u.ValidateNewUserRequest.1.UserStatus = "I" ∨
        u.ValidateNewUserRequest.1.UserStatus = "T")) := by
  unfold User.ValidateNewUserRequest
  by_cases h1 : u.UserName = ""
  · simp [h1]
  by_cases h2 : u.FirstName = ""
  · simp [h1, h2]
  by_cases h3 : u.LastName = ""
  · simp [h1, h2, h3]
  by_cases h4 : u.Email = ""
  · simp [h1, h2, h3, h4]
  rw [if_neg h1, if_neg h2, if_neg h3, if_neg h4, SetUserStatus_eq]
  refine ⟨⟨fun _ => ⟨h1, h2, h3, h4⟩, fun _ => rfl⟩, fun _ => ⟨rfl, ?_⟩⟩
  show (if u.UserStatus = "a" ∨ u.UserStatus = "A" then "A"
    else if u.UserStatus = "t" ∨ u.UserStatus = "T" then "T" else "I") = "A" ∨ _
  split
  · exact Or.inl rfl
  · split
    · exact Or.inr (Or.inr rfl)
    · exact Or.inr (Or.inl rfl)

/-- A complete user without department and with the status "t" validates, and
comes out with the status T and nothing else changed (C5 at that user). -/
theorem ValidateNewUserRequest_success_witness :
    (User.mk 0 "jdoe" "John" "Doe" "john@example.com" "t" none).ValidateNewUserRequest.2 = none ∧
    (User.mk 0 "jdoe" "John" "Doe" "john@example.com" "t" none).ValidateNewUserRequest.1 =
      User.mk 0 "jdoe" "John" "Doe" "john@example.com" "T" none :=
  ⟨by decide,
    ((ValidateNewUserRequest_success
      (User.mk 0 "jdoe" "John" "Doe" "john@example.com" "t" none)).2 (by decide)).1⟩

/-! ## Identifier parsing -/

/-- Reading further digits never lowers the number read so far. -/
theorem decFrom_ge (ds : List UInt8) (n : Nat) : n ≤ decFrom n ds := by
  induction ds generalizing n with
  | nil => exact Nat.le_refl _
  | cons d ds ih =>
    have := ih (10 * n + (d.toNat - 48))
    simp only [decFrom, List.foldl_cons] at this ⊢
    omega

/-- One turn of the loop on a digit that does not overflow: the accumulator becomes
ten times itself plus the digit. -/
theorem loop_cons_digit (b : UInt8) (rest : List UInt8) (n : Nat) (hb : IsDigit b)
    (hn : 10 * n + (b.toNat - 48) < 2 ^ 64) :
    ParseUint.loop (maxUint64 / 10 + 1) (2 ^ 64 - 1) (b :: rest) n =
      ParseUint.loop (maxUint64 / 10 + 1) (2 ^ 64 - 1) rest (10 * n + (b.toNat - 48)) := by
  obtain ⟨h1, h2⟩ := hb
  have hd : ¬ (b.toNat - 48 ≥ 10) := by omega
  have hc : ¬ (n ≥ maxUint64 / 10 + 1) := by
    simp only [maxUint64]; omega
  have e1 : n * 10 % 2 ^ 64 = n * 10 := Nat.mod_eq_of_lt (by omega)
  have e2 : (n * 10 + (b.toNat - 48)) % 2 ^ 64 = 10 * n + (b.toNat - 48) := by
    rw [Nat.mod_eq_of_lt (by omega)]; omega
  have hov : ¬ (10 * n + (b.toNat - 48) < n * 10 ∨ 10 * n + (b.toNat - 48) > 2 ^ 64 - 1) := by
    omega
  simp only [ParseUint.loop, if_pos (And.intro h1 h2), if_neg hd, if_neg hc, e1, e2, if_neg hov]

/-- On digits whose number fits in 64 bits the loop returns that number and no error. -/
theorem loop_complete (ds : List UInt8) (n : Nat) (hd : ∀ b ∈ ds, IsDigit b)
    (hv : decFrom n ds < 2 ^ 64) :
    ParseUint.loop (maxUint64 / 10 + 1) (2 ^ 64 - 1) ds n = (decFrom n ds, none) := by
  induction ds generalizing n with
  | nil => rfl
  | cons b rest ih =>
    have hge := decFrom_ge rest (10 * n + (b.toNat - 48))
    have hv2 : decFrom (10 * n + (b.toNat - 48)) rest < 2 ^ 64 := hv
    rw [loop_cons_digit b rest n (hd b (List.mem_cons_self _ _)) (by omega)]
    exact ih _ (fun x hx => hd x (List.mem_cons_of_mem _ hx)) hv2

/-- When the loop returns no error, every byte was a digit, the result is the number
the digits denote, and it fits in 64 bits. -/
theorem loop_sound (ds : List UInt8) (n r : Nat) (hn : n < 2 ^ 64)
    (h : ParseUint.loop (maxUint64 / 10 + 1) (2 ^ 64 - 1) ds n = (r, none)) :
    (∀ b ∈ ds, IsDigit b) ∧ r = decFrom n ds ∧ r < 2 ^ 64 := by
  induction ds generalizing n with
  | nil =>
    simp only [ParseUint.loop, Prod.mk.injEq, and_true] at h
    subst h
    exact ⟨by simp, rfl, hn⟩
  | cons b rest ih =>
    by_cases hb : 48 ≤ b.toNat ∧ b.toNat ≤ 57
    · have hd : ¬ (b.toNat - 48 ≥ 10) := by omega
      by_cases hc : n ≥ maxUint64 / 10 + 1
      · simp [ParseUint.loop, hb, hd, hc] at h
      · have hc2 : n * 10 < 2 ^ 64 := by simp only [maxUint64] at hc; omega
        have e1 : n * 10 % 2 ^ 64 = n * 10 := Nat.mod_eq_of_lt hc2
        by_cases hov : (n * 10 + (b.toNat - 48)) % 2 ^ 64 < n * 10 ∨
            (n * 10 + (b.toNat - 48)) % 2 ^ 64 > 2 ^ 64 - 1
        · simp only [ParseUint.loop, if_pos hb, if_neg hd, if_neg hc, e1, if_pos hov] at h
          simp at h
        · simp only [ParseUint.loop, if_pos hb, if_neg hd, if_neg hc, e1, if_neg hov] at h
          have hlt : n * 10 + (b.toNat - 48) < 2 ^ 64 := by
            by_contra hcon
            apply hov
            left
            have : (n * 10 + (b.toNat - 48)) % 2 ^ 64 = n * 10 + (b.toNat - 48) - 2 ^ 64 := by
              rw [Nat.mod_eq_sub_mod (by omega), Nat.mod_eq_of_lt (by omega)]
            omega
          rw [Nat.mod_eq_of_lt hlt] at h
          obtain ⟨h1, h2, h3⟩ := ih _ hlt h
          refine ⟨?_, ?_, h3⟩
          · intro x hx
            rcases List.mem_cons.mp hx with rfl | hx
            · exact hb
            · exact h1 x hx
          · rw [h2]
            simp only [decFrom, List.foldl_cons]
            congr 1
            omega
    · exfalso
      by_cases hl : 97 ≤ lower b.toNat ∧ lower b.toNat ≤ 122
      · have hd : lower b.toNat - 97 + 10 ≥ 10 := by omega
        simp [ParseUint.loop, hb, hl] at h
      · simp [ParseUint.loop, hb, hl] at h

/-- With a range error the loop returns the largest `uint64`. -/
theorem loop_range (ds : List UInt8) (n r : Nat)
    (h : ParseUint.loop (maxUint64 / 10 + 1) (2 ^ 64 - 1) ds n = (r, some .ErrRange)) :
    r = 2 ^ 64 - 1 := by
  induction ds generalizing n with
  | nil => simp [ParseUint.loop] at h
  | cons b rest ih =>
    simp only [ParseUint.loop] at h
    split at h
    · simp at h
    · split at h
      · simp at h
      · split at h
        · simp at h; omega
        · split at h
          · simp at h; omega
          · exact ih _ h

/-- The function `ParseUint` accepts one or more digits whose number fits in 64 bits. -/
theorem ParseUint_complete (ds : List UInt8) (hne : ds ≠ []) (hd : ∀ b ∈ ds, IsDigit b)
    (hv : decVal ds < 2 ^ 64) : ParseUint ds = (decVal ds, none) := by
  unfold ParseUint
  rw [if_neg hne]
  exact loop_complete ds 0 hd hv

/-- The function `ParseUint` accepts only one or more digits whose number fits in 64 bits. -/
theorem ParseUint_sound (s : List UInt8) (r : Nat) (h : ParseUint s = (r, none)) :
    s ≠ [] ∧ (∀ b ∈ s, IsDigit b) ∧ r = decVal s ∧ r < 2 ^ 64 := by
  unfold ParseUint at h
  by_cases hs : s = []
  · rw [if_pos hs] at h; simp at h
  · rw [if_neg hs] at h
    exact ⟨hs, loop_sound s 0 r (by norm_num) h⟩

/-- With a range error `ParseUint` returns the largest `uint64`. -/
theorem ParseUint_range (s : List UInt8) (r : Nat) (h : ParseUint s = (r, some .ErrRange)) :
    r = 2 ^ 64 - 1 := by
  unfold ParseUint at h
  by_cases hs : s = []
  · rw [if_pos hs] at h; simp at h
  · rw [if_neg hs] at h
    exact loop_range s 0 r h

/-- The conversion to `int64` keeps a number that is in range. -/
theorem wrapInt64_of_range (z : Int) (hlo : -2 ^ 63 ≤ z) (hhi : z ≤ 2 ^ 63 - 1) :
    wrapInt64 z = z := by
  unfold wrapInt64
  omega

/-- The conversion to `int64` sends `2 ^ 63` to the smallest `int64`. -/
theorem wrapInt64_min : wrapInt64 (2 ^ 63) = -2 ^ 63 := by decide

/-- The result of `ParseInt.body` when the unsigned parse succeeds within the signed
bounds. -/
theorem body_ok (neg : Bool) (s : List UInt8) (un : Nat) (hp : ParseUint s = (un, none))
    (h1 : ¬ (¬ neg ∧ un ≥ 2 ^ 63)) (h2 : ¬ (neg ∧ un > 2 ^ 63)) :
    ParseInt.body neg s = (if neg then wrapInt64 (-wrapInt64 un) else wrapInt64 un, none) := by
  have e : ¬ ((none : Option NumError) ≠ none ∧ (none : Option NumError) ≠ some .ErrRange) := by
    simp
  simp only [ParseInt.body, hp, if_neg e, if_neg h1, if_neg h2]

/-- A range error of the unsigned parse stays a range error. -/
theorem body_err_of_range (neg : Bool) (s : List UInt8) (un : Nat)
    (hp : ParseUint s = (un, some .ErrRange)) :
    (ParseInt.body neg s).2 = some .ErrRange := by
  have hu := ParseUint_range s un hp
  subst hu
  have e : ¬ ((some NumError.ErrRange) ≠ none ∧ (some NumError.ErrRange) ≠ some .ErrRange) := by
    simp
  simp only [ParseInt.body, hp, if_neg e]
  cases neg
  · rw [if_pos (by constructor <;> simp)]
  · rw [if_neg (by simp), if_pos (by constructor <;> simp)]

/-- A syntax error of the unsigned parse is returned as it is. -/
theorem body_err_of_syntax (neg : Bool) (s : List UInt8) (un : Nat)
    (hp : ParseUint s = (un, some .ErrSyntax)) :
    (ParseInt.body neg s).2 = some .ErrSyntax := by
  have e : ((some NumError.ErrSyntax) ≠ none ∧ (some NumError.ErrSyntax) ≠ some .ErrRange) := by
    simp
  simp only [ParseInt.body, hp, if_pos e]

/-- An unsigned number beyond the signed bound is a range error. -/
theorem body_err_of_bound (neg : Bool) (s : List UInt8) (un : Nat) (hp : ParseUint s = (un, none))
    (h : (¬ neg ∧ un ≥ 2 ^ 63) ∨ (neg ∧ un > 2 ^ 63)) :
    (ParseInt.body neg s).2 = some .ErrRange := by
  have e : ¬ ((none : Option NumError) ≠ none ∧ (none : Option NumError) ≠ some .ErrRange) := by
    simp
  simp only [ParseInt.body, hp, if_neg e]
  by_cases h1 : ¬ neg ∧ un ≥ 2 ^ 63
  · rw [if_pos h1]
  · rw [if_neg h1, if_pos (h.resolve_left h1)]

/-- After the sign, digits denoting a number in the signed range are accepted with
that number. -/
theorem body_complete (neg : Bool) (ds : List UInt8) (hne : ds ≠ []) (hd : ∀ b ∈ ds, IsDigit b)
    (n : Int) (hn : n = if neg then -(decVal ds : Int) else (decVal ds : Int))
    (hlo : -2 ^ 63 ≤ n) (hhi : n ≤ 2 ^ 63 - 1) :
    ParseInt.body neg ds = (n, none) := by
  have hv : decVal ds < 2 ^ 64 := by
    cases neg <;> simp at hn <;> omega
  have hp := ParseUint_complete ds hne hd hv
  cases neg
  · simp only [Bool.false_eq_true, if_false] at hn
    rw [body_ok false ds _ hp (by simp; omega) (by simp)]
    simp only [Bool.false_eq_true, if_false]
    rw [wrapInt64_of_range _ (by omega) (by omega), hn]
  · simp only [if_true] at hn
    rw [body_ok true ds _ hp (by simp) (by simp; omega)]
    simp only [if_true]
    by_cases h63 : decVal ds = 2 ^ 63
    · rw [hn, h63]
      have : ((2 ^ 63 : Nat) : Int) = 2 ^ 63 := by norm_num
      rw [this, wrapInt64_min]
      decide
    · rw [wrapInt64_of_range (decVal ds : Int) (by omega) (by omega),
        wrapInt64_of_range (-(decVal ds : Int)) (by omega) (by omega), hn]

/-- After the sign, only digits denoting a number in the signed range are accepted. -/
theorem body_sound (neg : Bool) (s : List UInt8) (v : Int) (h : ParseInt.body neg s = (v, none)) :
    s ≠ [] ∧ (∀ b ∈ s, IsDigit b) ∧ v = (if neg then -(decVal s : Int) else (decVal s : Int)) ∧
      -2 ^ 63 ≤ v ∧ v ≤ 2 ^ 63 - 1 := by
  rcases hp : ParseUint s with ⟨un, err⟩
  match err, hp with
  | some .ErrSyntax, hp =>
    have := body_err_of_syntax neg s un hp
    rw [h] at this; simp at this
  | some .ErrRange, hp =>
    have := body_err_of_range neg s un hp
    rw [h] at this; simp at this
  | none, hp =>
    obtain ⟨h1, h2, h3, h4⟩ := ParseUint_sound s un hp
    by_cases hb : (¬ neg ∧ un ≥ 2 ^ 63) ∨ (neg ∧ un > 2 ^ 63)
    · have := body_err_of_bound neg s un hp hb
      rw [h] at this; simp at this
    · rw [not_or] at hb
      have hv := body_complete neg s h1 h2 _ rfl
      cases neg
      · have hb1 : ¬ (un ≥ 2 ^ 63) := by simpa using hb.1
        have := hv (by simp only [Bool.false_eq_true, if_false]; omega)
          (by simp only [Bool.false_eq_true, if_false]; omega)
        rw [h] at this
        have hv2 := (Prod.mk.inj this).1
        refine ⟨h1, h2, hv2, ?_, ?_⟩ <;> rw [hv2] <;> simp only [Bool.false_eq_true, if_false] <;> omega
      · have hb1 : ¬ (un > 2 ^ 63) := by simpa using hb.2
        have := hv (by simp only [if_true]; omega) (by simp only [if_true]; omega)
        rw [h] at this
        have hv2 := (Prod.mk.inj this).1
        refine ⟨h1, h2, hv2, ?_, ?_⟩ <;> rw [hv2] <;> simp only [if_true] <;> omega

/-- The function `ParseInt` on a text with a first byte. -/
theorem ParseInt_cons (c0 : UInt8) (rest : List UInt8) :
    ParseInt (c0 :: rest) =
        if c0.toNat = 43 then ParseInt.body false rest
        else if c0.toNat = 45 then ParseInt.body true rest
        else ParseInt.body false (c0 :: rest) := rfl

/-- The function `ParseInt` returns `n` and no error on every numeral of a 64-bit `n`. -/
theorem ParseInt_complete (s : List UInt8) (n : Int) (h : IsNumeralOf s n)
    (hlo : -2 ^ 63 ≤ n) (hhi : n ≤ 2 ^ 63 - 1) : ParseInt s = (n, none) := by
  obtain ⟨sign, ds, hs, hsign, hne, hd, hn⟩ := h
  rcases hsign with rfl | rfl | rfl
  · simp only [List.nil_append] at hs
    subst hs
    cases s with
    | nil => exact absurd rfl hne
    | cons c0 rest =>
      have hc := hd c0 (List.mem_cons_self _ _)
      rw [ParseInt_cons, if_neg (by unfold IsDigit at hc; omega),
        if_neg (by unfold IsDigit at hc; omega)]
      exact body_complete false _ hne hd n (by simpa using hn) hlo hhi
  · subst hs
    rw [List.singleton_append, ParseInt_cons, if_pos (by decide)]
    exact body_complete false _ hne hd n (by simpa using hn) hlo hhi
  · subst hs
    rw [List.singleton_append, ParseInt_cons, if_neg (by decide), if_pos (by decide)]
    exact body_complete true _ hne hd n (by simpa using hn) hlo hhi

/-- When `ParseInt` returns no error, the text is a numeral of the returned number,
which is a 64-bit integer. -/
theorem ParseInt_sound (s : List UInt8) (v : Int) (h : ParseInt s = (v, none)) :
    IsNumeralOf s v ∧ -2 ^ 63 ≤ v ∧ v ≤ 2 ^ 63 - 1 := by
  cases s with
  | nil => simp [ParseInt] at h
  | cons c0 rest =>
    rw [ParseInt_cons] at h
    by_cases h1 : c0.toNat = 43
    · rw [if_pos h1] at h
      obtain ⟨a, b, c, d⟩ := body_sound _ _ _ h
      have hc : c0 = 43 := UInt8.ext h1
      subst hc
      exact ⟨⟨[43], rest, rfl, Or.inr (Or.inl rfl), a, b, by simpa using c⟩, d⟩
    · rw [if_neg h1] at h
      by_cases h2 : c0.toNat = 45
      · rw [if_pos h2] at h
        obtain ⟨a, b, c, d⟩ := body_sound _ _ _ h
        have hc : c0 = 45 := UInt8.ext h2
        subst hc
        exact ⟨⟨[45], rest, rfl, Or.inr (Or.inr rfl), a, b, by simpa using c⟩, d⟩
      · rw [if_neg h2] at h
        obtain ⟨a, b, c, d⟩ := body_sound _ _ _ h
        exact ⟨⟨[], c0 :: rest, rfl, Or.inl rfl, a, b, by simpa using c⟩, d⟩
/-- The byte of a digit is 48 plus the digit. -/
theorem digitByte_toNat (d : Nat) (h : d < 10) : (digitByte d).toNat = 48 + d := by
  unfold digitByte
  exact UInt8.toNat_ofNat_of_lt (by simp only [UInt8.size]; omega)

/-- Reading one more digit at the end. -/
theorem decFrom_append (n : Nat) (l : List UInt8) (b : UInt8) :
    decFrom n (l ++ [b]) = 10 * decFrom n l + (b.toNat - 48) := by
  simp [decFrom, List.foldl_append]

/-- The digits of a number, most significant first, denote the number. -/
theorem decVal_digits (l : List Nat) (h : ∀ d ∈ l, d < 10) :
    decVal (l.reverse.map digitByte) = Nat.ofDigits 10 l := by
  induction l with
  | nil => rfl
  | cons d l ih =>
    have hd := digitByte_toNat d (h d (List.mem_cons_self _ _))
    simp only [List.reverse_cons, List.map_append, List.map_cons, List.map_nil, decVal] at ih ⊢
    rw [decFrom_append, ih (fun x hx => h x (List.mem_cons_of_mem _ hx)), hd, Nat.ofDigits_cons]
    omega

/-- The rendering of a natural number is one or more digits denoting it. -/
theorem FormatNat_spec (m : Nat) :
    FormatNat m ≠ [] ∧ (∀ b ∈ FormatNat m, IsDigit b) ∧ decVal (FormatNat m) = m := by
  unfold FormatNat
  by_cases hm : m = 0
  · subst hm
    refine ⟨by simp, ?_, by decide⟩
    intro b hb
    simp at hb
    subst hb
    unfold IsDigit
    decide
  · rw [if_neg hm]
    have hlt : ∀ d ∈ Nat.digits 10 m, d < 10 := fun d hd => Nat.digits_lt_base (by norm_num) hd
    refine ⟨?_, ?_, ?_⟩
    · simp [Nat.digits_ne_nil_iff_ne_zero, hm]
    · intro b hb
      simp only [List.mem_map, List.mem_reverse] at hb
      obtain ⟨d, hd, rfl⟩ := hb
      unfold IsDigit
      rw [digitByte_toNat d (hlt d hd)]
      have := hlt d hd
      omega
    · rw [decVal_digits _ hlt, Nat.ofDigits_digits]

/-- The rendering of an integer is a numeral of it. -/
theorem FormatInt_numeral (n : Int) : IsNumeralOf (FormatInt n) n := by
  obtain ⟨h1, h2, h3⟩ := FormatNat_spec n.natAbs
  unfold FormatInt
  by_cases hn : n < 0
  · rw [if_pos hn]
    refine ⟨[45], FormatNat n.natAbs, rfl, Or.inr (Or.inr rfl), h1, h2, ?_⟩
    rw [h3, if_pos rfl]; omega
  · rw [if_neg hn]
    refine ⟨[], FormatNat n.natAbs, rfl, Or.inl rfl, h1, h2, ?_⟩
    rw [h3, if_neg (by simp)]; omega

/-- When `digitsValue` gives a number. -/
theorem digitsValue_eq_some (ds : List UInt8) (m : Nat) :
    digitsValue ds = some m ↔ ds ≠ [] ∧ (∀ b ∈ ds, IsDigit b) ∧ m = decVal ds := by
  unfold digitsValue
  by_cases h : ds ≠ [] ∧ ∀ b ∈ ds, IsDigit b
  · rw [if_pos h]
    constructor
    · intro e
      exact ⟨h.1, h.2, (Option.some.inj e).symm⟩
    · rintro ⟨_, _, e⟩
      rw [e]
  · rw [if_neg h]
    constructor
    · intro e
      exact absurd e (by simp)
    · rintro ⟨a, b, _⟩
      exact absurd ⟨a, b⟩ h

/-- When a function of `digitsValue` gives a value. -/
theorem map_digitsValue_eq_some (ds : List UInt8) (f : Nat → Int) (n : Int)
    (h : (digitsValue ds).map f = some n) :
    ds ≠ [] ∧ (∀ b ∈ ds, IsDigit b) ∧ n = f (decVal ds) := by
  cases hd : digitsValue ds with
  | none => rw [hd] at h; exact absurd h (by simp)
  | some m =>
    rw [hd] at h
    obtain ⟨a, b, c⟩ := (digitsValue_eq_some ds m).mp hd
    refine ⟨a, b, ?_⟩
    rw [← c]
    exact (Option.some.inj h).symm

/-- The decidable reading of a numeral agrees with its definition. -/
theorem numeralValue_eq_some (s : List UInt8) (n : Int) :
    numeralValue s = some n ↔ IsNumeralOf s n := by
  constructor
  · intro h
    cases s with
    | nil => simp [numeralValue] at h
    | cons c rest =>
      simp only [numeralValue] at h
      by_cases h1 : c = 43
      · rw [if_pos h1] at h
        obtain ⟨a, b, e⟩ := map_digitsValue_eq_some _ _ _ h
        exact ⟨[43], rest, by rw [h1]; rfl, Or.inr (Or.inl rfl), a, b, by simpa using e⟩
      · rw [if_neg h1] at h
        by_cases h2 : c = 45
        · rw [if_pos h2] at h
          obtain ⟨a, b, e⟩ := map_digitsValue_eq_some _ _ _ h
          exact ⟨[45], rest, by rw [h2]; rfl, Or.inr (Or.inr rfl), a, b, by simpa using e⟩
        · rw [if_neg h2] at h
          obtain ⟨a, b, e⟩ := map_digitsValue_eq_some _ _ _ h
          exact ⟨[], c :: rest, rfl, Or.inl rfl, a, b, by simpa using e⟩
  · rintro ⟨sign, ds, hs, hsign, hne, hd, hn⟩
    have hdv : digitsValue ds = some (decVal ds) := (digitsValue_eq_some _ _).mpr ⟨hne, hd, rfl⟩
    rcases hsign with rfl | rfl | rfl
    · simp only [List.nil_append] at hs
      subst hs
      cases s with
      | nil => exact absurd rfl hne
      | cons c rest =>
        have hc := hd c (List.mem_cons_self _ _)
        have h1 : ¬ c = 43 := by
          rintro rfl
          exact absurd hc (by decide)
        have h2 : ¬ c = 45 := by
          rintro rfl
          exact absurd hc (by decide)
        simp only [numeralValue, if_neg h1, if_neg h2, hdv, Option.map_some']
        rw [hn]; simp
    · subst hs
      simp only [List.singleton_append, numeralValue, if_true, hdv, Option.map_some']
      rw [hn]; simp
    · subst hs
      have h1 : ¬ ((45 : UInt8) = 43) := by decide
      simp only [List.singleton_append, numeralValue, if_neg h1, if_true, hdv, Option.map_some']
      rw [hn]; simp

/-- The outcome of `ValidateUserID` when `ParseInt` succeeds. -/
theorem ValidateUserID_of_ok (s : List UInt8) (n : Int) (h : ParseInt s = (n, none)) :
    ValidateUserID s = (n, none) := by
  simp [ValidateUserID, h]

/-- The outcome of `ValidateUserID` when `ParseInt` reports an error. -/
theorem ValidateUserID_of_err (s : List UInt8) (h : (ParseInt s).2 ≠ none) :
    ValidateUserID s = (0, some (.Errorf "invalid user_id: must be an integer")) := by
  rcases hp : ParseInt s with ⟨v, err⟩
  rw [hp] at h
  simp only [ValidateUserID, hp]
  rw [if_pos h]

/-- C2: for every 64-bit integer `n`, every text that is an optional sign
followed by one or more decimal digits and denotes `n` is accepted by
`ValidateUserID` with the result `n` and no error; so is the decimal rendering
of `n`. -/
theorem ValidateUserID_numeral (n : Int) (hlo : -2 ^ 63 ≤ n) (hhi : n ≤ 2 ^ 63 - 1) :
    (∀ s : List UInt8, IsNumeralOf s n → ValidateUserID s = (n, none)) ∧
      ValidateUserID (FormatInt n) = (n, none) :=
  ⟨fun s h => ValidateUserID_of_ok s n (ParseInt_complete s n h hlo hhi),
    ValidateUserID_of_ok _ n (ParseInt_complete _ n (FormatInt_numeral n) hlo hhi)⟩

/-- The text 12345 of the test, a signed text with leading zeros, and the
smallest 64-bit integer are accepted with their values (C2 at these inputs). -/
theorem ValidateUserID_numeral_witness :
    ValidateUserID (bytes "12345") = (12345, none) ∧
    ValidateUserID (bytes "+007") = (7, none) ∧
    ValidateUserID (bytes "-9223372036854775808") = (-9223372036854775808, none) :=
  ⟨(ValidateUserID_numeral 12345 (by decide) (by decide)).1 (bytes "12345")
      ((numeralValue_eq_some _ _).mp (by decide)),
    (ValidateUserID_numeral 7 (by decide) (by decide)).1 (bytes "+007")
      ((numeralValue_eq_some _ _).mp (by decide)),
    (ValidateUserID_numeral (-9223372036854775808) (by decide) (by decide)).1
      (bytes "-9223372036854775808") ((numeralValue_eq_some _ _).mp (by decide))⟩

/-- A text whose decidable reading gives no value, or a value outside the
64-bit range, is not a numeral of a 64-bit integer. -/
theorem not_numeral_of_numeralValue (s : List UInt8)
    (h : ∀ n : Int, numeralValue s = some n → ¬ (-2 ^ 63 ≤ n ∧ n ≤ 2 ^ 63 - 1)) :
    ¬ ∃ n : Int, IsNumeralOf s n ∧ -2 ^ 63 ≤ n ∧ n ≤ 2 ^ 63 - 1 := by
  rintro ⟨n, hn, hr⟩
  exact h n ((numeralValue_eq_some s n).mpr hn) hr

/-- C3: every text that is not a signed base-10 numeral of a 64-bit integer
(the empty text, a text with a character that is not a digit, a numeral out of
range) is rejected by `ValidateUserID`: the id returned is 0 and the error is
the one with the message "invalid user_id: must be an integer". -/
theorem ValidateUserID_invalid (s : List UInt8)
    (h : ¬ ∃ n : Int, IsNumeralOf s n ∧ -2 ^ 63 ≤ n ∧ n ≤ 2 ^ 63 - 1) :
    ValidateUserID s = (0, some (.Errorf "invalid user_id: must be an integer")) ∧
      (ValidateUserID s).2.map Error.message = some "invalid user_id: must be an integer" := by
  have herr : (ParseInt s).2 ≠ none := by
    intro hnone
    apply h
    rcases hp : ParseInt s with ⟨v, err⟩
    rw [hp] at hnone
    simp only at hnone
    subst hnone
    exact ⟨v, ParseInt_sound s v hp⟩
  have := ValidateUserID_of_err s herr
  rw [this]
  exact ⟨rfl, rfl⟩

/-- The empty text, the texts abc and 12.34 of the tests, and the numeral of
`2 ^ 63`, one above the largest 64-bit integer, are all rejected with the id 0
(C3 at these inputs). -/
theorem ValidateUserID_invalid_witness :
    ValidateUserID [] = (0, some (.Errorf "invalid user_id: must be an integer")) ∧
    ValidateUserID (bytes "abc") = (0, some (.Errorf "invalid user_id: must be an integer")) ∧
    ValidateUserID (bytes "12.34") = (0, some (.Errorf "invalid user_id: must be an integer")) ∧
    ValidateUserID (bytes "9223372036854775808")
      = (0, some (.Errorf "invalid user_id: must be an integer")) :=
  ⟨(ValidateUserID_invalid [] (not_numeral_of_numeralValue _ (by decide))).1,
    (ValidateUserID_invalid (bytes "abc") (not_numeral_of_numeralValue _ (by decide))).1,
    (ValidateUserID_invalid (bytes "12.34") (not_numeral_of_numeralValue _ (by decide))).1,
    (ValidateUserID_invalid (bytes "9223372036854775808")
      (not_numeral_of_numeralValue _ (by
        intro n hn
        have h : numeralValue (bytes "9223372036854775808") = some 9223372036854775808 := by
          decide
        rw [h] at hn
        have := Option.some.inj hn
        omega))).1⟩

/-! ## Storage access: `GetUser` -/

/-- The statement `GetUser` builds for an id: the text with a placeholder, and
the id as its argument. -/
theorem GetUser_ToSql (id : Int) :
    ({ Columns := [AllColumns]
       From := DbName
       WhereParts := [{ column := "user_id", value := .int64 id }]
       Dollar := true } : sq.SelectBuilder).ToSql
      = ((selectUserByID id).query, (selectUserByID id).args, none) := by
  have htext : (sq.SelectBuilder.ToSql ⟨[AllColumns], DbName,
      [⟨"user_id", .int64 0⟩], true⟩).1 = (selectUserByID 0).query := by
    decide
  simp only [sq.SelectBuilder.ToSql, selectUserByID] at htext ⊢
  simp at htext ⊢
  exact htext

/-- `GetUser` for an id other than 0, in terms of what the storage answers to
the select statement. -/
theorem GetUser_eq {σ : Type} (dbcon : DB σ) (id : Int) (hid : id ≠ 0) :
    GetUser dbcon id =
      (match (dbcon.driver.queryRowUser dbcon.state (selectUserByID id)).1 with
        | .error .ErrNoRows => (none, some .ErrUserNotFound)
        | .error err => (none, some err)
        | .ok result => (some (ConvertToUser result), none),
       dbcon.sent (selectUserByID id)
        (dbcon.driver.queryRowUser dbcon.state (selectUserByID id)).2) := by
  have key : ∀ out : Except Error UserDB × σ,
      (match out.1 with
        | .error .ErrNoRows =>
          ((none, some Error.ErrUserNotFound), dbcon.sent (selectUserByID id) out.2)
        | .error err => ((none, some err), dbcon.sent (selectUserByID id) out.2)
        | .ok result =>
          ((some (ConvertToUser result), none), dbcon.sent (selectUserByID id) out.2)) =
      ((match out.1 with
        | .error .ErrNoRows => (none, some .ErrUserNotFound)
        | .error err => (none, some err)
        | .ok result => (some (ConvertToUser result), none) : Option User × Option Error),
       dbcon.sent (selectUserByID id) out.2) := by
    rintro ⟨res, st⟩
    cases res with
    | ok r => rfl
    | error e => cases e <;> rfl
  unfold GetUser
  rw [if_neg hid]
  simp only [GetUser_ToSql]
  exact key _

/-- C9: `GetUser` with the id 0 fails with `ErrMissingUserID`, returns no user,
and leaves the connection as it was: no statement is sent and the storage is
not touched, whatever the storage is. -/
theorem GetUser_zero {σ : Type} (dbcon : DB σ) :
    GetUser dbcon 0 = ((none, some .ErrMissingUserID), dbcon) ∧
      (GetUser dbcon 0).2.trace = dbcon.trace := by
  constructor <;> rfl

/-- C10: for an id other than 0, `GetUser` sends exactly one statement, the
select filtered by that id, and its result follows the storage outcome:
`sql.ErrNoRows` gives `ErrUserNotFound` and no user, any other error is
returned as it is with no user, and a scanned row gives its conversion with no
error, the department being absent when the row's department is NULL. -/
theorem GetUser_nonzero {σ : Type} (dbcon : DB σ) (id : Int) (hid : id ≠ 0) :
    (GetUser dbcon id).2.trace = dbcon.trace ++ [selectUserByID id] ∧
    (GetUser dbcon id).2.state
      = (dbcon.driver.queryRowUser dbcon.state (selectUserByID id)).2 ∧
    ((dbcon.driver.queryRowUser dbcon.state (selectUserByID id)).1 = .error .ErrNoRows →
      (GetUser dbcon id).1 = (none, some .ErrUserNotFound)) ∧
    (∀ err : Error, err ≠ .ErrNoRows →
      (dbcon.driver.queryRowUser dbcon.state (selectUserByID id)).1 = .error err →
      (GetUser dbcon id).1 = (none, some err)) ∧
    (∀ r : UserDB, (dbcon.driver.queryRowUser dbcon.state (selectUserByID id)).1 = .ok r →
      (GetUser dbcon id).1 = (some (ConvertToUser r), none) ∧
      (r.Department.Valid = false → (ConvertToUser r).Department = none)) := by
  rw [GetUser_eq dbcon id hid]
  refine ⟨rfl, rfl, ?_, ?_, ?_⟩
  · intro h
    simp only [h]
  · intro err hne h
    rw [h]
    cases err <;> first | exact absurd rfl hne | rfl
  · intro r h
    simp only [h]
    refine ⟨trivial, fun hv => ?_⟩
    simp [ConvertToUser, hv]

/-- On the example database: id 999 matches no row and gives `ErrUserNotFound`
after one select with the argument 999; id 2 gives the second row as a user
without department (C10 at these inputs). -/
theorem GetUser_nonzero_witness :
    (GetUser mockDB 999).1 = (none, some .ErrUserNotFound) ∧
    (GetUser mockDB 999).2.trace = [selectUserByID 999] ∧
    (GetUser mockDB 2).1 =
      (some (User.mk 2 "asmith" "Alice" "Smith" "asmith@example.com" "I" none), none) :=
  ⟨(GetUser_nonzero mockDB 999 (by decide)).2.2.1 rfl,
    (GetUser_nonzero mockDB 999 (by decide)).1,
    ((GetUser_nonzero mockDB 2 (by decide)).2.2.2.2
      ⟨2, "asmith", "Alice", "Smith", "asmith@example.com", "I", ⟨"", false⟩⟩ rfl).1⟩

/-! ## Storage access: `CheckUserNameExists` and `CreateUser` -/

/-- The statement `CheckUserNameExists` builds for a name: the count text
with a placeholder, and the name as its argument. -/
theorem CheckUserNameExists_ToSql (userName : String) :
    sq.SelectBuilder.ToSql ⟨["COUNT(*)"], DbName, [⟨"user_name", .string userName⟩], true⟩
      = ((countByUserName userName).query, (countByUserName userName).args, none) := by
  have htext : (sq.SelectBuilder.ToSql ⟨["COUNT(*)"], DbName,
      [⟨"user_name", .string ""⟩], true⟩).1 = (countByUserName "").query := by
    decide
  simp only [sq.SelectBuilder.ToSql, countByUserName] at htext ⊢
  simp at htext ⊢
  exact htext

/-- `CheckUserNameExists` for a non-empty name, in terms of what the storage
answers to the count statement. -/
theorem CheckUserNameExists_eq {σ : Type} (dbcon : DB σ) (userName : String)
    (hne : userName ≠ "") :
    CheckUserNameExists dbcon userName =
      (match (dbcon.driver.queryRowInt dbcon.state (countByUserName userName)).1 with
        | .error err => (false, some err)
        | .ok count => (decide (count = 1), none),
       dbcon.sent (countByUserName userName)
        (dbcon.driver.queryRowInt dbcon.state (countByUserName userName)).2) := by
  have key : ∀ out : Except Error Int × σ,
      (match out.1 with
        | .error err => ((false, some err), dbcon.sent (countByUserName userName) out.2)
        | .ok count =>
          ((decide (count = 1), none), dbcon.sent (countByUserName userName) out.2)) =
      ((match out.1 with
        | .error err => (false, some err)
        | .ok count => (decide (count = 1), none) : Bool × Option Error),
       dbcon.sent (countByUserName userName) out.2) := by
    rintro ⟨res, st⟩
    cases res <;> rfl
  unfold CheckUserNameExists
  rw [if_neg hne]
  simp only [CheckUserNameExists_ToSql]
  exact key _

/-- C11: with an empty name `CheckUserNameExists` fails with
`ErrMissingUserName`, returns false and sends nothing; with a non-empty name it
sends exactly the count statement and, when the count is read, returns no
error and true exactly for the count 1 (false for 0 and for 2 and more); when
the count cannot be read it returns false and that error. -/
theorem CheckUserNameExists_spec {σ : Type} (dbcon : DB σ) (userName : String) :
    (userName = "" →
      CheckUserNameExists dbcon userName = ((false, some .ErrMissingUserName), dbcon)) ∧
    (userName ≠ "" →
      (CheckUserNameExists dbcon userName).2.trace
        = dbcon.trace ++ [countByUserName userName] ∧
      (∀ c : Int,
        (dbcon.driver.queryRowInt dbcon.state (countByUserName userName)).1 = .ok c →
        (CheckUserNameExists dbcon userName).1.2 = none ∧
        ((CheckUserNameExists dbcon userName).1.1 = true ↔ c = 1)) ∧
      (∀ err : Error,
        (dbcon.driver.queryRowInt dbcon.state (countByUserName userName)).1 = .error err →
        (CheckUserNameExists dbcon userName).1 = (false, some err))) := by
  constructor
  · intro h
    unfold CheckUserNameExists
    rw [if_pos h]
  · intro hne
    rw [CheckUserNameExists_eq dbcon userName hne]
    refine ⟨rfl, ?_, ?_⟩
    · intro c hc
      simp only [hc]
      exact ⟨trivial, by simp⟩
    · intro err herr
      simp only [herr]

/-- On the scripted database: the empty name sends nothing; the name jdoe
with the count 1 exists, and with the count 2 does not; a count that cannot be
read gives false and the error (C11 at these inputs). -/
theorem CheckUserNameExists_spec_witness :
    (CheckUserNameExists (scriptDB [.rowInt (.ok 1)]) "").2.trace = [] ∧
    (CheckUserNameExists (scriptDB [.rowInt (.ok 1)]) "jdoe").1 = (true, none) ∧
    (CheckUserNameExists (scriptDB [.rowInt (.ok 2)]) "jdoe").1.1 = false ∧
    (CheckUserNameExists (scriptDB [.rowInt (.error (.driver "bad scan"))]) "jdoe").1
      = (false, some (.driver "bad scan")) :=
  ⟨by rw [(CheckUserNameExists_spec (scriptDB [.rowInt (.ok 1)]) "").1 rfl]; rfl,
    Prod.ext
      ((((CheckUserNameExists_spec (scriptDB [.rowInt (.ok 1)]) "jdoe").2 (by decide)).2.1 1
        rfl).2.mpr rfl)
      (((CheckUserNameExists_spec (scriptDB [.rowInt (.ok 1)]) "jdoe").2 (by decide)).2.1 1
        rfl).1,
    by
      have h := (((CheckUserNameExists_spec (scriptDB [.rowInt (.ok 2)]) "jdoe").2
        (by decide)).2.1 2 rfl).2
      cases hb : (CheckUserNameExists (scriptDB [.rowInt (.ok 2)]) "jdoe").1.1
      · rfl
      · exact absurd (h.mp hb) (by decide),
    ((CheckUserNameExists_spec (scriptDB [.rowInt (.error (.driver "bad scan"))]) "jdoe").2
      (by decide)).2.2 _ rfl⟩

/-- The statement `CreateUser` builds for a row: the insert text with six
placeholders, and the six values as its arguments. -/
theorem CreateUser_ToSql (r : UserDB) :
    sq.InsertBuilder.ToSql
      ⟨DbName, ["user_name", "first_name", "last_name", "email", "user_status", "department"],
        [[.string r.UserName, .string r.FirstName, .string r.LastName, .string r.Email,
          .string r.UserStatus, .nullString r.Department]],
        ["RETURNING user_id"], true⟩
      = ((insertUser r).query, (insertUser r).args, none) := by
  have htext : (sq.InsertBuilder.ToSql
      ⟨DbName, ["user_name", "first_name", "last_name", "email", "user_status", "department"],
        [[.string "", .string "", .string "", .string "", .string "", .nullString ⟨"", false⟩]],
        ["RETURNING user_id"], true⟩).1
      = (insertUser ⟨0, "", "", "", "", "", ⟨"", false⟩⟩).query := by
    decide
  have e : sq.InsertBuilder.ToSql
      ⟨DbName, ["user_name", "first_name", "last_name", "email", "user_status", "department"],
        [[.string r.UserName, .string r.FirstName, .string r.LastName, .string r.Email,
          .string r.UserStatus, .nullString r.Department]],
        ["RETURNING user_id"], true⟩
      = ((sq.InsertBuilder.ToSql
          ⟨DbName, ["user_name", "first_name", "last_name", "email", "user_status", "department"],
            [[.string "", .string "", .string "", .string "", .string "",
              .nullString ⟨"", false⟩]],
            ["RETURNING user_id"], true⟩).1, (insertUser r).args, none) := rfl
  rw [e, htext]
  rfl

/-- The connection after a statement was sent keeps its driver. -/
theorem DB.sent_driver {σ : Type} (dbcon : DB σ) (stmt : Stmt) (st : σ) :
    (dbcon.sent stmt st).driver = dbcon.driver := rfl

/-- `CreateUser` when the check reports that the name exists. -/
theorem CreateUser_of_exists {σ : Type} (dbcon : DB σ) (u : User)
    (h : (CheckUserNameExists dbcon u.UserName).1 = (true, none)) :
    CreateUser dbcon u
      = ((none, some .ErrUserExists), (CheckUserNameExists dbcon u.UserName).2) := by
  have h1 : (CheckUserNameExists dbcon u.UserName).1.2 = none := by rw [h]
  have h2 : (CheckUserNameExists dbcon u.UserName).1.1 = true := by rw [h]
  unfold CreateUser
  simp only [h1, h2, if_true]

/-- `CreateUser` when the check succeeds and does not report the name, in
terms of what the storage answers to the insert statement. -/
theorem CreateUser_of_fresh {σ : Type} (dbcon : DB σ) (u : User)
    (h : (CheckUserNameExists dbcon u.UserName).1 = (false, none)) :
    CreateUser dbcon u =
      (match ((CheckUserNameExists dbcon u.UserName).2.driver.queryRowInt
          (CheckUserNameExists dbcon u.UserName).2.state (insertUser u.ConvertToUserDB)).1 with
        | .error err => (none, some err)
        | .ok lastInsertID => (some { u with ID := lastInsertID }, none),
       (CheckUserNameExists dbcon u.UserName).2.sent (insertUser u.ConvertToUserDB)
        ((CheckUserNameExists dbcon u.UserName).2.driver.queryRowInt
          (CheckUserNameExists dbcon u.UserName).2.state (insertUser u.ConvertToUserDB)).2) := by
  have h1 : (CheckUserNameExists dbcon u.UserName).1.2 = none := by rw [h]
  have h2 : (CheckUserNameExists dbcon u.UserName).1.1 = false := by rw [h]
  have key : ∀ (d : DB σ) (out : Except Error Int × σ),
      (match out.1 with
        | .error err => ((none, some err), d.sent (insertUser u.ConvertToUserDB) out.2)
        | .ok lastInsertID =>
          ((some { u with ID := lastInsertID }, none),
            d.sent (insertUser u.ConvertToUserDB) out.2)) =
      ((match out.1 with
        | .error err => (none, some err)
        | .ok lastInsertID => (some { u with ID := lastInsertID }, none) :
          Option User × Option Error),
       d.sent (insertUser u.ConvertToUserDB) out.2) := by
    rintro d ⟨res, st⟩
    cases res <;> rfl
  unfold CreateUser
  simp only [h1, h2, CreateUser_ToSql]
  exact key _ _

/-- A check that reports no error was made on a non-empty name. -/
theorem CheckUserNameExists_ne_empty {σ : Type} (dbcon : DB σ) (userName : String)
    (h : (CheckUserNameExists dbcon userName).1.2 = none) : userName ≠ "" := by
  intro he
  unfold CheckUserNameExists at h
  rw [if_pos he] at h
  exact absurd h (by simp)

/-- A check on a non-empty name sends the count statement and nothing else. -/
theorem CheckUserNameExists_trace {σ : Type} (dbcon : DB σ) (userName : String)
    (hne : userName ≠ "") :
    (CheckUserNameExists dbcon userName).2.trace = dbcon.trace ++ [countByUserName userName] := by
  rw [CheckUserNameExists_eq dbcon userName hne]
  rfl

/-- C12: when the username check reports that the name exists, `CreateUser`
fails with `ErrUserExists` and returns no user; the only statement sent is the
count statement, so no insert is issued. -/
theorem CreateUser_existing {σ : Type} (dbcon : DB σ) (u : User)
    (h : (CheckUserNameExists dbcon u.UserName).1 = (true, none)) :
    (CreateUser dbcon u).1 = (none, some .ErrUserExists) ∧
      (CreateUser dbcon u).2.trace = dbcon.trace ++ [countByUserName u.UserName] ∧
      insertUser u.ConvertToUserDB ∉ (CreateUser dbcon u).2.trace.drop dbcon.trace.length := by
  have hne : u.UserName ≠ "" := CheckUserNameExists_ne_empty dbcon u.UserName (by rw [h])
  have ht := CheckUserNameExists_trace dbcon u.UserName hne
  rw [CreateUser_of_exists dbcon u h]
  refine ⟨rfl, ht, ?_⟩
  show insertUser u.ConvertToUserDB ∉ List.drop dbcon.trace.length
    (CheckUserNameExists dbcon u.UserName).2.trace
  rw [ht, List.drop_left]
  intro hmem
  have := List.mem_singleton.mp hmem
  have hq : (insertUser u.ConvertToUserDB).query = (countByUserName u.UserName).query :=
    congrArg Stmt.query this
  have hne2 : ¬ ((insertUser ⟨0, "", "", "", "", "", ⟨"", false⟩⟩).query
      = (countByUserName "").query) := by decide
  exact hne2 hq

/-- On the scripted database answering the count with 1, creating jdoe fails
with `ErrUserExists` after the count statement alone (C12 at that input). -/
theorem CreateUser_existing_witness :
    (CreateUser (scriptDB [.rowInt (.ok 1), .rowInt (.ok 123)])
        (User.mk 0 "jdoe" "John" "Doe" "jdoe@example.com" "A" (some "Engineering"))).1
      = (none, some .ErrUserExists) ∧
    (CreateUser (scriptDB [.rowInt (.ok 1), .rowInt (.ok 123)])
        (User.mk 0 "jdoe" "John" "Doe" "jdoe@example.com" "A" (some "Engineering"))).2.trace
      = [countByUserName "jdoe"] :=
  ⟨(CreateUser_existing (scriptDB [.rowInt (.ok 1), .rowInt (.ok 123)])
      (User.mk 0 "jdoe" "John" "Doe" "jdoe@example.com" "A" (some "Engineering"))
      (by decide)).1,
    (CreateUser_existing (scriptDB [.rowInt (.ok 1), .rowInt (.ok 123)])
      (User.mk 0 "jdoe" "John" "Doe" "jdoe@example.com" "A" (some "Engineering"))
      (by decide)).2.1⟩

/-- C13: when the username check succeeds and does not report the name,
`CreateUser` sends the count statement and then the insert statement, whose
arguments are the six fields other than the id of the user's row in the order
of the columns, and nothing else; when the insert gives back the identifier
`k` the result is the input user with the id `k` (whatever id it had) and
every other field as it was; when the insert fails the result is that error
and no user. -/
theorem CreateUser_fresh {σ : Type} (dbcon : DB σ) (u : User)
    (h : (CheckUserNameExists dbcon u.UserName).1 = (false, none)) :
    (CreateUser dbcon u).2.trace
      = dbcon.trace ++ [countByUserName u.UserName, insertUser u.ConvertToUserDB] ∧
    (insertUser u.ConvertToUserDB).args
      = [.string u.UserName, .string u.FirstName, .string u.LastName, .string u.Email,
          .string u.UserStatus, .nullString u.ConvertToUserDB.Department] ∧
    (∀ k : Int,
      ((CheckUserNameExists dbcon u.UserName).2.driver.queryRowInt
        (CheckUserNameExists dbcon u.UserName).2.state (insertUser u.ConvertToUserDB)).1 = .ok k →
      (CreateUser dbcon u).1 =
        (some ⟨k, u.UserName, u.FirstName, u.LastName, u.Email, u.UserStatus, u.Department⟩,
          none)) ∧
    (∀ err : Error,
      ((CheckUserNameExists dbcon u.UserName).2.driver.queryRowInt
        (CheckUserNameExists dbcon u.UserName).2.state (insertUser u.ConvertToUserDB)).1
          = .error err →
      (CreateUser dbcon u).1 = (none, some err)) := by
  have hne : u.UserName ≠ "" := CheckUserNameExists_ne_empty dbcon u.UserName (by rw [h])
  have ht := CheckUserNameExists_trace dbcon u.UserName hne
  rw [CreateUser_of_fresh dbcon u h]
  refine ⟨?_, ?_, ?_, ?_⟩
  · show (CheckUserNameExists dbcon u.UserName).2.trace ++ [insertUser u.ConvertToUserDB] = _
    rw [ht, List.append_assoc]
    rfl
  · obtain ⟨id, un, fn, ln, em, st, dep⟩ := u
    cases dep <;> rfl
  · intro k hk
    simp only [hk]
  · intro err herr
    simp only [herr]

/-- On the scripted database answering the count with 0 and the insert with
123, creating jdoe (given with the id 55) returns jdoe with the id 123 after
the two statements; when the insert fails instead, the error comes back with
no user (C13 at these inputs). -/
theorem CreateUser_fresh_witness :
    (CreateUser (scriptDB [.rowInt (.ok 0), .rowInt (.ok 123)])
        (User.mk 55 "jdoe" "John" "Doe" "jdoe@example.com" "A" (some "Engineering"))).1
      = (some (User.mk 123 "jdoe" "John" "Doe" "jdoe@example.com" "A" (some "Engineering")),
          none) ∧
    (CreateUser (scriptDB [.rowInt (.ok 0), .rowInt (.ok 123)])
        (User.mk 55 "jdoe" "John" "Doe" "jdoe@example.com" "A" (some "Engineering"))).2.trace
      = [countByUserName "jdoe",
          insertUser ⟨55, "jdoe", "John", "Doe", "jdoe@example.com", "A",
            ⟨"Engineering", true⟩⟩] ∧
    (CreateUser (scriptDB [.rowInt (.ok 0), .rowInt (.error (.driver "sql: connection is already closed"))])
        (User.mk 0 "jdoe" "John" "Doe" "jdoe@example.com" "A" none)).1
      = (none, some (.driver "sql: connection is already closed")) :=
  ⟨(CreateUser_fresh (scriptDB [.rowInt (.ok 0), .rowInt (.ok 123)])
      (User.mk 55 "jdoe" "John" "Doe" "jdoe@example.com" "A" (some "Engineering"))
      (by decide)).2.2.1 123 rfl,
    (CreateUser_fresh (scriptDB [.rowInt (.ok 0), .rowInt (.ok 123)])
      (User.mk 55 "jdoe" "John" "Doe" "jdoe@example.com" "A" (some "Engineering"))
      (by decide)).1,
    (CreateUser_fresh
      (scriptDB [.rowInt (.ok 0), .rowInt (.error (.driver "sql: connection is already closed"))])
      (User.mk 0 "jdoe" "John" "Doe" "jdoe@example.com" "A" none)
      (by decide)).2.2.2 _ rfl⟩

/-! ## Storage access: `UpdateUser` -/

/-- Reading a map after an assignment. -/
theorem mapGet_mapSet (m : List (String × Value)) (k k' : String) (v : Value) :
    mapGet (mapSet m k v) k' = if k = k' then some v else mapGet m k' := by
  induction m with
  | nil => simp [mapSet, mapGet]
  | cons p rest ih =>
    unfold mapSet
    by_cases hp : p.1 = k
    · rw [if_pos hp]
      by_cases hk : k = k'
      · simp [mapGet, hk]
      · have : ¬ p.1 = k' := by rw [hp]; exact hk
        simp [mapGet, hk, this]
    · rw [if_neg hp]
      by_cases hk : k = k'
      · subst hk
        simp [mapGet, hp, ih]
      · by_cases hpk : p.1 = k'
        · simp [mapGet, hpk, hk]
        · simp [mapGet, hpk, hk, ih]

/-- An assignment leaves at least one entry. -/
theorem mapSet_ne_nil (m : List (String × Value)) (k : String) (v : Value) :
    mapSet m k v ≠ [] := by
  cases m with
  | nil => simp [mapSet]
  | cons p rest =>
    unfold mapSet
    split <;> simp

/-- Putting an entry in place by its key gives the entry and the others, in
some order. -/
theorem insertByKey_perm (p : String × Value) (l : List (String × Value)) :
    (insertByKey p l).Perm (p :: l) := by
  induction l with
  | nil => exact List.Perm.refl _
  | cons q rest ih =>
    unfold insertByKey
    split
    · exact List.Perm.refl _
    · exact (List.Perm.cons q ih).trans (List.Perm.swap p q rest)

/-- Sorting by key keeps the entries. -/
theorem sortByKey_perm (m : List (String × Value)) : (sortByKey m).Perm m := by
  induction m with
  | nil => exact List.Perm.refl _
  | cons p rest ih =>
    exact (insertByKey_perm p (sortByKey rest)).trans (List.Perm.cons p ih)

/-- The statement `UpdateUser` builds when the map is not empty. -/
theorem UpdateUser_ToSql (u : User) (hm : UpdateUser.updateValues u ≠ []) :
    (UpdateUser.builder u).ToSql
      = ((updateUserStmt u).query, (updateUserStmt u).args, none) := by
  have hs : sortByKey (UpdateUser.updateValues u) ≠ [] := by
    intro h
    have := (sortByKey_perm (UpdateUser.updateValues u)).length_eq
    rw [h] at this
    exact hm (List.length_eq_zero.mp this.symm)
  have hs2 : ¬ (([] : List (String × Value)) ++ sortByKey (UpdateUser.updateValues u) = []) := hs
  have ht : ¬ (DbName = "") := by decide
  simp only [UpdateUser.builder, sq.UpdateBuilder.SetMap, sq.UpdateBuilder.ToSql, if_neg ht,
    if_neg hs2, updateUserStmt]
  have hf : (fun p : Nat × String × Value => p.2.1 ++ " = " ++ sq.placeholder true (p.1 + 1))
      = (fun p : Nat × String × Value => p.2.1 ++ " = $" ++ toString (p.1 + 1)) := by
    funext p
    show p.2.1 ++ " = " ++ ("$" ++ toString (p.1 + 1)) = p.2.1 ++ " = $" ++ toString (p.1 + 1)
    rw [← String.append_assoc, String.append_assoc p.2.1 " = " "$"]
    rfl
  have hw : " WHERE " ++ " AND ".intercalate
        ["user_id" ++ " = " ++ sq.placeholder true
          (([] ++ sortByKey (UpdateUser.updateValues u)).length + 0 + 1)]
      = " WHERE user_id = $" ++ toString ((sortByKey (UpdateUser.updateValues u)).length + 1) := by
    show " WHERE " ++ ("user_id" ++ " = " ++
        ("$" ++ toString ((sortByKey (UpdateUser.updateValues u)).length + 1))) = _
    rw [← String.append_assoc, ← String.append_assoc]
    rfl
  have hx : " " ++ " ".intercalate ["RETURNING user_id"] = " RETURNING user_id" := by decide
  have hu : "UPDATE " ++ DbName ++ " SET " = "UPDATE users SET " := by decide
  have hc : ¬ ([({ column := "user_id", value := .int64 u.ID } : sq.Eq)] = []) := by simp
  have hr : ¬ (["RETURNING user_id"] = []) := by simp
  simp only [List.enum_cons, List.enum_nil, List.map_cons, List.map_nil, List.nil_append, hf,
    hu, hx, List.enumFrom_nil, if_neg hc, if_neg hr] at hw ⊢
  rw [hw, ← String.append_assoc]

/-- Reading a map after an assignment made under a condition. -/
theorem mapGet_ite_mapSet (c : Prop) [Decidable c] (m : List (String × Value)) (k k' : String)
    (v : Value) :
    mapGet (if c then mapSet m k v else m) k'
      = if c ∧ k = k' then some v else mapGet m k' := by
  by_cases hc : c
  · simp [hc, mapGet_mapSet]
  · simp [hc]

/-- The map of `UpdateUser` is empty exactly when the five texts are empty and
the department is absent. -/
theorem updateValues_eq_nil (u : User) :
    UpdateUser.updateValues u = [] ↔
      u.UserName = "" ∧ u.FirstName = "" ∧ u.LastName = "" ∧ u.Email = "" ∧
        u.UserStatus = "" ∧ u.Department = none := by
  constructor
  · intro h
    have g : ∀ k, mapGet (UpdateUser.updateValues u) k = none := by
      intro k; rw [h]; rfl
    have g1 := g "user_name"
    have g2 := g "first_name"
    have g3 := g "last_name"
    have g4 := g "email"
    have g5 := g "user_status"
    have g6 := g "department"
    simp only [UpdateUser.updateValues, mapGet_ite_mapSet, mapGet] at g1 g2 g3 g4 g5 g6
    simp at g1 g2 g3 g4 g5 g6
    exact ⟨g1, g2, g3, g4, g5, g6⟩
  · rintro ⟨h1, h2, h3, h4, h5, h6⟩
    simp [UpdateUser.updateValues, h1, h2, h3, h4, h5, h6]

/-- `UpdateUser` for a user with an id and something to set, in terms of what
the storage answers to the update statement. -/
theorem UpdateUser_eq {σ : Type} (dbcon : DB σ) (u : User) (hid : u.ID ≠ 0)
    (hm : UpdateUser.updateValues u ≠ []) :
    UpdateUser dbcon u =
      match (dbcon.driver.exec dbcon.state (updateUserStmt u)).1 with
      | .error err =>
        ((none, some err),
          dbcon.sent (updateUserStmt u) (dbcon.driver.exec dbcon.state (updateUserStmt u)).2)
      | .ok (.error err) =>
        ((none, some err),
          dbcon.sent (updateUserStmt u) (dbcon.driver.exec dbcon.state (updateUserStmt u)).2)
      | .ok (.ok rowsAffected) =>
        if rowsAffected = 0 then
          ((none, some .ErrUpdateUserNoRows),
            dbcon.sent (updateUserStmt u) (dbcon.driver.exec dbcon.state (updateUserStmt u)).2)
        else
          match (GetUser (dbcon.sent (updateUserStmt u)
              (dbcon.driver.exec dbcon.state (updateUserStmt u)).2) u.ID).1.2 with
          | some err =>
            ((none, some err),
              (GetUser (dbcon.sent (updateUserStmt u)
                (dbcon.driver.exec dbcon.state (updateUserStmt u)).2) u.ID).2)
          | none =>
            (((GetUser (dbcon.sent (updateUserStmt u)
                (dbcon.driver.exec dbcon.state (updateUserStmt u)).2) u.ID).1.1, none),
              (GetUser (dbcon.sent (updateUserStmt u)
                (dbcon.driver.exec dbcon.state (updateUserStmt u)).2) u.ID).2) := by
  have hl : ¬ ((UpdateUser.updateValues u).length = 0) := fun h => hm (List.length_eq_zero.mp h)
  unfold UpdateUser
  rw [if_neg hid, if_neg hl]
  simp only [UpdateUser_ToSql u hm]

/-- When `GetUser` reports an error it returns no user. -/
theorem GetUser_err_no_user {σ : Type} (dbcon : DB σ) (id : Int) (err : Error)
    (h : (GetUser dbcon id).1.2 = some err) : (GetUser dbcon id).1.1 = none := by
  by_cases hid : id = 0
  · subst hid; rfl
  · rw [GetUser_eq dbcon id hid] at h ⊢
    rcases ho : (dbcon.driver.queryRowUser dbcon.state (selectUserByID id)).1 with e | r
    · cases e <;> rfl
    · simp only [ho] at h
      exact absurd h (by simp)

/-- A result of `GetUser` is the pair `UpdateUser` makes of it: the error with
no user, or the user with no error. -/
theorem GetUser_result_eta {σ : Type} (dbcon : DB σ) (id : Int) :
    (match (GetUser dbcon id).1.2 with
      | some err => ((none, some err), (GetUser dbcon id).2)
      | none => (((GetUser dbcon id).1.1, none), (GetUser dbcon id).2))
      = GetUser dbcon id := by
  cases h : (GetUser dbcon id).1.2 with
  | none =>
    refine Prod.ext (Prod.ext rfl ?_) rfl
    exact h.symm
  | some err =>
    have h1 := GetUser_err_no_user dbcon id err h
    refine Prod.ext (Prod.ext ?_ ?_) rfl
    · exact h1.symm
    · exact h.symm

/-- The statements `UpdateUser` sends for a user with an id and something to
set: the update statement, and after it at most the select of the re-read. -/
theorem UpdateUser_trace {σ : Type} (dbcon : DB σ) (u : User) (hid : u.ID ≠ 0)
    (hm : UpdateUser.updateValues u ≠ []) :
    (UpdateUser dbcon u).2.trace = dbcon.trace ++ [updateUserStmt u] ∨
      (UpdateUser dbcon u).2.trace
        = dbcon.trace ++ [updateUserStmt u, selectUserByID u.ID] := by
  rw [UpdateUser_eq dbcon u hid hm]
  split
  · exact Or.inl rfl
  · exact Or.inl rfl
  · split
    · exact Or.inl rfl
    · right
      rw [GetUser_result_eta, GetUser_eq _ _ hid]
      show (dbcon.trace ++ [updateUserStmt u]) ++ [selectUserByID u.ID] = _
      rw [List.append_assoc]
      rfl

/-- C14: `UpdateUser` fails before any storage call, first with
`ErrMissingUserID` when the id is 0 whatever the other fields hold, and
otherwise with `ErrUpdateUserMissingValues` when the five texts are empty and
the department is absent; in both cases no user is returned and the
connection is as it was, so no statement is sent. -/
theorem UpdateUser_precheck {σ : Type} (dbcon : DB σ) (u : User) :
    (u.ID = 0 → UpdateUser dbcon u = ((none, some .ErrMissingUserID), dbcon)) ∧
    (u.ID ≠ 0 → u.UserName = "" → u.FirstName = "" → u.LastName = "" → u.Email = "" →
      u.UserStatus = "" → u.Department = none →
      UpdateUser dbcon u = ((none, some .ErrUpdateUserMissingValues), dbcon)) := by
  constructor
  · intro h
    unfold UpdateUser
    rw [if_pos h]
  · intro hid h1 h2 h3 h4 h5 h6
    have hm := (updateValues_eq_nil u).mpr ⟨h1, h2, h3, h4, h5, h6⟩
    unfold UpdateUser
    rw [if_neg hid, hm]
    rfl

/-- On a scripted database that would answer an update: a user with the id 0
and every field empty fails with `ErrMissingUserID`, a user with the id 5 and
nothing to set fails with `ErrUpdateUserMissingValues`, and the trace stays
empty both times (C14 at these inputs). -/
theorem UpdateUser_precheck_witness :
    UpdateUser (scriptDB [.result (.ok (.ok 1))]) (User.mk 0 "" "" "" "" "" none)
      = ((none, some .ErrMissingUserID), scriptDB [.result (.ok (.ok 1))]) ∧
    UpdateUser (scriptDB [.result (.ok (.ok 1))]) (User.mk 0 "jdoe" "" "" "" "A" none)
      = ((none, some .ErrMissingUserID), scriptDB [.result (.ok (.ok 1))]) ∧
    UpdateUser (scriptDB [.result (.ok (.ok 1))]) (User.mk 5 "" "" "" "" "" none)
      = ((none, some .ErrUpdateUserMissingValues), scriptDB [.result (.ok (.ok 1))]) :=
  ⟨(UpdateUser_precheck (scriptDB [.result (.ok (.ok 1))])
      (User.mk 0 "" "" "" "" "" none)).1 rfl,
    (UpdateUser_precheck (scriptDB [.result (.ok (.ok 1))])
      (User.mk 0 "jdoe" "" "" "" "A" none)).1 rfl,
    (UpdateUser_precheck (scriptDB [.result (.ok (.ok 1))])
      (User.mk 5 "" "" "" "" "" none)).2 (by decide) rfl rfl rfl rfl rfl rfl⟩

/-- C15: for a user with an id, the set-map of `UpdateUser` holds each of
user_name, first_name, last_name, email and user_status exactly when that text
is not empty, and department exactly when it is present, each with the value
of the field; it has no entry for user_id; the set clauses of the statement are
the entries of the map, its only condition is on user_id with the user's id,
and the statement sent first has the set values and then that id as its
arguments. -/
theorem UpdateUser_setMap {σ : Type} (dbcon : DB σ) (u : User) (hid : u.ID ≠ 0) :
    mapGet (UpdateUser.updateValues u) "user_name"
      = (if u.UserName = "" then none else some (.string u.UserName)) ∧
    mapGet (UpdateUser.updateValues u) "first_name"
      = (if u.FirstName = "" then none else some (.string u.FirstName)) ∧
    mapGet (UpdateUser.updateValues u) "last_name"
      = (if u.LastName = "" then none else some (.string u.LastName)) ∧
    mapGet (UpdateUser.updateValues u) "email"
      = (if u.Email = "" then none else some (.string u.Email)) ∧
    mapGet (UpdateUser.updateValues u) "user_status"
      = (if u.UserStatus = "" then none else some (.string u.UserStatus)) ∧
    mapGet (UpdateUser.updateValues u) "department"
      = (match u.Department with
          | some d => some (.stringPtr (some d))
          | none => none) ∧
    mapGet (UpdateUser.updateValues u) "user_id" = none ∧
    (UpdateUser.builder u).SetClauses.Perm (UpdateUser.updateValues u) ∧
    (UpdateUser.builder u).WhereParts = [{ column := "user_id", value := .int64 u.ID }] ∧
    (updateUserStmt u).args
      = (sortByKey (UpdateUser.updateValues u)).map (fun p => p.2) ++ [.int64 u.ID] ∧
    (UpdateUser.updateValues u ≠ [] →
      (UpdateUser dbcon u).2.trace = dbcon.trace ++ [updateUserStmt u] ∨
      (UpdateUser dbcon u).2.trace
        = dbcon.trace ++ [updateUserStmt u, selectUserByID u.ID]) := by
  refine ⟨?_, ?_, ?_, ?_, ?_, ?_, ?_, ?_, rfl, rfl, fun hm => UpdateUser_trace dbcon u hid hm⟩
  · simp only [UpdateUser.updateValues, mapGet_ite_mapSet, mapGet]
    by_cases h : u.UserName = "" <;> simp [h]
  · simp only [UpdateUser.updateValues, mapGet_ite_mapSet, mapGet]
    by_cases h : u.FirstName = "" <;> simp [h]
  · simp only [UpdateUser.updateValues, mapGet_ite_mapSet, mapGet]
    by_cases h : u.LastName = "" <;> simp [h]
  · simp only [UpdateUser.updateValues, mapGet_ite_mapSet, mapGet]
    by_cases h : u.Email = "" <;> simp [h]
  · simp only [UpdateUser.updateValues, mapGet_ite_mapSet, mapGet]
    by_cases h : u.UserStatus = "" <;> simp [h]
  · simp only [UpdateUser.updateValues, mapGet_ite_mapSet, mapGet]
    cases hd : u.Department <;> simp
  · simp only [UpdateUser.updateValues, mapGet_ite_mapSet, mapGet]
    simp
  · show ([] ++ sortByKey (UpdateUser.updateValues u)).Perm _
    rw [List.nil_append]
    exact sortByKey_perm _

/-- A user with the id 1 who gives only a first name and a department: the
map has these two entries and no other, and the statement sent sets
department and first_name, in the order of the keys, for the row with the id 1
(C15 at that input). -/
theorem UpdateUser_setMap_witness :
    UpdateUser.updateValues (User.mk 1 "" "John" "" "" "" (some "IT"))
      = [("first_name", .string "John"), ("department", .stringPtr (some "IT"))] ∧
    ((UpdateUser (scriptDB [.result (.ok (.ok 0))])
        (User.mk 1 "" "John" "" "" "" (some "IT"))).2.trace
      = [{ query := "UPDATE users SET department = $1, first_name = $2 WHERE user_id = $3 RETURNING user_id"
           args := [.stringPtr (some "IT"), .string "John", .int64 1] }]) :=
  ⟨by decide,
    ((UpdateUser_setMap (scriptDB [.result (.ok (.ok 0))])
        (User.mk 1 "" "John" "" "" "" (some "IT")) (by decide)).2.2.2.2.2.2.2.2.2.2
      (by decide)).elim
      (fun h => h.trans (by decide))
      (fun h => absurd (congrArg List.length h) (by decide))⟩

/-- C16 as stated fails when the update is executed and the number of affected
rows cannot be read. On the scripted database the update of the first name of
user 1 is executed without error, its result answers `RowsAffected()` with an
error, and a row is ready for a re-read. `UpdateUser` returns that error: this
is not `ErrUpdateUserNoRows`, and it is not the result of `GetUser` for the id
on the connection after the update, which is the row; only the update was
sent. -/
theorem UpdateUser_rowsAffected_error :
    (User.mk 1 "" "John" "" "" "" none).ID ≠ 0 ∧
    UpdateUser.updateValues (User.mk 1 "" "John" "" "" "" none) ≠ [] ∧
    ((scriptDB [.result (.ok (.error (.driver "rows affected failure"))),
        .rowUser (.ok ⟨1, "jdoe", "John", "Doe", "jdoe@example.com", "A", ⟨"", false⟩⟩)]).driver.exec
      (scriptDB [.result (.ok (.error (.driver "rows affected failure"))),
        .rowUser (.ok ⟨1, "jdoe", "John", "Doe", "jdoe@example.com", "A", ⟨"", false⟩⟩)]).state
      (updateUserStmt (User.mk 1 "" "John" "" "" "" none))).1
      = .ok (.error (.driver "rows affected failure")) ∧
    (UpdateUser
        (scriptDB [.result (.ok (.error (.driver "rows affected failure"))),
          .rowUser (.ok ⟨1, "jdoe", "John", "Doe", "jdoe@example.com", "A", ⟨"", false⟩⟩)])
        (User.mk 1 "" "John" "" "" "" none)).1
      = (none, some (.driver "rows affected failure")) ∧
    (UpdateUser
        (scriptDB [.result (.ok (.error (.driver "rows affected failure"))),
          .rowUser (.ok ⟨1, "jdoe", "John", "Doe", "jdoe@example.com", "A", ⟨"", false⟩⟩)])
        (User.mk 1 "" "John" "" "" "" none)).1
      ≠ (none, some .ErrUpdateUserNoRows) ∧
    (GetUser
        ((scriptDB [.result (.ok (.error (.driver "rows affected failure"))),
          .rowUser (.ok ⟨1, "jdoe", "John", "Doe", "jdoe@example.com", "A", ⟨"", false⟩⟩)]).sent
          (updateUserStmt (User.mk 1 "" "John" "" "" "" none))
          [.rowUser (.ok ⟨1, "jdoe", "John", "Doe", "jdoe@example.com", "A", ⟨"", false⟩⟩)])
        1).1
      = (some (User.mk 1 "jdoe" "John" "Doe" "jdoe@example.com" "A" none), none) ∧
    (UpdateUser
        (scriptDB [.result (.ok (.error (.driver "rows affected failure"))),
          .rowUser (.ok ⟨1, "jdoe", "John", "Doe", "jdoe@example.com", "A", ⟨"", false⟩⟩)])
        (User.mk 1 "" "John" "" "" "" none)).1
      ≠ (GetUser
          ((scriptDB [.result (.ok (.error (.driver "rows affected failure"))),
            .rowUser (.ok ⟨1, "jdoe", "John", "Doe", "jdoe@example.com", "A", ⟨"", false⟩⟩)]).sent
            (updateUserStmt (User.mk 1 "" "John" "" "" "" none))
            [.rowUser (.ok ⟨1, "jdoe", "John", "Doe", "jdoe@example.com", "A", ⟨"", false⟩⟩)])
          1).1 ∧
    (UpdateUser
        (scriptDB [.result (.ok (.error (.driver "rows affected failure"))),
          .rowUser (.ok ⟨1, "jdoe", "John", "Doe", "jdoe@example.com", "A", ⟨"", false⟩⟩)])
        (User.mk 1 "" "John" "" "" "" none)).2.trace
      = [updateUserStmt (User.mk 1 "" "John" "" "" "" none)] ∧
    (UpdateUser
        (scriptDB [.result (.ok (.error (.driver "rows affected failure"))),
          .rowUser (.ok ⟨1, "jdoe", "John", "Doe", "jdoe@example.com", "A", ⟨"", false⟩⟩)])
        (User.mk 1 "" "John" "" "" "" none)).2.state
      = [.rowUser (.ok ⟨1, "jdoe", "John", "Doe", "jdoe@example.com", "A", ⟨"", false⟩⟩)] := by
  refine ⟨by decide, by decide, rfl, by decide, by decide, by decide, by decide, by decide, rfl⟩

/-- C16, amended: for a user with an id and a non-empty set-map whose update
statement is executed without error, with `r` what `RowsAffected()` of the
result gives. When `r` is an error, `UpdateUser` returns that error with no
user and the connection has only seen the update (no re-read). When `r` is the
count 0, `UpdateUser` fails with `ErrUpdateUserNoRows` and the connection has
only seen the update (no re-read). When `r` is a count other than 0, the whole
outcome of `UpdateUser`, result and connection, is that of `GetUser` for the
same id on the connection after the update: the user read back, or the error
of the re-read with no user, and no further statement that would undo the
update. -/
theorem UpdateUser_after_exec {σ : Type} (dbcon : DB σ) (u : User) (hid : u.ID ≠ 0)
    (hm : UpdateUser.updateValues u ≠ []) (r : Except Error Int)
    (hexec : (dbcon.driver.exec dbcon.state (updateUserStmt u)).1 = .ok r) :
    (∀ err : Error, r = .error err →
      UpdateUser dbcon u =
        ((none, some err),
          dbcon.sent (updateUserStmt u)
            (dbcon.driver.exec dbcon.state (updateUserStmt u)).2)) ∧
    (r = .ok 0 →
      UpdateUser dbcon u =
        ((none, some .ErrUpdateUserNoRows),
          dbcon.sent (updateUserStmt u)
            (dbcon.driver.exec dbcon.state (updateUserStmt u)).2)) ∧
    (∀ n : Int, r = .ok n → n ≠ 0 →
      UpdateUser dbcon u =
        GetUser (dbcon.sent (updateUserStmt u)
          (dbcon.driver.exec dbcon.state (updateUserStmt u)).2) u.ID) := by
  rw [UpdateUser_eq dbcon u hid hm]
  refine ⟨?_, ?_, ?_⟩
  · intro err hr
    subst hr
    simp only [hexec]
  · intro hr
    subst hr
    simp only [hexec]
    exact if_pos trivial
  · intro n hr hn
    subst hr
    simp only [hexec]
    rw [if_neg hn]
    exact GetUser_result_eta _ _

/-- On the scripted database, updating the first name of user 1: when the
count of affected rows cannot be read, that error comes back after the update
alone; with 0 affected rows the result is `ErrUpdateUserNoRows` after the
update alone; with 1 affected row the result is the row read back, not the
input; and when the re-read fails its error comes back with no user, after both
statements (C16 at these inputs). -/
theorem UpdateUser_after_exec_witness :
    (UpdateUser (scriptDB [.result (.ok (.error (.driver "rows affected failure")))])
        (User.mk 1 "" "John" "" "" "" none)).1
      = (none, some (.driver "rows affected failure")) ∧
    (UpdateUser (scriptDB [.result (.ok (.error (.driver "rows affected failure")))])
        (User.mk 1 "" "John" "" "" "" none)).2.trace.length = 1 ∧
    (UpdateUser (scriptDB [.result (.ok (.ok 0))]) (User.mk 1 "" "John" "" "" "" none)).1
      = (none, some .ErrUpdateUserNoRows) ∧
    (UpdateUser (scriptDB [.result (.ok (.ok 0))])
        (User.mk 1 "" "John" "" "" "" none)).2.trace.length = 1 ∧
    (UpdateUser
        (scriptDB [.result (.ok (.ok 1)),
          .rowUser (.ok ⟨1, "jdoe", "John", "Doe", "jdoe@example.com", "A", ⟨"", false⟩⟩)])
        (User.mk 1 "" "John" "" "" "" none)).1
      = (some (User.mk 1 "jdoe" "John" "Doe" "jdoe@example.com" "A" none), none) ∧
    (UpdateUser
        (scriptDB [.result (.ok (.ok 1)), .rowUser (.error (.driver "sql: database is closed"))])
        (User.mk 1 "" "John" "" "" "" none)).1
      = (none, some (.driver "sql: database is closed")) ∧
    (UpdateUser
        (scriptDB [.result (.ok (.ok 1)), .rowUser (.error (.driver "sql: database is closed"))])
        (User.mk 1 "" "John" "" "" "" none)).2.trace.length = 2 :=
  ⟨congrArg Prod.fst
      ((UpdateUser_after_exec
        (scriptDB [.result (.ok (.error (.driver "rows affected failure")))])
        (User.mk 1 "" "John" "" "" "" none) (by decide) (by decide)
        (.error (.driver "rows affected failure")) rfl).1 _ rfl),
    (congrArg (fun r => r.2.trace.length)
      ((UpdateUser_after_exec
        (scriptDB [.result (.ok (.error (.driver "rows affected failure")))])
        (User.mk 1 "" "John" "" "" "" none) (by decide) (by decide)
        (.error (.driver "rows affected failure")) rfl).1 _ rfl)).trans rfl,
    congrArg Prod.fst
      ((UpdateUser_after_exec (scriptDB [.result (.ok (.ok 0))])
        (User.mk 1 "" "John" "" "" "" none) (by decide) (by decide) (.ok 0) rfl).2.1 rfl),
    (congrArg (fun r => r.2.trace.length)
      ((UpdateUser_after_exec (scriptDB [.result (.ok (.ok 0))])
        (User.mk 1 "" "John" "" "" "" none) (by decide) (by decide) (.ok 0) rfl).2.1 rfl)).trans rfl,
    (congrArg Prod.fst
      ((UpdateUser_after_exec
        (scriptDB [.result (.ok (.ok 1)),
          .rowUser (.ok ⟨1, "jdoe", "John", "Doe", "jdoe@example.com", "A", ⟨"", false⟩⟩)])
        (User.mk 1 "" "John" "" "" "" none) (by decide) (by decide) (.ok 1) rfl).2.2 1 rfl
          (by decide))).trans rfl,
    (congrArg Prod.fst
      ((UpdateUser_after_exec
        (scriptDB [.result (.ok (.ok 1)), .rowUser (.error (.driver "sql: database is closed"))])
        (User.mk 1 "" "John" "" "" "" none) (by decide) (by decide) (.ok 1) rfl).2.2 1 rfl
          (by decide))).trans rfl,
    (congrArg (fun r => r.2.trace.length)
      ((UpdateUser_after_exec
        (scriptDB [.result (.ok (.ok 1)), .rowUser (.error (.driver "sql: database is closed"))])
        (User.mk 1 "" "John" "" "" "" none) (by decide) (by decide) (.ok 1) rfl).2.2 1 rfl
          (by decide))).trans rfl⟩

/-! ## Storage access: `DeleteUser` and `GetAllUsers` -/

/-- The statement `DeleteUser` builds for an id. -/
theorem DeleteUser_ToSql (id : Int) :
    sq.DeleteBuilder.ToSql ⟨DbName, [⟨"user_id", .int64 id⟩], true⟩
      = ((deleteUserByID id).query, (deleteUserByID id).args, none) := by
  have htext : (sq.DeleteBuilder.ToSql ⟨DbName, [⟨"user_id", .int64 0⟩], true⟩).1
      = (deleteUserByID 0).query := by
    decide
  have e : sq.DeleteBuilder.ToSql ⟨DbName, [⟨"user_id", .int64 id⟩], true⟩
      = ((sq.DeleteBuilder.ToSql ⟨DbName, [⟨"user_id", .int64 0⟩], true⟩).1,
          (deleteUserByID id).args, none) := rfl
  rw [e, htext]
  rfl

/-- `DeleteUser` in terms of what the storage answers to the delete
statement. -/
theorem DeleteUser_eq {σ : Type} (dbcon : DB σ) (id : Int) :
    DeleteUser dbcon id =
      (match (dbcon.driver.exec dbcon.state (deleteUserByID id)).1 with
        | .error err => some err
        | .ok (.error err) => some err
        | .ok (.ok numRows) => if numRows = 0 then some .ErrUserNotFound else none,
       dbcon.sent (deleteUserByID id)
        (dbcon.driver.exec dbcon.state (deleteUserByID id)).2) := by
  have key : ∀ out : Except Error (Except Error Int) × σ,
      (match out.1 with
        | .error err => (some err, dbcon.sent (deleteUserByID id) out.2)
        | .ok (.error err) => (some err, dbcon.sent (deleteUserByID id) out.2)
        | .ok (.ok numRows) =>
          if numRows = 0 then (some Error.ErrUserNotFound, dbcon.sent (deleteUserByID id) out.2)
          else (none, dbcon.sent (deleteUserByID id) out.2)) =
      ((match out.1 with
        | .error err => some err
        | .ok (.error err) => some err
        | .ok (.ok numRows) => if numRows = 0 then some .ErrUserNotFound else none :
          Option Error),
       dbcon.sent (deleteUserByID id) out.2) := by
    rintro ⟨res, st⟩
    rcases res with e | (e | n)
    · rfl
    · rfl
    · by_cases hn : n = 0
      · simp only [if_pos hn]
      · simp only [if_neg hn]
  unfold DeleteUser
  simp only [DeleteUser_ToSql]
  exact key _

/-- C17: for every id (0 included) `DeleteUser` sends exactly the delete
statement filtered by that id, and returns the execution error as it is, the
row-count error as it is, `ErrUserNotFound` for the count 0, and no error for
a count of at least 1. -/
theorem DeleteUser_spec {σ : Type} (dbcon : DB σ) (id : Int) :
    (DeleteUser dbcon id).2.trace = dbcon.trace ++ [deleteUserByID id] ∧
    (∀ err : Error, (dbcon.driver.exec dbcon.state (deleteUserByID id)).1 = .error err →
      (DeleteUser dbcon id).1 = some err) ∧
    (∀ err : Error, (dbcon.driver.exec dbcon.state (deleteUserByID id)).1 = .ok (.error err) →
      (DeleteUser dbcon id).1 = some err) ∧
    ((dbcon.driver.exec dbcon.state (deleteUserByID id)).1 = .ok (.ok 0) →
      (DeleteUser dbcon id).1 = some .ErrUserNotFound) ∧
    (∀ n : Int, 1 ≤ n → (dbcon.driver.exec dbcon.state (deleteUserByID id)).1 = .ok (.ok n) →
      (DeleteUser dbcon id).1 = none) := by
  rw [DeleteUser_eq dbcon id]
  refine ⟨rfl, ?_, ?_, ?_, ?_⟩
  · intro err h
    simp only [h]
  · intro err h
    simp only [h]
  · intro h
    simp only [h, if_true]
  · intro n hn h
    have hn0 : ¬ n = 0 := by omega
    simp only [h, if_neg hn0]

/-- On the scripted database, deleting user 1: one affected row gives no
error, none gives `ErrUserNotFound`, and a failing execution or a failing row
count gives its own error; the statement sent carries the id (C17 at these
inputs). -/
theorem DeleteUser_spec_witness :
    (DeleteUser (scriptDB [.result (.ok (.ok 1))]) 1).1 = none ∧
    (DeleteUser (scriptDB [.result (.ok (.ok 0))]) 1).1 = some .ErrUserNotFound ∧
    (DeleteUser (scriptDB [.result (.error (.Errorf "exec failure"))]) 1).1
      = some (.Errorf "exec failure") ∧
    (DeleteUser (scriptDB [.result (.ok (.error (.Errorf "rows affected failure")))]) 1).1
      = some (.Errorf "rows affected failure") ∧
    (DeleteUser (scriptDB [.result (.ok (.ok 1))]) 1).2.trace
      = [{ query := "DELETE FROM users WHERE user_id = $1", args := [.int64 1] }] :=
  ⟨(DeleteUser_spec (scriptDB [.result (.ok (.ok 1))]) 1).2.2.2.2 1 (by decide) rfl,
    (DeleteUser_spec (scriptDB [.result (.ok (.ok 0))]) 1).2.2.2.1 rfl,
    (DeleteUser_spec (scriptDB [.result (.error (.Errorf "exec failure"))]) 1).2.1 _ rfl,
    (DeleteUser_spec (scriptDB [.result (.ok (.error (.Errorf "rows affected failure")))])
      1).2.2.1 _ rfl,
    (DeleteUser_spec (scriptDB [.result (.ok (.ok 1))]) 1).1⟩

/-- The statement `GetAllUsers` builds. -/
theorem GetAllUsers_ToSql :
    sq.SelectBuilder.ToSql ⟨[AllColumns], DbName, [], false⟩
      = (selectAllUsers.query, selectAllUsers.args, none) := by
  decide

/-- The loop over rows that all scan: every row is converted, in order, after
the users gathered before. -/
theorem GetAllUsers_loop_ok (udbs : List UserDB) (results : List User) :
    GetAllUsers.loop (udbs.map Except.ok) results
      = .ok (results ++ udbs.map ConvertToUser) := by
  induction udbs generalizing results with
  | nil => simp [GetAllUsers.loop]
  | cons r rest ih =>
    simp only [List.map_cons, GetAllUsers.loop]
    rw [ih, List.append_assoc]
    rfl

/-- The loop over rows of which one does not scan: the error of the first such
row, whatever was read before and whatever comes after. -/
theorem GetAllUsers_loop_err (udbs : List UserDB) (err : Error)
    (rest : List (Except Error UserDB)) (results : List User) :
    GetAllUsers.loop (udbs.map Except.ok ++ .error err :: rest) results = .error err := by
  induction udbs generalizing results with
  | nil => rfl
  | cons r more ih =>
    simp only [List.map_cons, List.cons_append, GetAllUsers.loop]
    exact ih _

/-- `GetAllUsers` in terms of what the storage answers to the select
statement. -/
theorem GetAllUsers_eq {σ : Type} (dbcon : DB σ) :
    GetAllUsers dbcon =
      (match (dbcon.driver.query dbcon.state selectAllUsers).1 with
        | .error err => ([], some err)
        | .ok (rows, iterErr) =>
          match GetAllUsers.loop rows [] with
          | .error err => ([], some err)
          | .ok results =>
            match iterErr with
            | some err => ([], some err)
            | none => (results, none),
       dbcon.sent selectAllUsers (dbcon.driver.query dbcon.state selectAllUsers).2) := by
  have key : ∀ out : Except Error (List (Except Error UserDB) × Option Error) × σ,
      (match out.1 with
        | .error err => (([], some err), dbcon.sent selectAllUsers out.2)
        | .ok (rows, iterErr) =>
          match GetAllUsers.loop rows [] with
          | .error err => (([], some err), dbcon.sent selectAllUsers out.2)
          | .ok results =>
            match iterErr with
            | some err => (([], some err), dbcon.sent selectAllUsers out.2)
            | none => ((results, none), dbcon.sent selectAllUsers out.2)) =
      ((match out.1 with
        | .error err => ([], some err)
        | .ok (rows, iterErr) =>
          match GetAllUsers.loop rows [] with
          | .error err => ([], some err)
          | .ok results =>
            match iterErr with
            | some err => ([], some err)
            | none => (results, none) : List User × Option Error),
       dbcon.sent selectAllUsers out.2) := by
    rintro ⟨res, st⟩
    rcases res with e | ⟨rows, iterErr⟩
    · rfl
    · simp only
      cases GetAllUsers.loop rows [] with
      | error e => rfl
      | ok results => cases iterErr <;> rfl
  unfold GetAllUsers
  simp only [GetAllUsers_ToSql]
  exact key _

/-- C18: `GetAllUsers` sends exactly the select of all users and has no
partial result: when the query fails, when a row does not scan (after any
number of rows that did), or when the iteration ends with an error (after any
number of rows), it returns that error and no user; otherwise it returns, with
no error, the conversion of each row in the order of the storage, as many
users as rows. -/
theorem GetAllUsers_spec {σ : Type} (dbcon : DB σ) :
    (GetAllUsers dbcon).2.trace = dbcon.trace ++ [selectAllUsers] ∧
    (∀ err : Error, (dbcon.driver.query dbcon.state selectAllUsers).1 = .error err →
      (GetAllUsers dbcon).1 = ([], some err)) ∧
    (∀ (udbs : List UserDB) (err : Error) (rest : List (Except Error UserDB))
        (iterErr : Option Error),
      (dbcon.driver.query dbcon.state selectAllUsers).1
        = .ok (udbs.map Except.ok ++ .error err :: rest, iterErr) →
      (GetAllUsers dbcon).1 = ([], some err)) ∧
    (∀ (udbs : List UserDB) (err : Error),
      (dbcon.driver.query dbcon.state selectAllUsers).1 = .ok (udbs.map Except.ok, some err) →
      (GetAllUsers dbcon).1 = ([], some err)) ∧
    (∀ udbs : List UserDB,
      (dbcon.driver.query dbcon.state selectAllUsers).1 = .ok (udbs.map Except.ok, none) →
      (GetAllUsers dbcon).1 = (udbs.map ConvertToUser, none) ∧
      (GetAllUsers dbcon).1.1.length = udbs.length) := by
  rw [GetAllUsers_eq dbcon]
  refine ⟨rfl, ?_, ?_, ?_, ?_⟩
  · intro err h
    simp only [h]
  · intro udbs err rest iterErr h
    simp only [h, GetAllUsers_loop_err]
  · intro udbs err h
    simp only [h, GetAllUsers_loop_ok]
  · intro udbs h
    simp only [h, GetAllUsers_loop_ok, List.nil_append, List.length_map, and_self]

/-- On the scripted database: a two-row table gives a list of length 2, the
first user with a department and the second without; an empty table gives the
empty list; an iteration error after a row that was read, and a row that does
not scan after one that did, give the error and no user (C18 at these
inputs). -/
theorem GetAllUsers_spec_witness :
    (GetAllUsers (scriptDB [.rows (.ok
        ([.ok ⟨1, "jdoe", "John", "Doe", "jdoe@example.com", "A", ⟨"IT", true⟩⟩,
          .ok ⟨2, "asmith", "Alice", "Smith", "asmith@example.com", "I", ⟨"", false⟩⟩],
          none))])).1
      = ([User.mk 1 "jdoe" "John" "Doe" "jdoe@example.com" "A" (some "IT"),
          User.mk 2 "asmith" "Alice" "Smith" "asmith@example.com" "I" none], none) ∧
    (GetAllUsers (scriptDB [.rows (.ok ([], none))])).1 = ([], none) ∧
    (GetAllUsers (scriptDB [.rows (.ok
        ([.ok ⟨1, "jdoe", "John", "Doe", "jdoe@example.com", "A", ⟨"IT", true⟩⟩],
          some (.Errorf "row iteration error")))])).1
      = ([], some (.Errorf "row iteration error")) ∧
    (GetAllUsers (scriptDB [.rows (.ok
        ([.ok ⟨1, "jdoe", "John", "Doe", "jdoe@example.com", "A", ⟨"IT", true⟩⟩,
          .error (.driver "converting driver.Value type string to a int64")],
          none))])).1
      = ([], some (.driver "converting driver.Value type string to a int64")) :=
  ⟨((GetAllUsers_spec (scriptDB [.rows (.ok
        ([.ok ⟨1, "jdoe", "John", "Doe", "jdoe@example.com", "A", ⟨"IT", true⟩⟩,
          .ok ⟨2, "asmith", "Alice", "Smith", "asmith@example.com", "I", ⟨"", false⟩⟩],
          none))])).2.2.2.2
      [⟨1, "jdoe", "John", "Doe", "jdoe@example.com", "A", ⟨"IT", true⟩⟩,
        ⟨2, "asmith", "Alice", "Smith", "asmith@example.com", "I", ⟨"", false⟩⟩] rfl).1,
    ((GetAllUsers_spec (scriptDB [.rows (.ok ([], none))])).2.2.2.2 [] rfl).1,
    (GetAllUsers_spec (scriptDB [.rows (.ok
        ([.ok ⟨1, "jdoe", "John", "Doe", "jdoe@example.com", "A", ⟨"IT", true⟩⟩],
          some (.Errorf "row iteration error")))])).2.2.2.1
      [⟨1, "jdoe", "John", "Doe", "jdoe@example.com", "A", ⟨"IT", true⟩⟩] _ rfl,
    (GetAllUsers_spec (scriptDB [.rows (.ok
        ([.ok ⟨1, "jdoe", "John", "Doe", "jdoe@example.com", "A", ⟨"IT", true⟩⟩,
          .error (.driver "converting driver.Value type string to a int64")],
          none))])).2.2.1
      [⟨1, "jdoe", "John", "Doe", "jdoe@example.com", "A", ⟨"IT", true⟩⟩] _ [] none rfl⟩

/-! ## User service -/

/-- The pair the service makes of a delegate's result passes that result on. -/
theorem passedOn_match (r : Option User × Option Error) :
    PassedOn r
      (match r.2 with
        | some err => (none, some err)
        | none => (r.1, none)) := by
  obtain ⟨a, b⟩ := r
  cases b with
  | none => exact ⟨fun _ => rfl, fun err h => absurd h (by simp)⟩
  | some e =>
    refine ⟨fun h => absurd h (by simp), fun err h => ?_⟩
    cases h
    rfl

/-- The pair the service makes of the list delegate's result passes that
result on. -/
theorem passedOnList_match (r : List User × Option Error) :
    PassedOnList r
      (match r.2 with
        | some err => ([], some err)
        | none => (r.1, none)) := by
  obtain ⟨a, b⟩ := r
  cases b with
  | none => exact ⟨fun _ => rfl, fun err h => absurd h (by simp)⟩
  | some e =>
    refine ⟨fun h => absurd h (by simp), fun err h => ?_⟩
    cases h
    rfl

/-- `GetByID` when the validator rejects the parameter. -/
theorem GetByID_of_reject {ω : Type} (us : UserService ω) (c : Context) (s : Sys ω)
    (err : Error) (hv : (us.ValidateUserID (c.Param "user_id")).2 = some err) :
    us.GetByID c s = ((none, some err), s) := by
  unfold UserService.GetByID
  simp only [hv]

/-- `GetByID` when the validator accepts and the factory fails. -/
theorem GetByID_of_connect_error {ω : Type} (us : UserService ω) (c : Context) (s : Sys ω)
    (hv : (us.ValidateUserID (c.Param "user_id")).2 = none) (err : Error)
    (hc : (us.ConnectDB s.world).1 = .error err) :
    us.GetByID c s
      = ((none, some err), { world := (us.ConnectDB s.world).2, log := s.log ++ [.connect] }) := by
  unfold UserService.GetByID
  simp only [hv, hc]

/-- `GetByID` when the validator accepts and the factory succeeds. -/
theorem GetByID_of_connected {ω : Type} (us : UserService ω) (c : Context) (s : Sys ω)
    (hv : (us.ValidateUserID (c.Param "user_id")).2 = none) (dbcon : Conn ω)
    (hc : (us.ConnectDB s.world).1 = .ok dbcon) :
    us.GetByID c s =
      (match (us.GetUserFunc dbcon (us.ValidateUserID (c.Param "user_id")).1
          (us.ConnectDB s.world).2).1.2 with
        | some err => (none, some err)
        | none =>
          ((us.GetUserFunc dbcon (us.ValidateUserID (c.Param "user_id")).1
            (us.ConnectDB s.world).2).1.1, none),
       { world := dbcon.Close (us.GetUserFunc dbcon (us.ValidateUserID (c.Param "user_id")).1
            (us.ConnectDB s.world).2).2
         log := s.log ++ [.connect, .getUser (us.ValidateUserID (c.Param "user_id")).1,
            .close] }) := by
  unfold UserService.GetByID
  simp only [hv, hc, List.append_assoc, List.singleton_append]
  cases (us.GetUserFunc dbcon (us.ValidateUserID (c.Param "user_id")).1
    (us.ConnectDB s.world).2).1.2 <;> rfl

/-- `DeleteByID` when the validator rejects the parameter. -/
theorem DeleteByID_of_reject {ω : Type} (us : UserService ω) (c : Context) (s : Sys ω)
    (err : Error) (hv : (us.ValidateUserID (c.Param "user_id")).2 = some err) :
    us.DeleteByID c s = (some err, s) := by
  unfold UserService.DeleteByID
  simp only [hv]

/-- `DeleteByID` when the validator accepts and the factory fails. -/
theorem DeleteByID_of_connect_error {ω : Type} (us : UserService ω) (c : Context) (s : Sys ω)
    (hv : (us.ValidateUserID (c.Param "user_id")).2 = none) (err : Error)
    (hc : (us.ConnectDB s.world).1 = .error err) :
    us.DeleteByID c s
      = (some err, { world := (us.ConnectDB s.world).2, log := s.log ++ [.connect] }) := by
  unfold UserService.DeleteByID
  simp only [hv, hc]

/-- `DeleteByID` when the validator accepts and the factory succeeds. -/
theorem DeleteByID_of_connected {ω : Type} (us : UserService ω) (c : Context) (s : Sys ω)
    (hv : (us.ValidateUserID (c.Param "user_id")).2 = none) (dbcon : Conn ω)
    (hc : (us.ConnectDB s.world).1 = .ok dbcon) :
    us.DeleteByID c s =
      ((us.DeleteUserFunc dbcon (us.ValidateUserID (c.Param "user_id")).1
          (us.ConnectDB s.world).2).1,
       { world := dbcon.Close (us.DeleteUserFunc dbcon
            (us.ValidateUserID (c.Param "user_id")).1 (us.ConnectDB s.world).2).2
         log := s.log ++ [.connect, .deleteUser (us.ValidateUserID (c.Param "user_id")).1,
            .close] }) := by
  unfold UserService.DeleteByID
  simp only [hv, hc, List.append_assoc, List.singleton_append]
  cases (us.DeleteUserFunc dbcon (us.ValidateUserID (c.Param "user_id")).1
    (us.ConnectDB s.world).2).1 <;> rfl

/-- `GetAll` when the factory fails. -/
theorem GetAll_of_connect_error {ω : Type} (us : UserService ω) (c : Context) (s : Sys ω)
    (err : Error) (hc : (us.ConnectDB s.world).1 = .error err) :
    us.GetAll c s
      = (([], some err), { world := (us.ConnectDB s.world).2, log := s.log ++ [.connect] }) := by
  unfold UserService.GetAll
  simp only [hc]

/-- `GetAll` when the factory succeeds. -/
theorem GetAll_of_connected {ω : Type} (us : UserService ω) (c : Context) (s : Sys ω)
    (dbcon : Conn ω) (hc : (us.ConnectDB s.world).1 = .ok dbcon) :
    us.GetAll c s =
      (match (us.GetAllUsersFunc dbcon (us.ConnectDB s.world).2).1.2 with
        | some err => ([], some err)
        | none => ((us.GetAllUsersFunc dbcon (us.ConnectDB s.world).2).1.1, none),
       { world := dbcon.Close (us.GetAllUsersFunc dbcon (us.ConnectDB s.world).2).2
         log := s.log ++ [.connect, .getAllUsers, .close] }) := by
  unfold UserService.GetAll
  simp only [hc, List.append_assoc, List.singleton_append]
  cases (us.GetAllUsersFunc dbcon (us.ConnectDB s.world).2).1.2 <;> rfl

/-- `Create` when the factory fails. -/
theorem Create_of_connect_error {ω : Type} (us : UserService ω) (c : Context) (u : User)
    (s : Sys ω) (err : Error) (hc : (us.ConnectDB s.world).1 = .error err) :
    us.Create c u s
      = ((none, some err), { world := (us.ConnectDB s.world).2, log := s.log ++ [.connect] }) := by
  unfold UserService.Create
  simp only [hc]

/-- `Create` when the factory succeeds. -/
theorem Create_of_connected {ω : Type} (us : UserService ω) (c : Context) (u : User)
    (s : Sys ω) (dbcon : Conn ω) (hc : (us.ConnectDB s.world).1 = .ok dbcon) :
    us.Create c u s =
      (match (us.CreateUserFunc dbcon u (us.ConnectDB s.world).2).1.2 with
        | some err => (none, some err)
        | none => ((us.CreateUserFunc dbcon u (us.ConnectDB s.world).2).1.1, none),
       { world := dbcon.Close (us.CreateUserFunc dbcon u (us.ConnectDB s.world).2).2
         log := s.log ++ [.connect, .createUser u, .close] }) := by
  unfold UserService.Create
  simp only [hc, List.append_assoc, List.singleton_append]
  cases (us.CreateUserFunc dbcon u (us.ConnectDB s.world).2).1.2 <;> rfl

/-- `Update` when the factory fails. -/
theorem Update_of_connect_error {ω : Type} (us : UserService ω) (c : Context) (u : User)
    (s : Sys ω) (err : Error) (hc : (us.ConnectDB s.world).1 = .error err) :
    us.Update c u s
      = ((none, some err), { world := (us.ConnectDB s.world).2, log := s.log ++ [.connect] }) := by
  unfold UserService.Update
  simp only [hc]

/-- `Update` when the factory succeeds. -/
theorem Update_of_connected {ω : Type} (us : UserService ω) (c : Context) (u : User)
    (s : Sys ω) (dbcon : Conn ω) (hc : (us.ConnectDB s.world).1 = .ok dbcon) :
    us.Update c u s =
      (match (us.UpdateUserFunc dbcon u (us.ConnectDB s.world).2).1.2 with
        | some err => (none, some err)
        | none => ((us.UpdateUserFunc dbcon u (us.ConnectDB s.world).2).1.1, none),
       { world := dbcon.Close (us.UpdateUserFunc dbcon u (us.ConnectDB s.world).2).2
         log := s.log ++ [.connect, .updateUser u, .close] }) := by
  unfold UserService.Update
  simp only [hc, List.append_assoc, List.singleton_append]
  cases (us.UpdateUserFunc dbcon u (us.ConnectDB s.world).2).1.2 <;> rfl

/-- C19, as stated, fails: on the example service whose factory fails, the
validator accepts the parameter 123, yet neither the get nor the delete
delegate is called; the record holds the call to the factory alone. -/
theorem Service_accepts_without_delegate_call :
    (exampleService true).ValidateUserID ((exampleContext "123").Param "user_id") = (123, none) ∧
    ((exampleService true).GetByID (exampleContext "123") ⟨0, []⟩).2.log = [.connect] ∧
    Event.getUser 123 ∉ ((exampleService true).GetByID (exampleContext "123") ⟨0, []⟩).2.log ∧
    ((exampleService true).DeleteByID (exampleContext "123") ⟨0, []⟩).2.log = [.connect] ∧
    Event.deleteUser 123
      ∉ ((exampleService true).DeleteByID (exampleContext "123") ⟨0, []⟩).2.log := by
  decide

/-- C19, amended: `GetByID` and `DeleteByID` run the validator on the path
parameter `user_id` first. When it rejects, the operation returns its error as
it is and neither the factory nor the delegate is called (world and record
are as before). When it accepts and the factory succeeds, the delegate is
called once, with exactly the id the validator returned, between the call to
the factory and the release; when it accepts and the factory fails, the
delegate is not called. -/
theorem Service_validates_first {ω : Type} (us : UserService ω) (c : Context) (s : Sys ω) :
    (∀ err : Error, (us.ValidateUserID (c.Param "user_id")).2 = some err →
      us.GetByID c s = ((none, some err), s) ∧ us.DeleteByID c s = (some err, s)) ∧
    ((us.ValidateUserID (c.Param "user_id")).2 = none →
      (∀ dbcon : Conn ω, (us.ConnectDB s.world).1 = .ok dbcon →
        (us.GetByID c s).2.log
          = s.log ++ [.connect, .getUser (us.ValidateUserID (c.Param "user_id")).1, .close] ∧
        (us.DeleteByID c s).2.log
          = s.log ++ [.connect, .deleteUser (us.ValidateUserID (c.Param "user_id")).1,
              .close]) ∧
      (∀ err : Error, (us.ConnectDB s.world).1 = .error err →
        (us.GetByID c s).2.log = s.log ++ [.connect] ∧
        (us.DeleteByID c s).2.log = s.log ++ [.connect])) := by
  refine ⟨fun err hv => ⟨GetByID_of_reject us c s err hv, DeleteByID_of_reject us c s err hv⟩,
    fun hv => ⟨fun dbcon hc => ⟨?_, ?_⟩, fun err hc => ⟨?_, ?_⟩⟩⟩
  · rw [GetByID_of_connected us c s hv dbcon hc]
  · rw [DeleteByID_of_connected us c s hv dbcon hc]
  · rw [GetByID_of_connect_error us c s hv err hc]
  · rw [DeleteByID_of_connect_error us c s hv err hc]

/-- On the example service: the parameter bad is rejected and nothing is
called; the parameter 123 with a working factory leads to one call of the
delegate with the id 123 (C19, amended, at these inputs). -/
theorem Service_validates_first_witness :
    (exampleService false).GetByID (exampleContext "bad") ⟨0, []⟩
      = ((none, some (.Errorf "invalid ID")), ⟨0, []⟩) ∧
    (exampleService false).DeleteByID (exampleContext "bad") ⟨0, []⟩
      = (some (.Errorf "invalid ID"), ⟨0, []⟩) ∧
    ((exampleService false).GetByID (exampleContext "123") ⟨0, []⟩).2.log
      = [.connect, .getUser 123, .close] ∧
    ((exampleService false).DeleteByID (exampleContext "123") ⟨0, []⟩).2.log
      = [.connect, .deleteUser 123, .close] :=
  ⟨((Service_validates_first (exampleService false) (exampleContext "bad") ⟨0, []⟩).1
      (.Errorf "invalid ID") (by decide)).1,
    ((Service_validates_first (exampleService false) (exampleContext "bad") ⟨0, []⟩).1
      (.Errorf "invalid ID") (by decide)).2,
    (((Service_validates_first (exampleService false) (exampleContext "123") ⟨0, []⟩).2
      (by decide)).1 { Close := fun n => n - 1 } rfl).1,
    (((Service_validates_first (exampleService false) (exampleContext "123") ⟨0, []⟩).2
      (by decide)).1 { Close := fun n => n - 1 } rfl).2⟩

/-- C20: for each of the five operations of the service (for `GetByID` and
`DeleteByID`, once the validator has accepted the parameter). When the factory
succeeds, the record grows by the call to the factory, one call to the
delegate and one release, in that order; the world is the one the delegate
left, after `Close`; and the result or the error of the delegate is passed on
as it is. When the factory fails, the record grows by the call to the factory
alone, so the delegate is not called, and the error of the factory is
returned. -/
theorem Service_releases_connection {ω : Type} (us : UserService ω) (c : Context)
    (reqUser : User) (s : Sys ω) :
    (∀ dbcon : Conn ω, (us.ConnectDB s.world).1 = .ok dbcon →
      ((us.GetAll c s).2.log = s.log ++ [.connect, .getAllUsers, .close] ∧
        (us.GetAll c s).2.world
          = dbcon.Close (us.GetAllUsersFunc dbcon (us.ConnectDB s.world).2).2 ∧
        PassedOnList (us.GetAllUsersFunc dbcon (us.ConnectDB s.world).2).1
          (us.GetAll c s).1) ∧
      ((us.Create c reqUser s).2.log = s.log ++ [.connect, .createUser reqUser, .close] ∧
        (us.Create c reqUser s).2.world
          = dbcon.Close (us.CreateUserFunc dbcon reqUser (us.ConnectDB s.world).2).2 ∧
        PassedOn (us.CreateUserFunc dbcon reqUser (us.ConnectDB s.world).2).1
          (us.Create c reqUser s).1) ∧
      ((us.Update c reqUser s).2.log = s.log ++ [.connect, .updateUser reqUser, .close] ∧
        (us.Update c reqUser s).2.world
          = dbcon.Close (us.UpdateUserFunc dbcon reqUser (us.ConnectDB s.world).2).2 ∧
        PassedOn (us.UpdateUserFunc dbcon reqUser (us.ConnectDB s.world).2).1
          (us.Update c reqUser s).1) ∧
      ((us.ValidateUserID (c.Param "user_id")).2 = none →
        ((us.GetByID c s).2.log
            = s.log ++ [.connect, .getUser (us.ValidateUserID (c.Param "user_id")).1,
                .close] ∧
          (us.GetByID c s).2.world
            = dbcon.Close (us.GetUserFunc dbcon (us.ValidateUserID (c.Param "user_id")).1
                (us.ConnectDB s.world).2).2 ∧
          PassedOn (us.GetUserFunc dbcon (us.ValidateUserID (c.Param "user_id")).1
              (us.ConnectDB s.world).2).1
            (us.GetByID c s).1) ∧
        ((us.DeleteByID c s).2.log
            = s.log ++ [.connect, .deleteUser (us.ValidateUserID (c.Param "user_id")).1,
                .close] ∧
          (us.DeleteByID c s).2.world
            = dbcon.Close (us.DeleteUserFunc dbcon (us.ValidateUserID (c.Param "user_id")).1
                (us.ConnectDB s.world).2).2 ∧
          (us.DeleteByID c s).1
            = (us.DeleteUserFunc dbcon (us.ValidateUserID (c.Param "user_id")).1
                (us.ConnectDB s.world).2).1))) ∧
    (∀ err : Error, (us.ConnectDB s.world).1 = .error err →
      us.GetAll c s
        = (([], some err), { world := (us.ConnectDB s.world).2, log := s.log ++ [.connect] }) ∧
      us.Create c reqUser s
        = ((none, some err),
            { world := (us.ConnectDB s.world).2, log := s.log ++ [.connect] }) ∧
      us.Update c reqUser s
        = ((none, some err),
            { world := (us.ConnectDB s.world).2, log := s.log ++ [.connect] }) ∧
      ((us.ValidateUserID (c.Param "user_id")).2 = none →
        us.GetByID c s
          = ((none, some err),
              { world := (us.ConnectDB s.world).2, log := s.log ++ [.connect] }) ∧
        us.DeleteByID c s
          = (some err, { world := (us.ConnectDB s.world).2, log := s.log ++ [.connect] }))) := by
  constructor
  · intro dbcon hc
    refine ⟨?_, ?_, ?_, fun hv => ⟨?_, ?_⟩⟩
    · rw [GetAll_of_connected us c s dbcon hc]
      exact ⟨rfl, rfl, passedOnList_match _⟩
    · rw [Create_of_connected us c reqUser s dbcon hc]
      exact ⟨rfl, rfl, passedOn_match _⟩
    · rw [Update_of_connected us c reqUser s dbcon hc]
      exact ⟨rfl, rfl, passedOn_match _⟩
    · rw [GetByID_of_connected us c s hv dbcon hc]
      exact ⟨rfl, rfl, passedOn_match _⟩
    · rw [DeleteByID_of_connected us c s hv dbcon hc]
      exact ⟨rfl, rfl, rfl⟩
  · intro err hc
    exact ⟨GetAll_of_connect_error us c s err hc, Create_of_connect_error us c reqUser s err hc,
      Update_of_connect_error us c reqUser s err hc,
      fun hv => ⟨GetByID_of_connect_error us c s hv err hc,
        DeleteByID_of_connect_error us c s hv err hc⟩⟩

/-- On the example service, whose world counts the open connections: with a
working factory `Create` opens a connection, calls the delegate and releases
the connection, so none is open afterwards, and returns the delegate's user;
with a failing factory `Update` calls the factory alone and returns its error
(C20 at these inputs). -/
theorem Service_releases_connection_witness :
    ((exampleService false).Create (exampleContext "123")
        (User.mk 0 "newuser" "" "" "" "" none) ⟨0, []⟩).2.log
      = [.connect, .createUser (User.mk 0 "newuser" "" "" "" "" none), .close] ∧
    ((exampleService false).Create (exampleContext "123")
        (User.mk 0 "newuser" "" "" "" "" none) ⟨0, []⟩).2.world = 0 ∧
    (exampleService true).Update (exampleContext "123")
        (User.mk 5 "old" "" "" "" "" none) ⟨0, []⟩
      = ((none, some (.driver "connection refused")), ⟨0, [.connect]⟩) :=
  ⟨((Service_releases_connection (exampleService false) (exampleContext "123")
      (User.mk 0 "newuser" "" "" "" "" none) ⟨0, []⟩).1
        { Close := fun n => n - 1 } rfl).2.1.1,
    (((Service_releases_connection (exampleService false) (exampleContext "123")
      (User.mk 0 "newuser" "" "" "" "" none) ⟨0, []⟩).1
        { Close := fun n => n - 1 } rfl).2.1.2.1).trans rfl,
    ((Service_releases_connection (exampleService true) (exampleContext "123")
      (User.mk 5 "old" "" "" "" "" none) ⟨0, []⟩).2
        (.driver "connection refused") rfl).2.2.1⟩

/-! ## Record mapper, from the row side -/

/-- C23, as stated, fails: a row whose department is not valid but still
holds a text comes back with the empty text. -/
theorem ConvertToUserDB_ConvertToUser_loses_text :
    (ConvertToUser ⟨11, "bwayne", "Bruce", "Wayne", "b@w.com", "I",
        ⟨"left over", false⟩⟩).ConvertToUserDB
      = ⟨11, "bwayne", "Bruce", "Wayne", "b@w.com", "I", ⟨"", false⟩⟩ ∧
    (ConvertToUser ⟨11, "bwayne", "Bruce", "Wayne", "b@w.com", "I",
        ⟨"left over", false⟩⟩).ConvertToUserDB
      ≠ ⟨11, "bwayne", "Bruce", "Wayne", "b@w.com", "I", ⟨"left over", false⟩⟩ := by
  decide

/-- C23, amended: converting a row to a user and back gives the same row
exactly when the row's department is valid or holds the empty text; the id,
the five texts and a valid department always come back as they were. -/
theorem ConvertToUserDB_ConvertToUser (r : UserDB) :
    ((ConvertToUser r).ConvertToUserDB = r ↔
      (r.Department.Valid = true ∨ r.Department.String = "")) ∧
    (ConvertToUser r).ConvertToUserDB =
      { r with Department :=
          if r.Department.Valid then r.Department else { String := "", Valid := false } } := by
  obtain ⟨id, un, fn, ln, em, st, ⟨ds, dv⟩⟩ := r
  cases dv
  · refine ⟨?_, rfl⟩
    constructor
    · intro h
      right
      have h1 := congrArg (fun x => x.Department.String) h
      exact h1.symm
    · rintro (h | h)
      · exact absurd h (by simp)
      · simp only at h
        subst h
        rfl
  · exact ⟨⟨fun _ => Or.inl rfl, fun _ => rfl⟩, rfl⟩

/-! ## Validator: a failed validation -/

/-- C26: when `ValidateNewUserRequest` returns an error, the user after the
call is the user before it, field for field; the status is not normalised. -/
theorem ValidateNewUserRequest_failed_unchanged (u : User)
    (h : u.ValidateNewUserRequest.2 ≠ none) : u.ValidateNewUserRequest.1 = u := by
  unfold User.ValidateNewUserRequest at h ⊢
  by_cases h1 : u.UserName = ""
  · rw [if_pos h1]
  rw [if_neg h1] at h ⊢
  by_cases h2 : u.FirstName = ""
  · rw [if_pos h2]
  rw [if_neg h2] at h ⊢
  by_cases h3 : u.LastName = ""
  · rw [if_pos h3]
  rw [if_neg h3] at h ⊢
  by_cases h4 : u.Email = ""
  · rw [if_pos h4]
  rw [if_neg h4] at h
  exact absurd rfl h

/-- A user without email and with the status "a" fails validation and keeps
the status "a" (C26 at that user). -/
theorem ValidateNewUserRequest_failed_unchanged_witness :
    (User.mk 3 "jdoe" "John" "Doe" "" "a" (some "IT")).ValidateNewUserRequest.1
      = User.mk 3 "jdoe" "John" "Doe" "" "a" (some "IT") :=
  ValidateNewUserRequest_failed_unchanged (User.mk 3 "jdoe" "John" "Doe" "" "a" (some "IT"))
    (by decide)

/-! ## `UpdateUser`: the values in the set-map -/

/-- C25, as stated, fails: a user whose department is present and empty gets
a department entry in the set-map that carries the empty text, and the update
statement hands that empty text to the storage. -/
theorem UpdateUser_sets_empty_department :
    mapGet (UpdateUser.updateValues (User.mk 1 "" "" "" "" "" (some ""))) "department"
      = some (.stringPtr (some "")) ∧
    (UpdateUser (scriptDB [.result (.ok (.ok 0))]) (User.mk 1 "" "" "" "" "" (some ""))).2.trace
      = [{ query := "UPDATE users SET department = $1 WHERE user_id = $2 RETURNING user_id"
           args := [.stringPtr (some ""), .int64 1] }] := by
  decide

/-- C25, amended: in the set-map of `UpdateUser` every entry of user_name,
first_name, last_name, email and user_status carries a non-empty text, that of
the field; the department entry is there exactly when the department is
present and carries its text, which may be the empty text. -/
theorem UpdateUser_setMap_values (u : User) :
    (∀ k : String, ∀ v : Value,
      k = "user_name" ∨ k = "first_name" ∨ k = "last_name" ∨ k = "email" ∨ k = "user_status" →
      mapGet (UpdateUser.updateValues u) k = some v →
      ∃ s : String, s ≠ "" ∧ v = .string s) ∧
    (∀ d : String, u.Department = some d →
      mapGet (UpdateUser.updateValues u) "department" = some (.stringPtr (some d))) ∧
    (u.Department = none → mapGet (UpdateUser.updateValues u) "department" = none) := by
  refine ⟨?_, ?_, ?_⟩
  · intro k v hk hv
    rcases hk with rfl | rfl | rfl | rfl | rfl
    · simp only [UpdateUser.updateValues, mapGet_ite_mapSet, mapGet] at hv
      by_cases h : u.UserName = "" <;> simp [h] at hv
      exact ⟨u.UserName, h, hv.symm⟩
    · simp only [UpdateUser.updateValues, mapGet_ite_mapSet, mapGet] at hv
      by_cases h : u.FirstName = "" <;> simp [h] at hv
      exact ⟨u.FirstName, h, hv.symm⟩
    · simp only [UpdateUser.updateValues, mapGet_ite_mapSet, mapGet] at hv
      by_cases h : u.LastName = "" <;> simp [h] at hv
      exact ⟨u.LastName, h, hv.symm⟩
    · simp only [UpdateUser.updateValues, mapGet_ite_mapSet, mapGet] at hv
      by_cases h : u.Email = "" <;> simp [h] at hv
      exact ⟨u.Email, h, hv.symm⟩
    · simp only [UpdateUser.updateValues, mapGet_ite_mapSet, mapGet] at hv
      by_cases h : u.UserStatus = "" <;> simp [h] at hv
      exact ⟨u.UserStatus, h, hv.symm⟩
  · intro d hd
    simp only [UpdateUser.updateValues, mapGet_ite_mapSet, mapGet]
    simp [hd]
  · intro hd
    simp only [UpdateUser.updateValues, mapGet_ite_mapSet, mapGet]
    simp [hd]

/-- A user who gives an email and an empty department: the email entry
carries the non-empty email, the department entry the empty text (C25,
amended, at that user). -/
theorem UpdateUser_setMap_values_witness :
    (∃ s : String, s ≠ "" ∧ Value.string "j@x.org" = .string s) ∧
    mapGet (UpdateUser.updateValues (User.mk 1 "" "" "" "j@x.org" "" (some ""))) "department"
      = some (.stringPtr (some "")) :=
  ⟨(UpdateUser_setMap_values (User.mk 1 "" "" "" "j@x.org" "" (some ""))).1 "email"
      (.string "j@x.org") (Or.inr (Or.inr (Or.inr (Or.inl rfl)))) (by decide),
    (UpdateUser_setMap_values (User.mk 1 "" "" "" "j@x.org" "" (some ""))).2.1 "" rfl⟩

/-! ## HTTP handlers -/

/-- The handler `handlers.CreateUser` when the body is bound and validation
succeeds, in terms of what the service answers. -/
theorem handlers_CreateUser_of_valid {ω : Type} (service : Service ω) (c : Request) (w : ω)
    (u0 : User) (hb : c.Bind = .ok u0) (hv : u0.ValidateNewUserRequest.2 = none) :
    handlers.CreateUser service c w =
      match (service.Create c.toContext u0.ValidateNewUserRequest.1 w).1.2 with
      | some err =>
        { response := JSON 500 (.error { Error := err.message })
          world := (service.Create c.toContext u0.ValidateNewUserRequest.1 w).2
          calls := [.create u0.ValidateNewUserRequest.1] }
      | none =>
        { response :=
            JSON 201 (.user (service.Create c.toContext u0.ValidateNewUserRequest.1 w).1.1)
          world := (service.Create c.toContext u0.ValidateNewUserRequest.1 w).2
          calls := [.create u0.ValidateNewUserRequest.1] } := by
  unfold handlers.CreateUser
  simp only [hb, hv]
  rfl

/-- The handler `handlers.CreateUser` when validation fails. -/
theorem handlers_CreateUser_of_invalid {ω : Type} (service : Service ω) (c : Request) (w : ω)
    (u0 : User) (err : Error) (hb : c.Bind = .ok u0)
    (hv : u0.ValidateNewUserRequest.2 = some err) :
    handlers.CreateUser service c w =
      { response := JSON 500 (.error { Error := err.message }), world := w, calls := [] } := by
  unfold handlers.CreateUser
  simp only [hb, hv]
  rfl

/-- The handler `handlers.CreateUser` when the body cannot be bound. -/
theorem handlers_CreateUser_of_unbound {ω : Type} (service : Service ω) (c : Request) (w : ω)
    (err : Error) (hb : c.Bind = .error err) :
    handlers.CreateUser service c w =
      { response := JSON 400 (.error { Error := err.message }), world := w, calls := [] } := by
  unfold handlers.CreateUser
  simp only [hb]
  rfl

/-- C22: the status code and body of each handler as a function of the
outcome. GET /users: 200 with the list, or 500. GET /users/:user_id: 200 with
the user, or 500 for every service error. POST /users: 400 when the body is
not bound, 500 when validation fails or the service fails, 201 with the
created user otherwise. PUT /users: 400 when the body is not bound, 500 when
the service fails, 200 with the updated user otherwise. DELETE
/users/:user_id: 204 with no body, or 400 for every service error. Every
error body is the one field with the message of the error. -/
theorem handlers_status {ω : Type} (service : Service ω) (c : Request) (w : ω) :
    ((service.GetAll c.toContext w).1.2 = none →
      (handlers.GetAllUsers service c w).response
        = { status := 200, body := .users (service.GetAll c.toContext w).1.1 }) ∧
    (∀ err : Error, (service.GetAll c.toContext w).1.2 = some err →
      (handlers.GetAllUsers service c w).response
        = { status := 500, body := .error { Error := err.message } }) ∧
    ((service.GetByID c.toContext w).1.2 = none →
      (handlers.GetUserByID service c w).response
        = { status := 200, body := .user (service.GetByID c.toContext w).1.1 }) ∧
    (∀ err : Error, (service.GetByID c.toContext w).1.2 = some err →
      (handlers.GetUserByID service c w).response
        = { status := 500, body := .error { Error := err.message } }) ∧
    (∀ err : Error, c.Bind = .error err →
      (handlers.CreateUser service c w).response
        = { status := 400, body := .error { Error := err.message } }) ∧
    (∀ (u0 : User) (err : Error), c.Bind = .ok u0 →
      u0.ValidateNewUserRequest.2 = some err →
      (handlers.CreateUser service c w).response
        = { status := 500, body := .error { Error := err.message } }) ∧
    (∀ (u0 : User) (err : Error), c.Bind = .ok u0 → u0.ValidateNewUserRequest.2 = none →
      (service.Create c.toContext u0.ValidateNewUserRequest.1 w).1.2 = some err →
      (handlers.CreateUser service c w).response
        = { status := 500, body := .error { Error := err.message } }) ∧
    (∀ u0 : User, c.Bind = .ok u0 → u0.ValidateNewUserRequest.2 = none →
      (service.Create c.toContext u0.ValidateNewUserRequest.1 w).1.2 = none →
      (handlers.CreateUser service c w).response
        = { status := 201
            body := .user (service.Create c.toContext u0.ValidateNewUserRequest.1 w).1.1 }) ∧
    (∀ err : Error, c.Bind = .error err →
      (handlers.UpdateUser service c w).response
        = { status := 400, body := .error { Error := err.message } }) ∧
    (∀ (u0 : User) (err : Error), c.Bind = .ok u0 →
      (service.Update c.toContext u0 w).1.2 = some err →
      (handlers.UpdateUser service c w).response
        = { status := 500, body := .error { Error := err.message } }) ∧
    (∀ u0 : User, c.Bind = .ok u0 → (service.Update c.toContext u0 w).1.2 = none →
      (handlers.UpdateUser service c w).response
        = { status := 200, body := .user (service.Update c.toContext u0 w).1.1 }) ∧
    ((service.DeleteByID c.toContext w).1 = none →
      (handlers.DeleteUser service c w).response = { status := 204, body := .empty }) ∧
    (∀ err : Error, (service.DeleteByID c.toContext w).1 = some err →
      (handlers.DeleteUser service c w).response
        = { status := 400, body := .error { Error := err.message } }) := by
  refine ⟨?_, ?_, ?_, ?_, ?_, ?_, ?_, ?_, ?_, ?_, ?_, ?_, ?_⟩
  · intro h
    unfold handlers.GetAllUsers
    simp only [h]
    rfl
  · intro err h
    unfold handlers.GetAllUsers
    simp only [h]
    rfl
  · intro h
    unfold handlers.GetUserByID
    simp only [h]
    rfl
  · intro err h
    unfold handlers.GetUserByID
    simp only [h]
    rfl
  · intro err hb
    rw [handlers_CreateUser_of_unbound service c w err hb]
    rfl
  · intro u0 err hb hv
    rw [handlers_CreateUser_of_invalid service c w u0 err hb hv]
    rfl
  · intro u0 err hb hv hs
    rw [handlers_CreateUser_of_valid service c w u0 hb hv]
    simp only [hs]
    rfl
  · intro u0 hb hv hs
    rw [handlers_CreateUser_of_valid service c w u0 hb hv]
    simp only [hs]
    rfl
  · intro err hb
    unfold handlers.UpdateUser
    simp only [hb]
    rfl
  · intro u0 err hb hs
    unfold handlers.UpdateUser
    simp only [hb, hs]
    rfl
  · intro u0 hb hs
    unfold handlers.UpdateUser
    simp only [hb, hs]
    rfl
  · intro h
    unfold handlers.DeleteUser
    simp only [h]
    rfl
  · intro err h
    unfold handlers.DeleteUser
    simp only [h]
    rfl

/-- On the example service: a user that is not found gives 500 on GET (not
404); a body that cannot be bound gives 400 on POST; a body with only a
username gives 500 with the message of the missing first name; a complete
body gives 201 with the created user; a failing delete gives 400 (not 500),
each error body holding the message (C22 at these inputs). -/
theorem handlers_status_witness :
    (handlers.GetUserByID (mockService (some .ErrUserNotFound))
        (exampleRequest "99" (.ok (User.mk 0 "" "" "" "" "" none))) ()).response
      = { status := 500, body := .error { Error := "user not found" } } ∧
    (handlers.CreateUser (mockService none)
        (exampleRequest "" (.error (.Errorf "code=400, message=Syntax error"))) ()).response
      = { status := 400, body := .error { Error := "code=400, message=Syntax error" } } ∧
    (handlers.CreateUser (mockService none)
        (exampleRequest "" (.ok (User.mk 0 "jdoe" "" "" "" "" none))) ()).response
      = { status := 500, body := .error { Error := "missing first_name" } } ∧
    (handlers.CreateUser (mockService none)
        (exampleRequest "" (.ok (User.mk 0 "jdoe" "john" "doe" "jdoe@test.com" ""
          (some "test")))) ()).response
      = { status := 201
          body := .user (some (User.mk 1 "jdoe" "john" "doe" "jdoe@test.com" "I"
            (some "test"))) } ∧
    (handlers.DeleteUser (mockService (some .ErrUserNotFound))
        (exampleRequest "99" (.ok (User.mk 0 "" "" "" "" "" none))) ()).response
      = { status := 400, body := .error { Error := "user not found" } } :=
  ⟨(handlers_status (mockService (some .ErrUserNotFound))
      (exampleRequest "99" (.ok (User.mk 0 "" "" "" "" "" none))) ()).2.2.2.1
      .ErrUserNotFound rfl,
    (handlers_status (mockService none)
      (exampleRequest "" (.error (.Errorf "code=400, message=Syntax error"))) ()).2.2.2.2.1
      (.Errorf "code=400, message=Syntax error") rfl,
    (handlers_status (mockService none)
      (exampleRequest "" (.ok (User.mk 0 "jdoe" "" "" "" "" none))) ()).2.2.2.2.2.1
      (User.mk 0 "jdoe" "" "" "" "" none) .ErrMissingFirstName rfl (by decide),
    (handlers_status (mockService none)
      (exampleRequest "" (.ok (User.mk 0 "jdoe" "john" "doe" "jdoe@test.com" ""
        (some "test")))) ()).2.2.2.2.2.2.2.1
      (User.mk 0 "jdoe" "john" "doe" "jdoe@test.com" "" (some "test")) rfl (by decide)
      (by decide),
    (handlers_status (mockService (some .ErrUserNotFound))
      (exampleRequest "99" (.ok (User.mk 0 "" "" "" "" "" none))) ()).2.2.2.2.2.2.2.2.2.2.2.2
      .ErrUserNotFound rfl⟩

/-- A user that passed `ValidateNewUserRequest`: the four required texts are
not empty and the status is one of A, I, T. -/
theorem ValidateNewUserRequest_ok (u0 : User) (hv : u0.ValidateNewUserRequest.2 = none) :
    u0.ValidateNewUserRequest.1.UserName ≠ "" ∧
    u0.ValidateNewUserRequest.1.FirstName ≠ "" ∧
    u0.ValidateNewUserRequest.1.LastName ≠ "" ∧
    u0.ValidateNewUserRequest.1.Email ≠ "" ∧
    (u0.ValidateNewUserRequest.1.UserStatus = "A" ∨
      u0.ValidateNewUserRequest.1.UserStatus = "I" ∨
      u0.ValidateNewUserRequest.1.UserStatus = "T") := by
  unfold User.ValidateNewUserRequest at hv ⊢
  by_cases h1 : u0.UserName = ""
  · rw [if_pos h1] at hv; exact absurd hv (by simp)
  by_cases h2 : u0.FirstName = ""
  · rw [if_neg h1, if_pos h2] at hv; exact absurd hv (by simp)
  by_cases h3 : u0.LastName = ""
  · rw [if_neg h1, if_neg h2, if_pos h3] at hv; exact absurd hv (by simp)
  by_cases h4 : u0.Email = ""
  · rw [if_neg h1, if_neg h2, if_neg h3, if_pos h4] at hv; exact absurd hv (by simp)
  rw [if_neg h1, if_neg h2, if_neg h3, if_neg h4, SetUserStatus_eq]
  refine ⟨h1, h2, h3, h4, ?_⟩
  show (if u0.UserStatus = "a" ∨ u0.UserStatus = "A" then "A"
    else if u0.UserStatus = "t" ∨ u0.UserStatus = "T" then "T" else "I") = "A" ∨ _
  split
  · exact Or.inl rfl
  · split
    · exact Or.inr (Or.inr rfl)
    · exact Or.inr (Or.inl rfl)

/-- C27: the create handler calls the service's `Create` at most once, and
only with a user that was bound from the body and passed
`ValidateNewUserRequest`: the user it hands over has a non-empty username,
first name, last name and email and a status that is one of A, I, T; when the
body cannot be bound or validation fails, `Create` is not called. -/
theorem handlers_CreateUser_calls {ω : Type} (service : Service ω) (c : Request) (w : ω) :
    (handlers.CreateUser service c w).calls.length ≤ 1 ∧
    (∀ call : Call, call ∈ (handlers.CreateUser service c w).calls →
      ∃ u0 : User, c.Bind = .ok u0 ∧ u0.ValidateNewUserRequest.2 = none ∧
        call = .create u0.ValidateNewUserRequest.1 ∧
        u0.ValidateNewUserRequest.1.UserName ≠ "" ∧
        u0.ValidateNewUserRequest.1.FirstName ≠ "" ∧
        u0.ValidateNewUserRequest.1.LastName ≠ "" ∧
        u0.ValidateNewUserRequest.1.Email ≠ "" ∧
        (u0.ValidateNewUserRequest.1.UserStatus = "A" ∨
          u0.ValidateNewUserRequest.1.UserStatus = "I" ∨
          u0.ValidateNewUserRequest.1.UserStatus = "T")) ∧
    (∀ err : Error, c.Bind = .error err → (handlers.CreateUser service c w).calls = []) ∧
    (∀ (u0 : User) (err : Error), c.Bind = .ok u0 →
      u0.ValidateNewUserRequest.2 = some err →
      (handlers.CreateUser service c w).calls = []) ∧
    (∀ u0 : User, c.Bind = .ok u0 → u0.ValidateNewUserRequest.2 = none →
      (handlers.CreateUser service c w).calls = [.create u0.ValidateNewUserRequest.1]) := by
  have hvalid : ∀ u0 : User, c.Bind = .ok u0 → u0.ValidateNewUserRequest.2 = none →
      (handlers.CreateUser service c w).calls = [.create u0.ValidateNewUserRequest.1] := by
    intro u0 hb hv
    rw [handlers_CreateUser_of_valid service c w u0 hb hv]
    cases (service.Create c.toContext u0.ValidateNewUserRequest.1 w).1.2 <;> rfl
  have hinvalid : ∀ (u0 : User) (err : Error), c.Bind = .ok u0 →
      u0.ValidateNewUserRequest.2 = some err →
      (handlers.CreateUser service c w).calls = [] := by
    intro u0 err hb hv
    rw [handlers_CreateUser_of_invalid service c w u0 err hb hv]
  have hunbound : ∀ err : Error, c.Bind = .error err →
      (handlers.CreateUser service c w).calls = [] := by
    intro err hb
    rw [handlers_CreateUser_of_unbound service c w err hb]
  refine ⟨?_, ?_, hunbound, hinvalid, hvalid⟩
  · rcases hb : c.Bind with err | u0
    · rw [hunbound err hb]; decide
    · cases hv : u0.ValidateNewUserRequest.2 with
      | none => rw [hvalid u0 hb hv]; exact Nat.le_refl 1
      | some err => rw [hinvalid u0 err hb hv]; decide
  · intro call hcall
    rcases hb : c.Bind with err | u0
    · rw [hunbound err hb] at hcall
      exact absurd hcall (List.not_mem_nil _)
    · cases hv : u0.ValidateNewUserRequest.2 with
      | none =>
        rw [hvalid u0 hb hv] at hcall
        exact ⟨u0, rfl, hv, List.mem_singleton.mp hcall, ValidateNewUserRequest_ok u0 hv⟩
      | some err =>
        rw [hinvalid u0 err hb hv] at hcall
        exact absurd hcall (List.not_mem_nil _)

/-- On the example service: a complete body with the status "t" leads to one
call of `Create`, with the status T; a body without first name and a body that
cannot be bound lead to no call (C27 at these inputs). -/
theorem handlers_CreateUser_calls_witness :
    (handlers.CreateUser (mockService none)
        (exampleRequest "" (.ok (User.mk 0 "jdoe" "john" "doe" "jdoe@test.com" "t" none)))
        ()).calls
      = [.create (User.mk 0 "jdoe" "john" "doe" "jdoe@test.com" "T" none)] ∧
    (handlers.CreateUser (mockService none)
        (exampleRequest "" (.ok (User.mk 0 "jdoe" "" "" "" "" none))) ()).calls = [] ∧
    (handlers.CreateUser (mockService none)
        (exampleRequest "" (.error (.Errorf "code=400, message=Syntax error"))) ()).calls
      = [] :=
  ⟨(handlers_CreateUser_calls (mockService none)
      (exampleRequest "" (.ok (User.mk 0 "jdoe" "john" "doe" "jdoe@test.com" "t" none)))
      ()).2.2.2.2 (User.mk 0 "jdoe" "john" "doe" "jdoe@test.com" "t" none) rfl (by decide),
    (handlers_CreateUser_calls (mockService none)
      (exampleRequest "" (.ok (User.mk 0 "jdoe" "" "" "" "" none))) ()).2.2.2.1
      (User.mk 0 "jdoe" "" "" "" "" none) .ErrMissingFirstName rfl (by decide),
    (handlers_CreateUser_calls (mockService none)
      (exampleRequest "" (.error (.Errorf "code=400, message=Syntax error"))) ()).2.2.1
      (.Errorf "code=400, message=Syntax error") rfl⟩

/-! ## SQL text and supplied values -/

/-- The statements sent when the trace grew by `l`. -/
theorem issued_of_trace {σ : Type} (before after : DB σ) (l : List Stmt)
    (h : after.trace = before.trace ++ l) : issued before after = l := by
  unfold issued
  rw [h, List.drop_left]

/-- Nothing is sent when the connection is returned as it was. -/
theorem issued_self {σ : Type} (d : DB σ) : issued d d = [] := by
  unfold issued
  exact List.drop_length _

/-- Two runs whose statements are the beginnings of two lists with the same
texts send the same text. -/
theorem sameText_of_beginning (l1 l2 L1 L2 r1 r2 : List Stmt) (h1 : L1 = l1 ++ r1)
    (h2 : L2 = l2 ++ r2) (hq : L1.map Stmt.query = L2.map Stmt.query) : SameText l1 l2 := by
  intro i s s' hs hs'
  have a1 : L1[i]? = some s := by
    rw [h1]
    have hi : i < l1.length := by
      rcases Nat.lt_or_ge i l1.length with h | h
      · exact h
      · rw [List.getElem?_eq_none h] at hs
        exact absurd hs (by simp)
    rw [List.getElem?_append_left hi]
    exact hs
  have a2 : L2[i]? = some s' := by
    rw [h2]
    have hi : i < l2.length := by
      rcases Nat.lt_or_ge i l2.length with h | h
      · exact h
      · rw [List.getElem?_eq_none h] at hs'
        exact absurd hs' (by simp)
    rw [List.getElem?_append_left hi]
    exact hs'
  have b1 : (L1.map Stmt.query)[i]? = some s.query := by
    rw [List.getElem?_map, a1]
    rfl
  have b2 : (L2.map Stmt.query)[i]? = some s'.query := by
    rw [List.getElem?_map, a2]
    rfl
  rw [hq, b2] at b1
  exact (Option.some.inj b1).symm

/-- The statements `GetUser` sends are a beginning of the select by id. -/
theorem GetUser_issued {σ : Type} (d : DB σ) (id : Int) :
    issued d (GetUser d id).2 = [] ∨ issued d (GetUser d id).2 = [selectUserByID id] := by
  by_cases hid : id = 0
  · left
    subst hid
    exact issued_self d
  · right
    apply issued_of_trace
    rw [GetUser_eq d id hid]
    rfl

/-- The statements `CheckUserNameExists` sends are a beginning of the count. -/
theorem CheckUserNameExists_issued {σ : Type} (d : DB σ) (userName : String) :
    issued d (CheckUserNameExists d userName).2 = [] ∨
      issued d (CheckUserNameExists d userName).2 = [countByUserName userName] := by
  by_cases hn : userName = ""
  · left
    have : CheckUserNameExists d userName = ((false, some .ErrMissingUserName), d) := by
      unfold CheckUserNameExists
      rw [if_pos hn]
    rw [this]
    exact issued_self d
  · right
    exact issued_of_trace _ _ _ (CheckUserNameExists_trace d userName hn)

/-- The statements `DeleteUser` sends are the delete by id. -/
theorem DeleteUser_issued {σ : Type} (d : DB σ) (id : Int) :
    issued d (DeleteUser d id).2 = [deleteUserByID id] := by
  apply issued_of_trace
  rw [DeleteUser_eq d id]
  rfl

/-- The connection `CreateUser` returns is the one left by the check, or that
one after the insert was sent. -/
theorem CreateUser_conn {σ : Type} (d : DB σ) (u : User) :
    (CreateUser d u).2 = (CheckUserNameExists d u.UserName).2 ∨
      ∃ st : σ, (CreateUser d u).2
        = (CheckUserNameExists d u.UserName).2.sent (insertUser u.ConvertToUserDB) st := by
  rcases h : (CheckUserNameExists d u.UserName).1 with ⟨b, e⟩
  cases e with
  | some err =>
    left
    have h2 : (CheckUserNameExists d u.UserName).1.2 = some err := by rw [h]
    unfold CreateUser
    simp only [h2]
  | none =>
    cases b with
    | true =>
      left
      rw [CreateUser_of_exists d u h]
    | false =>
      right
      rw [CreateUser_of_fresh d u h]
      exact ⟨_, rfl⟩

/-- The statements `CreateUser` sends are a beginning of the count followed by
the insert. -/
theorem CreateUser_issued {σ : Type} (d : DB σ) (u : User) :
    issued d (CreateUser d u).2 = [] ∨
      issued d (CreateUser d u).2 = [countByUserName u.UserName] ∨
      issued d (CreateUser d u).2
        = [countByUserName u.UserName, insertUser u.ConvertToUserDB] := by
  rcases CheckUserNameExists_issued d u.UserName with hc | hc
  · by_cases hn : u.UserName = ""
    · left
      have h1 : CheckUserNameExists d u.UserName = ((false, some .ErrMissingUserName), d) := by
        unfold CheckUserNameExists
        rw [if_pos hn]
      have h2 : (CheckUserNameExists d u.UserName).1.2 = some .ErrMissingUserName := by rw [h1]
      have h3 : (CreateUser d u).2 = (CheckUserNameExists d u.UserName).2 := by
        unfold CreateUser
        simp only [h2]
      rw [h3]
      exact hc
    · have := issued_of_trace _ _ _ (CheckUserNameExists_trace d u.UserName hn)
      rw [this] at hc
      exact absurd hc (by simp)
  · by_cases hn : u.UserName = ""
    · have h1 : CheckUserNameExists d u.UserName = ((false, some .ErrMissingUserName), d) := by
        unfold CheckUserNameExists
        rw [if_pos hn]
      rw [h1, issued_self] at hc
      exact absurd hc (by simp)
    · have ht := CheckUserNameExists_trace d u.UserName hn
      rcases CreateUser_conn d u with h | ⟨st, h⟩
      · right; left
        rw [h]
        exact hc
      · right; right
        apply issued_of_trace
        rw [h]
        show (CheckUserNameExists d u.UserName).2.trace ++ [insertUser u.ConvertToUserDB] = _
        rw [ht, List.append_assoc]
        rfl

/-- The statements `UpdateUser` sends are a beginning of the update followed
by the select of the re-read. -/
theorem UpdateUser_issued {σ : Type} (d : DB σ) (u : User) :
    issued d (UpdateUser d u).2 = [] ∨
      issued d (UpdateUser d u).2 = [updateUserStmt u] ∨
      issued d (UpdateUser d u).2 = [updateUserStmt u, selectUserByID u.ID] := by
  by_cases hid : u.ID = 0
  · left
    have : UpdateUser d u = ((none, some .ErrMissingUserID), d) := by
      unfold UpdateUser
      rw [if_pos hid]
    rw [this]
    exact issued_self d
  · by_cases hm : UpdateUser.updateValues u = []
    · left
      have : UpdateUser d u = ((none, some .ErrUpdateUserMissingValues), d) := by
        unfold UpdateUser
        rw [if_neg hid, hm]
        rfl
      rw [this]
      exact issued_self d
    · rcases UpdateUser_trace d u hid hm with h | h
      · right; left
        exact issued_of_trace _ _ _ h
      · right; right
        exact issued_of_trace _ _ _ h

/-- The columns of the set clauses of `UpdateUser`, in their order, are the
columns of the fields that are present. -/
theorem sortByKey_updateValues_columns (u : User) :
    (sortByKey (UpdateUser.updateValues u)).map (fun p => p.1) = setColumns u := by
  obtain ⟨id, un, fn, ln, em, st, dep⟩ := u
  by_cases h1 : un = "" <;> by_cases h2 : fn = "" <;> by_cases h3 : ln = "" <;>
    by_cases h4 : em = "" <;> by_cases h5 : st = "" <;> cases dep <;>
    simp only [UpdateUser.updateValues, setColumns, h1, h2, h3, h4, h5, ne_eq,
      not_true_eq_false, not_false_eq_true, if_true, if_false, reduceCtorEq] <;>
    rfl

/-- The set clauses written for the entries of a map are those written for
its columns alone. -/
theorem setClauses_text_of_columns (l : List (String × Value)) (n : Nat) :
    (l.enumFrom n).map (fun p => p.2.1 ++ " = $" ++ toString (p.1 + 1))
      = ((l.map (fun p => p.1)).enumFrom n).map
          (fun p => p.2 ++ " = $" ++ toString (p.1 + 1)) := by
  induction l generalizing n with
  | nil => rfl
  | cons a rest ih =>
    simp only [List.enumFrom_cons, List.map_cons]
    rw [ih]

/-- The text of the update statement of a user depends on the columns that are
present and on nothing else. -/
theorem updateUserStmt_query (u : User) :
    (updateUserStmt u).query = updateTextFor (setColumns u) := by
  have hl : (sortByKey (UpdateUser.updateValues u)).length = (setColumns u).length := by
    rw [← sortByKey_updateValues_columns, List.length_map]
  have hc := setClauses_text_of_columns (sortByKey (UpdateUser.updateValues u)) 0
  rw [sortByKey_updateValues_columns] at hc
  show "UPDATE users SET "
      ++ ", ".intercalate ((sortByKey (UpdateUser.updateValues u)).enum.map
          (fun p => p.2.1 ++ " = $" ++ toString (p.1 + 1)))
      ++ " WHERE user_id = $" ++ toString ((sortByKey (UpdateUser.updateValues u)).length + 1)
      ++ " RETURNING user_id" = _
  rw [hl, List.enum, hc]
  rfl

/-- Users who give the same set of fields set the same columns. -/
theorem setColumns_of_samePresence (u u' : User) (h : SamePresence u u') :
    setColumns u = setColumns u' := by
  obtain ⟨h1, h2, h3, h4, h5, h6⟩ := h
  unfold setColumns
  simp only [ne_eq, propext h1, propext h2, propext h3, propext h4, propext h5, propext h6]

/-- C21: every statement sent by `GetUser`, `CheckUserNameExists`,
`CreateUser`, `UpdateUser` and `DeleteUser` has a text made of fixed words and
placeholders, with the supplied values in the argument list: the text is one
of four fixed texts, or for an update the text determined by which columns
are present. So two runs of the same operation, on any two connections and
with any two supplied values (for `UpdateUser`, with the same set of fields
present), send the same text at every place where both send a statement. -/
theorem sql_text_independent_of_values {σ : Type} (d d' : DB σ) :
    (∀ (id : Int) (s : Stmt), s ∈ issued d (GetUser d id).2 →
      s.query = "SELECT user_id, user_name, first_name, last_name, email, user_status, department FROM users WHERE user_id = $1" ∧
      s.args = [.int64 id]) ∧
    (∀ (userName : String) (s : Stmt), s ∈ issued d (CheckUserNameExists d userName).2 →
      s.query = "SELECT COUNT(*) FROM users WHERE user_name = $1" ∧
      s.args = [.string userName]) ∧
    (∀ (u : User) (s : Stmt), s ∈ issued d (CreateUser d u).2 →
      (s.query = "SELECT COUNT(*) FROM users WHERE user_name = $1" ∧
        s.args = [.string u.UserName]) ∨
      (s.query = "INSERT INTO users (user_name,first_name,last_name,email,user_status,department) VALUES ($1,$2,$3,$4,$5,$6) RETURNING user_id" ∧
        s.args = [.string u.UserName, .string u.FirstName, .string u.LastName,
          .string u.Email, .string u.UserStatus,
          .nullString u.ConvertToUserDB.Department])) ∧
    (∀ (u : User) (s : Stmt), s ∈ issued d (UpdateUser d u).2 →
      (s.query = updateTextFor (setColumns u) ∧
        s.args = (sortByKey (UpdateUser.updateValues u)).map (fun p => p.2)
          ++ [.int64 u.ID]) ∨
      (s.query = "SELECT user_id, user_name, first_name, last_name, email, user_status, department FROM users WHERE user_id = $1" ∧
        s.args = [.int64 u.ID])) ∧
    (∀ (id : Int) (s : Stmt), s ∈ issued d (DeleteUser d id).2 →
      s.query = "DELETE FROM users WHERE user_id = $1" ∧ s.args = [.int64 id]) ∧
    (∀ id id' : Int, SameText (issued d (GetUser d id).2) (issued d' (GetUser d' id').2)) ∧
    (∀ n n' : String,
      SameText (issued d (CheckUserNameExists d n).2)
        (issued d' (CheckUserNameExists d' n').2)) ∧
    (∀ u u' : User,
      SameText (issued d (CreateUser d u).2) (issued d' (CreateUser d' u').2)) ∧
    (∀ u u' : User, SamePresence u u' →
      SameText (issued d (UpdateUser d u).2) (issued d' (UpdateUser d' u').2)) ∧
    (∀ id id' : Int,
      SameText (issued d (DeleteUser d id).2) (issued d' (DeleteUser d' id').2)) := by
  refine ⟨?_, ?_, ?_, ?_, ?_, ?_, ?_, ?_, ?_, ?_⟩
  · intro id s hs
    rcases GetUser_issued d id with h | h <;> rw [h] at hs
    · exact absurd hs (List.not_mem_nil _)
    · rw [List.mem_singleton.mp hs]
      exact ⟨rfl, rfl⟩
  · intro n s hs
    rcases CheckUserNameExists_issued d n with h | h <;> rw [h] at hs
    · exact absurd hs (List.not_mem_nil _)
    · rw [List.mem_singleton.mp hs]
      exact ⟨rfl, rfl⟩
  · intro u s hs
    have hargs : (insertUser u.ConvertToUserDB).args
        = [.string u.UserName, .string u.FirstName, .string u.LastName, .string u.Email,
            .string u.UserStatus, .nullString u.ConvertToUserDB.Department] := by
      obtain ⟨id, un, fn, ln, em, st, dep⟩ := u
      cases dep <;> rfl
    rcases CreateUser_issued d u with h | h | h <;> rw [h] at hs
    · exact absurd hs (List.not_mem_nil _)
    · rw [List.mem_singleton.mp hs]
      exact Or.inl ⟨rfl, rfl⟩
    · rcases List.mem_cons.mp hs with h1 | h1
      · rw [h1]
        exact Or.inl ⟨rfl, rfl⟩
      · rw [List.mem_singleton.mp h1]
        exact Or.inr ⟨rfl, hargs⟩
  · intro u s hs
    rcases UpdateUser_issued d u with h | h | h <;> rw [h] at hs
    · exact absurd hs (List.not_mem_nil _)
    · rw [List.mem_singleton.mp hs]
      exact Or.inl ⟨updateUserStmt_query u, rfl⟩
    · rcases List.mem_cons.mp hs with h1 | h1
      · rw [h1]
        exact Or.inl ⟨updateUserStmt_query u, rfl⟩
      · rw [List.mem_singleton.mp h1]
        exact Or.inr ⟨rfl, rfl⟩
  · intro id s hs
    rw [DeleteUser_issued d id] at hs
    rw [List.mem_singleton.mp hs]
    exact ⟨rfl, rfl⟩
  · intro id id'
    have hq : [selectUserByID id].map Stmt.query = [selectUserByID id'].map Stmt.query := rfl
    rcases GetUser_issued d id with h | h <;> rcases GetUser_issued d' id' with h' | h' <;>
      rw [h, h']
    · exact sameText_of_beginning _ _ _ _ [selectUserByID id] [selectUserByID id'] rfl rfl hq
    · exact sameText_of_beginning _ _ _ _ [selectUserByID id] [] rfl rfl hq
    · exact sameText_of_beginning _ _ _ _ [] [selectUserByID id'] rfl rfl hq
    · exact sameText_of_beginning _ _ _ _ [] [] rfl rfl hq
  · intro n n'
    have hq : [countByUserName n].map Stmt.query = [countByUserName n'].map Stmt.query := rfl
    rcases CheckUserNameExists_issued d n with h | h <;>
      rcases CheckUserNameExists_issued d' n' with h' | h' <;> rw [h, h']
    · exact sameText_of_beginning _ _ _ _ [countByUserName n] [countByUserName n'] rfl rfl hq
    · exact sameText_of_beginning _ _ _ _ [countByUserName n] [] rfl rfl hq
    · exact sameText_of_beginning _ _ _ _ [] [countByUserName n'] rfl rfl hq
    · exact sameText_of_beginning _ _ _ _ [] [] rfl rfl hq
  · intro u u'
    have hq : [countByUserName u.UserName, insertUser u.ConvertToUserDB].map Stmt.query
        = [countByUserName u'.UserName, insertUser u'.ConvertToUserDB].map Stmt.query := rfl
    have key : ∀ (v : User) (l : List Stmt),
        (l = [] ∨ l = [countByUserName v.UserName] ∨
          l = [countByUserName v.UserName, insertUser v.ConvertToUserDB]) →
        ∃ r, [countByUserName v.UserName, insertUser v.ConvertToUserDB] = l ++ r := by
      intro v l hl
      rcases hl with h | h | h <;> rw [h]
      · exact ⟨_, rfl⟩
      · exact ⟨[insertUser v.ConvertToUserDB], rfl⟩
      · exact ⟨[], rfl⟩
    obtain ⟨r, hr⟩ := key u _ (CreateUser_issued d u)
    obtain ⟨r', hr'⟩ := key u' _ (CreateUser_issued d' u')
    exact sameText_of_beginning _ _ _ _ r r' hr hr' hq
  · intro u u' hp
    have hq : [updateUserStmt u, selectUserByID u.ID].map Stmt.query
        = [updateUserStmt u', selectUserByID u'.ID].map Stmt.query := by
      show [(updateUserStmt u).query, (selectUserByID u.ID).query]
        = [(updateUserStmt u').query, (selectUserByID u'.ID).query]
      rw [updateUserStmt_query, updateUserStmt_query, setColumns_of_samePresence u u' hp]
      rfl
    have key : ∀ (v : User) (l : List Stmt),
        (l = [] ∨ l = [updateUserStmt v] ∨ l = [updateUserStmt v, selectUserByID v.ID]) →
        ∃ r, [updateUserStmt v, selectUserByID v.ID] = l ++ r := by
      intro v l hl
      rcases hl with h | h | h <;> rw [h]
      · exact ⟨_, rfl⟩
      · exact ⟨[selectUserByID v.ID], rfl⟩
      · exact ⟨[], rfl⟩
    obtain ⟨r, hr⟩ := key u _ (UpdateUser_issued d u)
    obtain ⟨r', hr'⟩ := key u' _ (UpdateUser_issued d' u')
    exact sameText_of_beginning _ _ _ _ r r' hr hr' hq
  · intro id id'
    rw [DeleteUser_issued d id, DeleteUser_issued d' id']
    exact sameText_of_beginning _ _ [deleteUserByID id] [deleteUserByID id'] [] [] rfl rfl rfl

/-- Two updates of the first name and the department, with different ids and
different values, one of them a text that looks like SQL: both runs send the
same text, `UPDATE users SET department = $1, first_name = $2 WHERE user_id =
$3 RETURNING user_id`, and the text that looks like SQL is an argument (C21 at
these inputs). -/
theorem sql_text_independent_of_values_witness :
    SameText
      (issued (scriptDB [.result (.ok (.ok 0))])
        (UpdateUser (scriptDB [.result (.ok (.ok 0))])
          (User.mk 1 "" "John" "" "" "" (some "IT"))).2)
      (issued (scriptDB [.result (.ok (.ok 0))])
        (UpdateUser (scriptDB [.result (.ok (.ok 0))])
          (User.mk 2 "" "x; DROP TABLE users; --" "" "" "" (some ""))).2) ∧
    issued (scriptDB [.result (.ok (.ok 0))])
        (UpdateUser (scriptDB [.result (.ok (.ok 0))])
          (User.mk 2 "" "x; DROP TABLE users; --" "" "" "" (some ""))).2
      = [{ query := "UPDATE users SET department = $1, first_name = $2 WHERE user_id = $3 RETURNING user_id"
           args := [.stringPtr (some ""), .string "x; DROP TABLE users; --", .int64 2] }] :=
  ⟨(sql_text_independent_of_values (scriptDB [.result (.ok (.ok 0))])
      (scriptDB [.result (.ok (.ok 0))])).2.2.2.2.2.2.2.2.1
      (User.mk 1 "" "John" "" "" "" (some "IT"))
      (User.mk 2 "" "x; DROP TABLE users; --" "" "" "" (some ""))
      (by unfold SamePresence; decide),
    by decide⟩

/-! ## Username uniqueness on the table -/

/-- C24 at the failing input: on the table of jdoe (id 1) and asmith (id 2),
whose usernames are distinct, `UpdateUser` with the id 2 and the username jdoe
succeeds: it sends the update without a check of the name and reads the row
back; afterwards both rows have the username jdoe, and the usernames are no
longer distinct. -/
theorem UpdateUser_breaks_username_uniqueness :
    UsernamesDistinct exampleTable ∧
    (UpdateUser (tableDB exampleTable) (User.mk 2 "jdoe" "" "" "" "" none)).1
      = (some (User.mk 2 "jdoe" "Alice" "Smith" "asmith@example.com" "I" none), none) ∧
    (UpdateUser (tableDB exampleTable) (User.mk 2 "jdoe" "" "" "" "" none)).2.trace
      = [{ query := "UPDATE users SET user_name = $1 WHERE user_id = $2 RETURNING user_id"
           args := [.string "jdoe", .int64 2] },
         selectUserByID 2] ∧
    (UpdateUser (tableDB exampleTable)
        (User.mk 2 "jdoe" "" "" "" "" none)).2.state.rows.map (fun r => r.UserName)
      = ["jdoe", "jdoe"] ∧
    ¬ UsernamesDistinct
      (UpdateUser (tableDB exampleTable) (User.mk 2 "jdoe" "" "" "" "" none)).2.state := by
  decide

/-- What the table answers to the count statement: the number of rows with
that username, and the table as it was. -/
theorem tableDriver_count (t : Table) (name : String) :
    tableDriver.queryRowInt t (countByUserName name)
      = (.ok ((t.rows.filter (fun r => decide (r.UserName = name))).length : Int), t) := rfl

/-- What the table answers to the insert statement: the next identifier, and
the table with the new row at the end. -/
theorem tableDriver_insert (t : Table) (r : UserDB) :
    tableDriver.queryRowInt t (insertUser r)
      = (.ok t.nextID,
          { rows := t.rows ++ [⟨t.nextID, r.UserName, r.FirstName, r.LastName, r.Email,
              r.UserStatus, r.Department⟩]
            nextID := t.nextID + 1 }) := rfl

/-- What the table answers to the delete statement: the number of rows of
that id, and the table without them. -/
theorem tableDriver_delete (t : Table) (id : Int) :
    tableDriver.exec t (deleteUserByID id)
      = (.ok (.ok ((t.rows.filter (fun r => decide (r.UserID = id))).length : Int)),
          { t with rows := t.rows.filter (fun r => !decide (r.UserID = id)) }) := rfl

/-- In a table with distinct usernames, a name that is not counted exactly
once is the name of no row. -/
theorem not_mem_of_count_ne_one (t : Table) (name : String) (hd : UsernamesDistinct t)
    (hc : ((t.rows.filter (fun r => decide (r.UserName = name))).length : Int) ≠ 1) :
    name ∉ t.rows.map (fun r => r.UserName) := by
  intro hmem
  apply hc
  have h1 : (t.rows.filter (fun r => decide (r.UserName = name))).length
      = (t.rows.map (fun r => r.UserName)).count name := by
    rw [List.count, List.countP_map, List.countP_eq_length_filter]
    congr 1
  have h2 : (t.rows.map (fun r => r.UserName)).count name = 1 :=
    List.count_eq_one_of_mem hd hmem
  rw [h1, h2]
  rfl

/-- `CreateUser` keeps the usernames of the table distinct: it inserts only a
name that the count did not find. -/
theorem CreateUser_preserves_uniqueness (d : DB Table) (u : User)
    (hdrv : d.driver = tableDriver) (hd : UsernamesDistinct d.state) :
    UsernamesDistinct (CreateUser d u).2.state := by
  by_cases hn : u.UserName = ""
  · have h1 : CheckUserNameExists d u.UserName = ((false, some .ErrMissingUserName), d) := by
      unfold CheckUserNameExists
      rw [if_pos hn]
    have h2 : (CheckUserNameExists d u.UserName).1.2 = some .ErrMissingUserName := by rw [h1]
    have h3 : (CreateUser d u).2 = (CheckUserNameExists d u.UserName).2 := by
      unfold CreateUser
      simp only [h2]
    rw [h3, h1]
    exact hd
  · have hchk := CheckUserNameExists_eq d u.UserName hn
    rw [hdrv, tableDriver_count] at hchk
    have hst : (CheckUserNameExists d u.UserName).2.state = d.state := by rw [hchk]; rfl
    have hdr : (CheckUserNameExists d u.UserName).2.driver = tableDriver := by
      rw [hchk]; exact hdrv
    by_cases hc : ((d.state.rows.filter (fun r => decide (r.UserName = u.UserName))).length
        : Int) = 1
    · have h1 : (CheckUserNameExists d u.UserName).1 = (true, none) := by
        rw [hchk]
        simp only [hc, decide_True]
      rw [CreateUser_of_exists d u h1, hst]
      exact hd
    · have h1 : (CheckUserNameExists d u.UserName).1 = (false, none) := by
        rw [hchk]
        simp only [hc, decide_False]
      rw [CreateUser_of_fresh d u h1]
      show UsernamesDistinct
        ((CheckUserNameExists d u.UserName).2.driver.queryRowInt
          (CheckUserNameExists d u.UserName).2.state (insertUser u.ConvertToUserDB)).2
      rw [hdr, hst, tableDriver_insert]
      show ((d.state.rows ++ [_]).map (fun r : UserDB => r.UserName)).Nodup
      rw [List.map_append, List.map_singleton]
      have hnot := not_mem_of_count_ne_one d.state u.UserName hd hc
      have hname : u.ConvertToUserDB.UserName = u.UserName := by
        obtain ⟨id, un, fn, ln, em, st, dep⟩ := u
        cases dep <;> rfl
      rw [hname]
      exact List.Nodup.append hd (List.nodup_singleton _)
        (List.disjoint_singleton.mpr hnot)

/-- `DeleteUser` keeps the usernames of the table distinct. -/
theorem DeleteUser_preserves_uniqueness (d : DB Table) (id : Int)
    (hdrv : d.driver = tableDriver) (hd : UsernamesDistinct d.state) :
    UsernamesDistinct (DeleteUser d id).2.state := by
  rw [DeleteUser_eq d id]
  show UsernamesDistinct (d.driver.exec d.state (deleteUserByID id)).2
  rw [hdrv, tableDriver_delete]
  exact List.Nodup.sublist (List.Sublist.map _ (List.filter_sublist _)) hd

end Integra
